import Mathlib

/-!
# Volume.cpp: the volume state machine, mount and unmount orchestration

A shallow embedding of `src/Volume.cpp`.  Every call that leaves the file
(system calls, the filesystem drivers, the broadcaster, the methods that a
device class implements) is recorded as an `Event` in a chronological trace,
and the answer of such a call is read from a `World` whose answers may depend
on the whole trace so far.  The member variables of the object are the fields
of `Volume`; `errno` is carried next to them.
-/

namespace Vold

/-! ## Constants of the system headers -/

def ENOENT : Nat := 2
def EIO : Nat := 5
def EBUSY : Nat := 16
def EEXIST : Nat := 17
def ENODEV : Nat := 19
def EINVAL : Nat := 22
def ENOSYS : Nat := 38
def ENODATA : Nat := 61

/-- The type `dev_t`; the source stores `-1` for an undefined device. -/
abbrev dev_t := Int

/-- The macro `MAJOR` of `linux/kdev_t.h`. -/
def MAJOR (dev : dev_t) : Int := dev / 256

/-- The macro `MINOR` of `linux/kdev_t.h`. -/
def MINOR (dev : dev_t) : Int := dev % 256

/-- The macro `MKDEV` of `linux/kdev_t.h`. -/
def MKDEV (ma mi : Int) : dev_t := ma * 256 + mi

/-! ## Declarations of Volume.h -/

/-- Modelled from the spec: the enumeration of volume states is declared in
Volume.h, which is not among the sources; these are the ten states of
section 4.1, under the names Volume.cpp uses for them. -/
inductive State where
  | State_Init
  | State_NoMedia
  | State_Idle
  | State_Pending
  | State_Checking
  | State_Mounted
  | State_Unmounting
  | State_Formatting
  | State_Shared
  | State_SharedMnt
  deriving DecidableEq, Repr

open State

/-- Modelled from the spec: the capability bits of `flags` are declared in
Volume.h, which is not among the sources; section 3 names the three
capabilities, one bit each. -/
def VOL_NONREMOVABLE : Nat := 1

/-- Modelled from the spec: see `VOL_NONREMOVABLE`. -/
def VOL_ENCRYPTABLE : Nat := 2

/-- Modelled from the spec: see `VOL_NONREMOVABLE`. -/
def VOL_PROVIDES_ASEC : Nat := 4

/-- Modelled from the spec: the return code of `unmountVol` for a volume that
is not mounted is declared in Volume.h, which is not among the sources; it is
a failure code. -/
def UNMOUNT_NOT_MOUNTED_ERR : Int := -2

/-- The broadcast codes of ResponseCode.h that Volume.cpp uses. -/
inductive ResponseCode where
  | VolumeStateChange
  | VolumeUuidChange
  | VolumeUserLabelChange
  | VolumeMountFailedNoMedia
  deriving DecidableEq, Repr

/-- The text of a broadcast, kept as the arguments of its format string in
their order (the cut of `snprintf` at the buffer size is not modelled). -/
inductive Msg where
  /-- Format "Volume %s %s state changed from %d (%s) to %d (%s)". -/
  | stateChanged (label fuseMountpoint : String) (oldState : State) (oldName : String)
      (newState : State) (newName : String)
  /-- Format "Volume %s %s mount failed - no media". -/
  | mountFailedNoMedia (label fuseMountpoint : String)
  /-- Format "%s %s" followed by the quoted value when there is one. -/
  | metadata (label fuseMountpoint : String) (value : Option (List Nat))
  deriving DecidableEq, Repr

/-- One record of a mounted sub-partition (`VolumePartition`). -/
structure VolumePartition where
  major : Int
  minor : Int
  letter : Nat
  mountpoint : String
  deriving DecidableEq, Repr

/-- The member variables of `Volume`. -/
structure Volume where
  mLabel : String
  mUuid : Option (List Nat)
  mUserLabel : Option (List Nat)
  mState : State
  mFlags : Nat
  mCurrentlyMountedKdev : dev_t
  mPartIdx : Int
  mRetryMount : Bool
  mSkipAsec : Bool
  mDebug : Bool
  mLetters : Nat
  mPartitions : List VolumePartition
  deriving DecidableEq, Repr

/-! ## The calls that leave Volume.cpp -/

/-- A call that leaves Volume.cpp, with its arguments. -/
inductive Event where
  | sendBroadcast (code : ResponseCode) (msg : Msg)
  | fopen (path : String)
  | fputs (text : String)
  | property_get (key : String)
  | property_set (key value : String)
  | getDeviceNodes (max : Nat)
  | isDecrypted
  | updateDeviceInfo (path : String) (major minor : Int)
  | revertDeviceInfo
  | cryptfs_setup_volume (label : String) (major minor : Int)
  | cryptfs_revert_volume (label : String)
  | mknod (path : String) (dev : Int)
  | fatCheck (fsPath : String)
  | fatDoMount (fsPath mountPoint : String) (gid : Nat)
  | fatFormat (fsPath : String) (wipe : Bool) (label : String)
  | ntfsDoMount (fsPath mountPoint : String)
  | mkdir (path : String)
  | rmdir (path : String)
  | access (path : String)
  | rename (old new : String)
  | fs_prepare_dir (path : String) (gid : Nat)
  | mount (source target : String)
  | umount (path : String)
  | killProcessesWithOpenFiles (path : String) (action : Nat)
  | usleep (usec : Nat)
  | sleep (sec : Nat)
  | system (cmd : String)
  | apply_disk_config (device : String)
  | popen (cmd : String)
  | fgets
  | pclose
  | openCache
  | readCache
  | removeCache
  deriving DecidableEq, Repr

/-- The surroundings of one volume object.  An answer of type `Option Nat` is
`none` for success and `some e` for a failure that sets `errno` to `e`. -/
structure World where
  /-- Whether `SUPPORTED_MULTI_USB_PARTITIONS` is defined. -/
  multiUsb : Bool
  USB_DISK_LABEL : String
  getMountpoint : String
  getFuseMountpoint : String
  getUdiskMountpoint : String → Int → Int → Nat → String
  getDiskDevice : List Event → dev_t
  property_get : List Event → String → Option String
  /-- The lines of /proc/mounts, as `fgets` returns them. -/
  procMounts : List Event → List String
  fopen : List Event → String → Option Nat
  getDeviceNodes : List Event → Nat → List dev_t
  isDecrypted : List Event → Bool
  cryptfs_setup_volume : List Event → String → Int → Int → Option (Int × Int)
  mknod : List Event → String → Option Nat
  fatCheck : List Event → String → Option Nat
  fatDoMount : List Event → String → String → Nat → Option Nat
  fatFormat : List Event → String → Option Nat
  ntfsDoMount : List Event → String → String → Option Nat
  mkdir : List Event → String → Option Nat
  rmdir : List Event → String → Option Nat
  access : List Event → String → Option Nat
  rename : List Event → String → String → Option Nat
  fs_prepare_dir : List Event → String → Nat → Option Nat
  mount : List Event → String → String → Option Nat
  umount : List Event → String → Option Nat
  apply_disk_config : List Event → String → Int
  /-- Whether `popen` of the identification tool succeeds. -/
  popen : List Event → String → Option Nat
  /-- The bytes that `fgets` stores for the first line of the tool's output,
  `none` at end of file. -/
  fgets : List Event → Option (List Nat)
  /-- Opening the cache file. -/
  openCache : List Event → Option Nat
  /-- The bytes that `read` delivers from the cache file (`none`: an error; no
  byte: the end of the file). -/
  readCache : List Event → Option (List Nat)
  /-- What the buffer `line`, which nothing has initialised, holds behind the
  bytes that `read` stored: `read` stores no zero byte. -/
  lineTail : List Event → List Nat

/-- The object together with `errno` and the trace of calls made so far. -/
structure Sys where
  vol : Volume
  errno : Nat
  trace : List Event
  deriving DecidableEq, Repr

/-- Record a call. -/
def Sys.emit (s : Sys) (e : Event) : Sys :=
  { s with trace := s.trace ++ [e] }

/-- The effect on `errno` of a call that answered `r`. -/
def Sys.seterr (s : Sys) (r : Option Nat) : Sys :=
  match r with
  | none => s
  | some e => { s with errno := e }

/-- The user ids of `private/android_filesystem_config.h`. -/
def AID_SYSTEM : Nat := 1000
def AID_SDCARD_RW : Nat := 1015
def AID_MEDIA_RW : Nat := 1023

def SEC_ASECDIR_EXT : String := "/mnt/secure/asec"
def BLKID_PATH : String := "/system/bin/blkid"

/-! ## The state setter -/

/-- The function `stateToStr`, on the declared states. -/
def stateToStr (state : State) : String :=
  if state = State_Init then "Initializing"
  else if state = State_NoMedia then "No-Media"
  else if state = State_Idle then "Idle-Unmounted"
  else if state = State_Pending then "Pending"
  else if state = State_Mounted then "Mounted"
  else if state = State_Unmounting then "Unmounting"
  else if state = State_Checking then "Checking"
  else if state = State_Formatting then "Formatting"
  else if state = State_Shared then "Shared-Unmounted"
  else if state = State_SharedMnt then "Shared-Mounted"
  else "Unknown-Error"

/-- The method `Volume::notifyStateKernel`: for a label that starts with
"external_sd", write the state to /sys/sd-sdio/rescan. -/
def notifyStateKernel (w : World) (number : Nat) (s : Sys) : Sys :=
  if "external_sd".toList.isPrefixOf s.vol.mLabel.toList then
    let r := w.fopen s.trace "/sys/sd-sdio/rescan"
    let s := (s.emit (.fopen "/sys/sd-sdio/rescan")).seterr r
    match r with
    | none =>
      let kstate := "sd-" ++ (if number = 0 then "Ready" else stateToStr s.vol.mState)
      s.emit (.fputs kstate)
    | some _ => s
  else s

/-- The method `Volume::setState`. -/
def setState (w : World) (state : State) (s : Sys) : Sys :=
  let oldState := s.vol.mState
  if oldState = state then
    s
  else
    let s := if oldState = State_Pending ∧ state ≠ State_Idle then
        { s with vol := { s.vol with mRetryMount := false } }
      else s
    let s := { s with vol := { s.vol with mState := state } }
    let s := notifyStateKernel w 1 s
    s.emit (.sendBroadcast .VolumeStateChange
      (.stateChanged s.vol.mLabel w.getFuseMountpoint oldState (stateToStr oldState)
        s.vol.mState (stateToStr s.vol.mState)))

/-- The method `Volume::setUuid`. -/
def setUuid (w : World) (uuid : Option (List Nat)) (s : Sys) : Sys :=
  let s := { s with vol := { s.vol with mUuid := uuid } }
  s.emit (.sendBroadcast .VolumeUuidChange
    (.metadata s.vol.mLabel w.getFuseMountpoint s.vol.mUuid))

/-- The method `Volume::setUserLabel`. -/
def setUserLabel (w : World) (userLabel : Option (List Nat)) (s : Sys) : Sys :=
  let s := { s with vol := { s.vol with mUserLabel := userLabel } }
  s.emit (.sendBroadcast .VolumeUserLabelChange
    (.metadata s.vol.mLabel w.getFuseMountpoint s.vol.mUserLabel))

/-! ## The bounded unmount loop -/

/-- The loop of `Volume::doUnmount`; the first argument is the value of
`retries` that the test `retries--` reads. -/
def doUnmountLoop (w : World) (path : String) (force : Bool) : Nat → Sys → Int × Sys
  | 0, s => (-1, { s with errno := EBUSY })
  | retries + 1, s =>
    let r := w.umount s.trace path
    let s := (s.emit (.umount path)).seterr r
    if r = none ∨ s.errno = EINVAL ∨ s.errno = ENOENT then
      (0, notifyStateKernel w 2 s)
    else
      let s := notifyStateKernel w 3 s
      let action : Nat :=
        if force then
          if retries ≤ 120 then 2
          else if retries ≤ 130 then 1
          else 0
        else 0
      let s := s.emit (.killProcessesWithOpenFiles path action)
      let s := s.emit (.usleep (1000 * 30))
      doUnmountLoop w path force retries s

/-- The method `Volume::doUnmount`. -/
def doUnmount (w : World) (path : String) (force : Bool) (s : Sys) : Int × Sys :=
  doUnmountLoop w path force 150 s

/-! ## The letter allocator -/

/-- The loop of `Volume::getNextLetter`: `k` iterations remain, `i` and `n`
are the loop variables; the result is the returned character and the new
value of `mLetters`. -/
def getNextLetterLoop (mLetters : Nat) : Nat → Nat → Nat → Nat × Nat
  | 0, _, _ => (0, mLetters)
  | k + 1, i, n =>
    if i &&& mLetters ≠ 0 then
      getNextLetterLoop mLetters k (1 <<< (n + 1)) (n + 1)
    else
      (n + 65, mLetters ||| (1 <<< n))

/-- The method `Volume::getNextLetter`, as a function of `mLetters`. -/
def getNextLetter (mLetters : Nat) : Nat × Nat :=
  getNextLetterLoop mLetters 26 1 0

/-- The method `Volume::releaseLetter`, as a function of `mLetters`, a 32-bit
word.  A shift count outside the word is undefined in C; the model leaves
the word unchanged there. -/
def releaseLetter (letter : Nat) (mLetters : Nat) : Nat :=
  if letter < 65 ∨ 65 + 32 ≤ letter then mLetters
  else mLetters &&& ((2 ^ 32 - 1) ^^^ (1 <<< (letter - 65)))

/-! ## Reading the mount table -/

/-- The C predicate `isspace`. -/
def cIsSpace (c : Char) : Bool :=
  c = ' ' ∨ (9 ≤ c.toNat ∧ c.toNat ≤ 13)

/-- One conversion `%255s` of `sscanf`: skip white space, then take up to 255
characters that are not white space; the result is the token and the rest of
the input, or `none` at the end of the input. -/
def scanToken (cs : List Char) : Option (List Char × List Char) :=
  let cs := cs.dropWhile cIsSpace
  if cs = [] then none
  else
    let tok := (cs.takeWhile (fun c => !cIsSpace c)).take 255
    some (tok, cs.drop tok.length)

/-- The loop of `Volume::isMountpointMounted` over the lines of the table;
`mount_path` keeps its last value when a line has no second token. -/
def mountTableHas (path : String) : List String → List Char → Bool
  | [], _ => false
  | line :: rest, mount_path =>
    let cs := line.toList.dropLast
    let mount_path :=
      match scanToken cs with
      | none => mount_path
      | some (_, cs1) =>
        match scanToken cs1 with
        | none => mount_path
        | some (tok, _) => tok
    if mount_path = path.toList then true
    else mountTableHas path rest mount_path

/-- The method `Volume::isMountpointMounted` (the buffer `mount_path` is taken
to start empty). -/
def isMountpointMounted (w : World) (path : String) (s : Sys) : Bool × Sys :=
  let r := w.fopen s.trace "/proc/mounts"
  let lines := w.procMounts s.trace
  let s := (s.emit (.fopen "/proc/mounts")).seterr r
  match r with
  | some _ => (false, s)
  | none => (mountTableHas path lines [], s)

/-! ## The metadata probe -/

/-- The bytes of a string of ASCII characters. -/
def asciiBytes (s : String) : List Nat := s.toList.map Char.toNat

/-- The C string at the start of a buffer that holds `bytes`: the bytes before
the first zero byte. -/
def cString (bytes : List Nat) : List Nat := bytes.takeWhile (fun b => b ≠ 0)

/-- The C function `strstr` on the bytes of two C strings: the input from the
first occurrence of `needle` on. -/
def strstr (needle : List Nat) : List Nat → Option (List Nat)
  | [] => if needle = [] then some [] else none
  | c :: cs =>
    if needle.isPrefixOf (c :: cs) then some (c :: cs)
    else strstr needle cs

/-- The call `sscanf` with a quote (byte 34), a conversion of up to 127 bytes
other than a quote, and a quote: the value when the conversion is made. -/
def scanQuoted (cs : List Nat) : Option (List Nat) :=
  match cs with
  | [] => none
  | c :: rest =>
    if c = 34 then
      let v := (rest.takeWhile (fun x => x ≠ 34)).take 127
      if v = [] then none else some v
    else none

/-- The value of the token `key` (with its equals sign) in the C string
`line`. -/
def findToken (key : String) (line : List Nat) : Option (List Nat) :=
  match strstr (asciiBytes key) line with
  | none => none
  | some start => scanQuoted (start.drop (asciiBytes key).length)

/-- The body of `Volume::extractMetadata` up to the label `done`: the value of
`res` there and the state.  `fgets` keeps at most 1023 bytes and ends them with
a zero byte; `read` stores at most 1023 bytes and no zero byte, so that the
C string parsed runs on into what the buffer held. -/
def probeMetadata (w : World) (devicePath : String) (s : Sys) : Int × Sys :=
  let cmd := BLKID_PATH ++ " -c /data/data/blkid " ++ devicePath
  let r := w.popen s.trace cmd
  let s := (s.emit (.popen cmd)).seterr r
  match r with
  | some _ => (-1, s)
  | none =>
    let out := w.fgets s.trace
    let s := s.emit .fgets
    match out with
    | some bytes =>
      let line := cString (bytes.take 1023)
      let s := setUuid w (findToken "UUID=" line) s
      let s := setUserLabel w (findToken "LABEL=" line) s
      (0, s.emit .pclose)
    | none =>
      let fd := w.openCache s.trace
      let s := (s.emit .openCache).seterr fd
      match fd with
      | some _ => (-1, s.emit .removeCache)
      | none =>
        let bytes := w.readCache s.trace
        let s := s.emit .readCache
        match bytes with
        | none => (-1, s.emit .removeCache)
        | some bytes =>
          if bytes = [] then (-1, s.emit .removeCache)
          else
            let line := cString (bytes.take 1023 ++ w.lineTail s.trace)
            let s := setUuid w (findToken "UUID=" line) s
            let s := setUserLabel w (findToken "LABEL=" line) s
            let s := s.emit .removeCache
            (0, s.emit .pclose)

/-- The method `Volume::extractMetadata`. -/
def extractMetadata (w : World) (devicePath : String) (s : Sys) : Int × Sys :=
  let r := probeMetadata w devicePath s
  if r.1 = -1 then (r.1, setUserLabel w none (setUuid w none r.2))
  else r

/-! ## Mounting -/

/-- The call `property_get(key, value, dflt)`. -/
def property_get (w : World) (key dflt : String) (s : Sys) : String × Sys :=
  ((w.property_get s.trace key).getD dflt, s.emit (.property_get key))

/-- The call `getDeviceNodes(devs, max)` of the device class. -/
def getDeviceNodes (w : World) (max : Nat) (s : Sys) : List dev_t × Sys :=
  ((w.getDeviceNodes s.trace max).take max, s.emit (.getDeviceNodes max))

/-- The path written by `sprintf(devicePath, "/dev/block/vold/%d:%d", ...)`. -/
def devicePathOf (major minor : Int) : String :=
  "/dev/block/vold/" ++ toString major ++ ":" ++ toString minor

/-- The method `Volume::createDeviceNode`. -/
def createDeviceNode (w : World) (path : String) (major minor : Int) (s : Sys) : Int × Sys :=
  let dev : Int := ((major.toNat <<< 8 ||| minor.toNat : Nat) : Int)
  let r := w.mknod s.trace path
  let s := (s.emit (.mknod path dev)).seterr r
  match r with
  | some e => if e ≠ EEXIST then (-1, s) else (0, s)
  | none => (0, s)

/-- The method `Volume::mountAsecExternal`. -/
def mountAsecExternal (w : World) (s : Sys) : Int × Sys :=
  let (has_ums, s) := property_get w "ro.factory.hasUMS" "false" s
  let legacy_path := w.getMountpoint ++ "/android_secure"
  let secure_path := w.getMountpoint ++ "/.android_secure"
  let a1 := w.access s.trace legacy_path
  let s := (s.emit (.access legacy_path)).seterr a1
  let s :=
    if a1 = none then
      let a2 := w.access s.trace secure_path
      let s := (s.emit (.access secure_path)).seterr a2
      if a2 ≠ none then
        let r := w.rename s.trace legacy_path secure_path
        (s.emit (.rename legacy_path secure_path)).seterr r
      else s
    else s
  let gid := if has_ums = "true" then AID_SDCARD_RW else AID_MEDIA_RW
  let p := w.fs_prepare_dir s.trace secure_path gid
  let s := (s.emit (.fs_prepare_dir secure_path gid)).seterr p
  if p ≠ none then (-1, s)
  else
    let m := w.mount s.trace secure_path SEC_ASECDIR_EXT
    let s := (s.emit (.mount secure_path SEC_ASECDIR_EXT)).seterr m
    if m ≠ none then (-1, s)
    else (0, s.emit (.property_set "sys.vold.hasAsec" "true"))

/-- Whether the volume is the multi-partition USB disk: the macro
`SUPPORTED_MULTI_USB_PARTITIONS` is defined and the label is `USB_DISK_LABEL`. -/
def isUsbDisk (w : World) (label : String) : Bool :=
  w.multiUsb && label = w.USB_DISK_LABEL

/-- The tail of the candidate loop of `Volume::mountVol` when both drivers
failed on a node (before `continue`): the cleanup of the multi-partition
variant. -/
def mountFailedCleanup (w : World) (mount_point : String) (letter : Nat) (s : Sys) : Sys :=
  if isUsbDisk w s.vol.mLabel then
    let s := setState w State_Idle s
    let r := w.rmdir s.trace mount_point
    let s := (s.emit (.rmdir mount_point)).seterr r
    { s with vol := { s.vol with mLetters := releaseLetter letter s.vol.mLetters } }
  else s

/-- The statements of `Volume::mountVol` after the candidate loop. -/
def mountLoopEnd (w : World) (s : Sys) : Int × Sys :=
  if isUsbDisk w s.vol.mLabel then (0, setState w State_Mounted s)
  else (-1, setState w State_Idle s)

/-- The statements of the candidate loop of `Volume::mountVol` that choose
the mount point of a node: a fresh letter, its directory and a second
`setState` for the multi-partition USB disk, `getMountpoint()` otherwise.  The
result is the letter, the mount point and the new state. -/
def chooseMountPoint (w : World) (dev : dev_t) (s : Sys) : Nat × String × Sys :=
  let devicePath := devicePathOf (MAJOR dev) (MINOR dev)
  if isUsbDisk w s.vol.mLabel then
    let (letter, bits) := getNextLetter s.vol.mLetters
    let s := { s with vol := { s.vol with mLetters := bits } }
    let mount_point := w.getUdiskMountpoint devicePath (MAJOR dev) (MINOR dev) letter
    let r := w.mkdir s.trace mount_point
    let s := (s.emit (.mkdir mount_point)).seterr r
    (letter, mount_point, setState w State_Checking s)
  else ('x'.toNat, w.getMountpoint, s)

/-- The statements of the candidate loop of `Volume::mountVol` that call the
drivers, in the two branches on `has_ums`; the result is `false` when both
drivers failed (the node is left with `continue`). -/
def tryDrivers (w : World) (providesAsec : Bool) (has_ums : String)
    (devicePath mount_point : String) (s : Sys) : Bool × Sys :=
  if has_ums = "true" then
    let f := w.fatDoMount s.trace devicePath mount_point AID_SDCARD_RW
    let s := (s.emit (.fatDoMount devicePath mount_point AID_SDCARD_RW)).seterr f
    if f ≠ none then
      let s := if providesAsec then { s with vol := { s.vol with mSkipAsec := true } } else s
      let n := w.ntfsDoMount s.trace devicePath mount_point
      let s := (s.emit (.ntfsDoMount devicePath mount_point)).seterr n
      if n ≠ none then (false, s) else (true, s)
    else (true, { s with vol := { s.vol with mSkipAsec := false } })
  else
    let f := w.fatDoMount s.trace devicePath mount_point AID_MEDIA_RW
    let s := (s.emit (.fatDoMount devicePath mount_point AID_MEDIA_RW)).seterr f
    if f ≠ none then
      let n := w.ntfsDoMount s.trace devicePath mount_point
      let s := (s.emit (.ntfsDoMount devicePath mount_point)).seterr n
      if n ≠ none then (false, s) else (true, s)
    else (true, s)

/-- The statements of the candidate loop of `Volume::mountVol` after a driver
has mounted the node, up to the assignment of `mCurrentlyMountedKdev`; the
result is -1 when the secure area could not be mounted (the `return -1`) and 0
otherwise. -/
def finishNode (w : World) (providesAsec : Bool) (dev : dev_t) (letter : Nat)
    (mount_point : String) (s : Sys) : Int × Sys :=
  let devicePath := devicePathOf (MAJOR dev) (MINOR dev)
  let s :=
    if isUsbDisk w s.vol.mLabel then
      { s with vol := { s.vol with mPartitions := s.vol.mPartitions ++
          [{ major := MAJOR dev, minor := MINOR dev, letter := letter,
             mountpoint := mount_point }] } }
    else s
  let s := (extractMetadata w devicePath s).2
  let a := if providesAsec ∧ s.vol.mSkipAsec = false then mountAsecExternal w s else (0, s)
  if a.1 ≠ 0 then
    let s := a.2
    let u := w.umount s.trace mount_point
    let s := (s.emit (.umount mount_point)).seterr u
    (-1, setState w State_Idle s)
  else
    let s := a.2
    let s := s.emit (.property_set "ctl.start" ("fuse_" ++ s.vol.mLabel))
    let s := setState w State_Mounted s
    (0, { s with vol := { s.vol with mCurrentlyMountedKdev := dev } })

/-- The candidate loop of `Volume::mountVol` over the device nodes that are
left; `providesAsec`, `has_ums` and `isSupNtfs` are the locals of that name. -/
def mountLoop (w : World) (providesAsec : Bool) (has_ums : String) (isSupNtfs : Bool) :
    List dev_t → Sys → Int × Sys
  | [], s => mountLoopEnd w s
  | dev :: rest, s =>
    let devicePath := devicePathOf (MAJOR dev) (MINOR dev)
    let s := setState w State_Checking { s with errno := 0 }
    let c := w.fatCheck s.trace devicePath
    let s := (s.emit (.fatCheck devicePath)).seterr c
    if c ≠ none ∧ isSupNtfs = false then
      if s.errno = ENODATA then
        mountLoop w providesAsec has_ums isSupNtfs rest s
      else
        (-1, setState w State_Idle { s with errno := EIO })
    else
      let m := chooseMountPoint w dev { s with errno := 0 }
      let t := tryDrivers w providesAsec has_ums devicePath m.2.1 m.2.2
      if t.1 = false then
        mountLoop w providesAsec has_ums isSupNtfs rest (mountFailedCleanup w m.2.1 m.1 t.2)
      else
        let r := finishNode w providesAsec dev m.1 m.2.1 t.2
        if r.1 ≠ 0 then r
        else if isUsbDisk w r.2.vol.mLabel then
          mountLoop w providesAsec has_ums isSupNtfs rest r.2
        else (0, r.2)

/-- The loop of the multi-partition variant of `Volume::mountVol` that looks
for a device node whose mount point is not mounted: `true` when it finds one
(the jump to `UDISKNOMOUNTED`). -/
def udiskNotMounted (w : World) : List dev_t → Sys → Bool × Sys
  | [], s => (false, s)
  | dev :: rest, s =>
    let devicePath := devicePathOf (MAJOR dev) (MINOR dev)
    let (m, s) := isMountpointMounted w
      (w.getUdiskMountpoint devicePath (MAJOR dev) (MINOR dev) 0) s
    if m = false then (true, s) else udiskNotMounted w rest s

/-- The part of `Volume::mountVol` from the enumeration of the device nodes
on. -/
def mountVolNodes (w : World) (providesAsec : Bool) (has_ums : String) (isSupNtfs : Bool)
    (s : Sys) : Int × Sys :=
  let flags := s.vol.mFlags
  let (nodes, s) := getDeviceNodes w 4 s
  if nodes.length = 0 then (-1, s)
  else
    let (crypto_state, s) := property_get w "ro.crypto.state" "" s
    if providesAsec ∧
        flags &&& (VOL_NONREMOVABLE ||| VOL_ENCRYPTABLE) = (VOL_NONREMOVABLE ||| VOL_ENCRYPTABLE) ∧
        crypto_state = "encrypted" then
      let d := w.isDecrypted s.trace
      let s := s.emit .isDecrypted
      if d = false then
        if nodes.length ≠ 1 then (-1, s)
        else
          let major := MAJOR (nodes.headD 0)
          let minor := MINOR (nodes.headD 0)
          let r := w.cryptfs_setup_volume s.trace s.vol.mLabel major minor
          let s := s.emit (.cryptfs_setup_volume s.vol.mLabel major minor)
          match r with
          | none => (-1, s)
          | some (new_major, new_minor) =>
            let nodepath := devicePathOf new_major new_minor
            let s := (createDeviceNode w nodepath new_major new_minor s).2
            let s := s.emit (.updateDeviceInfo nodepath new_major new_minor)
            let (nodes, s) := getDeviceNodes w 4 s
            if nodes.length = 0 then (-1, s)
            else mountLoop w providesAsec has_ums isSupNtfs nodes s
      else mountLoop w providesAsec has_ums isSupNtfs nodes s
    else mountLoop w providesAsec has_ums isSupNtfs nodes s

/-- The method `Volume::mountVol`. -/
def mountVol (w : World) (s : Sys) : Int × Sys :=
  let flags := s.vol.mFlags
  let providesAsec : Bool := flags &&& VOL_PROVIDES_ASEC ≠ 0
  let (decrypt_state, s) := property_get w "vold.decrypt" "" s
  let (encrypt_progress, s) := property_get w "vold.encrypt_progress" "" s
  let (has_ums, s) := property_get w "ro.factory.hasUMS" "false" s
  let (getSupNtfs, s) := property_get w "ro.factory.storage_suppntfs" "true" s
  let isSupNtfs : Bool := getSupNtfs = "true"
  if s.vol.mState = State_NoMedia ∨
      ((decrypt_state = "1" ∨ encrypt_progress ≠ "") ∧ providesAsec) then
    let s := s.emit (.sendBroadcast .VolumeMountFailedNoMedia
      (.mountFailedNoMedia s.vol.mLabel w.getFuseMountpoint))
    (-1, { s with errno := ENODEV })
  else if s.vol.mState ≠ State_Idle then
    let s := { s with errno := EBUSY }
    let s := if s.vol.mState = State_Pending then
        { s with vol := { s.vol with mRetryMount := true } }
      else s
    (-1, s)
  else if isUsbDisk w s.vol.mLabel then
    let (nodes, s) := getDeviceNodes w 32 s
    let (found, s) := udiskNotMounted w nodes s
    if found then mountVolNodes w providesAsec has_ums isSupNtfs s
    else (0, setState w State_Mounted s)
  else
    let (m, s) := isMountpointMounted w w.getMountpoint s
    if m then (0, setState w State_Mounted s)
    else mountVolNodes w providesAsec has_ums isSupNtfs s

/-! ## Unmounting -/

/-- The method `Volume::unmountVol`. -/
def unmountVol (w : World) (force revert : Bool) (s : Sys) : Int × Sys :=
  let flags := s.vol.mFlags
  let providesAsec : Bool := flags &&& VOL_PROVIDES_ASEC ≠ 0 ∧ s.vol.mSkipAsec = false
  let revert := if s.vol.mPartIdx = -1 then false else revert
  if s.vol.mState ≠ State_Mounted then
    (UNMOUNT_NOT_MOUNTED_ERR, { s with errno := EINVAL })
  else
    let s := setState w State_Unmounting s
    let s := s.emit (.usleep (1000 * 1000))
    let s := s.emit (.property_set "ctl.stop" ("fuse_" ++ s.vol.mLabel))
    let s := s.emit (.sleep 1)
    let out_mounted := fun (s : Sys) => ((-1 : Int), setState w State_Mounted s)
    let a := if providesAsec then doUnmount w SEC_ASECDIR_EXT force s else (0, s)
    if a.1 ≠ 0 then out_mounted a.2
    else
      let s := if providesAsec then a.2.emit (.property_set "sys.vold.hasAsec" "false") else a.2
      let s := (doUnmount w w.getFuseMountpoint force s).2
      let u := doUnmount w w.getMountpoint force s
      if u.1 ≠ 0 then
        -- fail_remount_secure
        let r := if providesAsec then mountAsecExternal w u.2 else (0, u.2)
        if r.1 ≠ 0 then (-1, setState w State_NoMedia r.2)
        else out_mounted r.2
      else
        let s := u.2
        let d := if revert then w.isDecrypted s.trace else false
        let s := if revert then s.emit .isDecrypted else s
        let s :=
          if revert ∧ d then
            (s.emit (.cryptfs_revert_volume s.vol.mLabel)).emit .revertDeviceInfo
          else s
        let s := setUuid w none s
        let s := setUserLabel w none s
        let s := setState w State_Idle s
        (0, { s with vol := { s.vol with mCurrentlyMountedKdev := -1 } })

/-! ## Formatting -/

/-- The method `Volume::initializeMbr`. -/
def initializeMbr (w : World) (deviceNode : String) (s : Sys) : Int × Sys :=
  (w.apply_disk_config s.trace deviceNode, s.emit (.apply_disk_config deviceNode))

/-- The method `Volume::formatVol`. -/
def formatVol (w : World) (wipe : Bool) (s : Sys) : Int × Sys :=
  if s.vol.mState = State_NoMedia then (-1, { s with errno := ENODEV })
  else if s.vol.mState ≠ State_Idle then (-1, { s with errno := EBUSY })
  else
    let (m, s) := isMountpointMounted w w.getMountpoint s
    if m then
      let s := setState w State_Mounted s
      (-1, { s with errno := EBUSY })
    else
      let formatEntireDevice : Bool := s.vol.mPartIdx = -1
      let diskNode := w.getDiskDevice s.trace
      let partNode := MKDEV (MAJOR diskNode)
        (MINOR diskNode + (if formatEntireDevice then 1 else s.vol.mPartIdx))
      let s := setState w State_Formatting s
      let internal : Bool := s.vol.mLabel = "internal_sd"
      let (label, s) := if internal then property_get w "UserVolumeLabel" "" s else ("", s)
      let formatEntireDevice := if internal then false else formatEntireDevice
      let diskPath := devicePathOf (MAJOR diskNode) (MINOR diskNode)
      let mbr := if formatEntireDevice then initializeMbr w diskPath s else (0, s)
      if mbr.1 ≠ 0 then (-1, setState w State_Idle mbr.2)
      else
        let s := mbr.2
        let devicePath :=
          if internal ∧ MAJOR diskNode ≠ 179 then diskPath
          else devicePathOf (MAJOR partNode) (MINOR partNode)
        let f := w.fatFormat s.trace devicePath
        let s := (s.emit (.fatFormat devicePath wipe label)).seterr f
        if f ≠ none then (-1, setState w State_Idle s)
        else
          let s := if internal then s.emit (.system "sync") else s
          (0, setState w State_Idle s)

/-! ## Reading a trace -/

/-- The action of a call of the process killer. -/
@[simp] def Event.killAction : Event → Option Nat
  | .killProcessesWithOpenFiles _ a => some a
  | _ => none

/-- The path of a call of `umount`. -/
@[simp] def Event.umountPath : Event → Option String
  | .umount p => some p
  | _ => none

/-- The state change that a broadcast of code `VolumeStateChange` reports. -/
@[simp] def Event.stateChange : Event → Option (State × State)
  | .sendBroadcast .VolumeStateChange (.stateChanged _ _ old _ new _) => some (old, new)
  | _ => none

/-- The actions passed to the process killer, in order. -/
def killActions (t : List Event) : List Nat := t.filterMap Event.killAction

/-- The paths passed to `umount`, in order. -/
def umountPaths (t : List Event) : List String := t.filterMap Event.umountPath

/-- The state changes broadcast, in order. -/
def stateChanges (t : List Event) : List (State × State) := t.filterMap Event.stateChange

/-- The calls of `umount` (`none`) and of the process killer (its action) in a
trace, each with its path, in order. -/
def unmountSteps : List Event → List (String × Option Nat)
  | [] => []
  | .umount p :: t => (p, none) :: unmountSteps t
  | .killProcessesWithOpenFiles p a :: t => (p, some a) :: unmountSteps t
  | _ :: t => unmountSteps t

/-- Whether a list of steps is a sequence of pairs: a `umount` and then one
call of the killer on the same path. -/
def killerAfterEachUmount : List (String × Option Nat) → Bool
  | [] => true
  | (p, none) :: (q, some _) :: rest => p = q && killerAfterEachUmount rest
  | _ => false

/-- The steps of `n` failed rounds of the loop of `doUnmount`: in each a
`umount` and then the killer with the action for the value of `retries`, which
counts down to 0. -/
def busySteps (path : String) (force : Bool) : Nat → List (String × Option Nat)
  | 0 => []
  | r + 1 => (path, none) ::
      (path, some (if force then (if r ≤ 120 then 2 else if r ≤ 130 then 1 else 0) else 0)) ::
      busySteps path force r

/-- The guard of `mountVol` on the device-wide crypto properties, with the
values that a call from state `s` reads: the volume provides a secure
container and `vold.decrypt` is "1" or `vold.encrypt_progress` is not empty. -/
def cryptoBlocksMount (w : World) (s : Sys) : Bool :=
  let decrypt_state := (w.property_get s.trace "vold.decrypt").getD ""
  let encrypt_progress :=
    (w.property_get (s.trace ++ [.property_get "vold.decrypt"]) "vold.encrypt_progress").getD ""
  (decrypt_state = "1" ∨ encrypt_progress ≠ "") ∧ s.vol.mFlags &&& VOL_PROVIDES_ASEC ≠ 0

/-- The letters returned by `n` successive calls of `getNextLetter` from the
bitmap `m`, and the bitmap after them. -/
def allocLetters : Nat → Nat → List Nat × Nat
  | 0, m => ([], m)
  | n + 1, m =>
    let r := getNextLetter m
    let rest := allocLetters n r.2
    (r.1 :: rest.1, rest.2)

/-- The bitmap after `releaseLetter` on each letter of a list, in its order. -/
def releaseAll (letters : List Nat) (m : Nat) : Nat :=
  letters.foldl (fun m c => releaseLetter c m) m

/-- The path that `mountVol` looks up in the mount table before it mounts the
device node `dev`: the mount point of the volume, or, for the multi-partition
USB disk, the mount point of the node (with no letter). -/
def precheckPath (w : World) (v : Volume) (dev : dev_t) : String :=
  if isUsbDisk w v.mLabel then
    w.getUdiskMountpoint (devicePathOf (MAJOR dev) (MINOR dev)) (MAJOR dev) (MINOR dev) 0
  else w.getMountpoint

/-- The pair of key and value of a call of `property_set`. -/
@[simp] def Event.propertySet : Event → Option (String × String)
  | .property_set k v => some (k, v)
  | _ => none

/-- The path of a call that `mountAsecExternal` makes to prepare and bind the
secure directory (`access`, `rename`, `fs_prepare_dir`, `mount`). -/
@[simp] def Event.asecCall : Event → Option String
  | .access p => some p
  | .rename p _ => some p
  | .fs_prepare_dir p _ => some p
  | .mount p _ => some p
  | _ => none

/-- The calls of `property_set`, in order. -/
def propertySets (t : List Event) : List (String × String) := t.filterMap Event.propertySet

/-- The calls made for the secure directory, in order. -/
def asecCalls (t : List Event) : List String := t.filterMap Event.asecCall

/-- A reading `f` of the trace that keeps none of the calls made to look
things up, to check and mount a filesystem or to probe the metadata. -/
class Quiet {α : Type} (f : Event → Option α) : Prop where
  fopen : ∀ p, f (.fopen p) = none
  fputs : ∀ x, f (.fputs x) = none
  property_get : ∀ k, f (.property_get k) = none
  getDeviceNodes : ∀ n, f (.getDeviceNodes n) = none
  isDecrypted : f .isDecrypted = none
  cryptfs_setup_volume : ∀ l a b, f (.cryptfs_setup_volume l a b) = none
  mknod : ∀ p d, f (.mknod p d) = none
  updateDeviceInfo : ∀ p a b, f (.updateDeviceInfo p a b) = none
  fatCheck : ∀ p, f (.fatCheck p) = none
  fatDoMount : ∀ p m g, f (.fatDoMount p m g) = none
  ntfsDoMount : ∀ p m, f (.ntfsDoMount p m) = none
  mkdir : ∀ p, f (.mkdir p) = none
  rmdir : ∀ p, f (.rmdir p) = none
  popen : ∀ c, f (.popen c) = none
  fgets : f .fgets = none
  pclose : f .pclose = none
  openCache : f .openCache = none
  readCache : f .readCache = none
  removeCache : f .removeCache = none
  uuidChange : ∀ m, f (.sendBroadcast .VolumeUuidChange m) = none
  userLabelChange : ∀ m, f (.sendBroadcast .VolumeUserLabelChange m) = none

/-- A reading `f` of the trace that keeps none of the calls made for the
secure directory. -/
class QuietAsec {α : Type} (f : Event → Option α) : Prop where
  access : ∀ p, f (.access p) = none
  rename : ∀ p q, f (.rename p q) = none
  fs_prepare_dir : ∀ p g, f (.fs_prepare_dir p g) = none
  mount : ∀ p q, f (.mount p q) = none

/-- The state in which the candidate loop of `mountVol` leaves a node when
both drivers failed on it: the statements of one round up to `continue`. -/
def afterFailedNode (w : World) (providesAsec : Bool) (has_ums : String) (dev : dev_t)
    (s : Sys) : Sys :=
  let devicePath := devicePathOf (MAJOR dev) (MINOR dev)
  let s := setState w State_Checking { s with errno := 0 }
  let c := w.fatCheck s.trace devicePath
  let s := (s.emit (.fatCheck devicePath)).seterr c
  let m := chooseMountPoint w dev { s with errno := 0 }
  let t := tryDrivers w providesAsec has_ums devicePath m.2.1 m.2.2
  mountFailedCleanup w m.2.1 m.1 t.2

/-- A call of the metadata probe: it only sets `mUuid` and `mUserLabel` and
makes no call that `f` keeps. -/
def ProbeOnly {α : Type} (f : Event → Option α) (s s' : Sys) : Prop :=
  s'.vol = { s.vol with mUuid := s'.vol.mUuid, mUserLabel := s'.vol.mUserLabel } ∧
    s'.trace.filterMap f = s.trace.filterMap f

/-- The conclusion of the rollback, for a result `r` and the values `K`, `L`,
`U`, `P` of the state before the call. -/
def RolledBack (w : World) (d : dev_t) (K : dev_t) (L : String) (U : List String)
    (P : List (String × String)) (r : Int × Sys) : Prop :=
  r.1 = -1 ∧
  r.2.vol.mState = State_Idle ∧
  r.2.vol.mCurrentlyMountedKdev = K ∧
  (∃ letter, r.2.trace.filterMap Event.umountPath = U ++
    [if isUsbDisk w L then
      w.getUdiskMountpoint (devicePathOf (MAJOR d) (MINOR d)) (MAJOR d) (MINOR d) letter
    else w.getMountpoint]) ∧
  r.2.trace.filterMap Event.propertySet = P

instance : Quiet Event.stateChange := by
  constructor <;> intros <;> rfl
instance : QuietAsec Event.stateChange := by
  constructor <;> intros <;> rfl
instance : Quiet Event.umountPath := by
  constructor <;> intros <;> rfl
instance : QuietAsec Event.umountPath := by
  constructor <;> intros <;> rfl
instance : Quiet Event.propertySet := by
  constructor <;> intros <;> rfl
instance : QuietAsec Event.propertySet := by
  constructor <;> intros <;> rfl
instance : Quiet Event.asecCall := by
  constructor <;> intros <;> rfl

/-! ## Sample surroundings -/

/-- A world in which every call succeeds, no property is set, nothing is
mounted, the only device node is 8:1 and the identification tool prints a
label and a UUID. -/
def calmWorld : World :=
  { multiUsb := false, USB_DISK_LABEL := "usb_storage", getMountpoint := "/mnt/sdcard",
    getFuseMountpoint := "/storage/sdcard",
    getUdiskMountpoint := fun _ _ _ letter => if letter = 65 then "/mnt/usb/A" else "/mnt/usb/B",
    getDiskDevice := fun _ => 2048, property_get := fun _ _ => none, procMounts := fun _ => [],
    fopen := fun _ _ => none, getDeviceNodes := fun _ _ => [2049], isDecrypted := fun _ => false,
    cryptfs_setup_volume := fun _ _ _ _ => none, mknod := fun _ _ => none,
    fatCheck := fun _ _ => none, fatDoMount := fun _ _ _ _ => none, fatFormat := fun _ _ => none,
    ntfsDoMount := fun _ _ _ => none, mkdir := fun _ _ => none, rmdir := fun _ _ => none,
    access := fun _ _ => none, rename := fun _ _ _ => none, fs_prepare_dir := fun _ _ _ => none,
    mount := fun _ _ _ => none, umount := fun _ _ => none, apply_disk_config := fun _ _ => 0,
    popen := fun _ _ => none,
    fgets := fun _ => some (asciiBytes "LABEL=\"DISK\" UUID=\"1234-ABCD\"\n"),
    openCache := fun _ => none, readCache := fun _ => none, lineTail := fun _ => [] }

/-- The world `calmWorld` with a mount point that stays busy. -/
def busyWorld : World := { calmWorld with umount := fun _ _ => some EBUSY }

/-- The world `calmWorld` with the device-wide decrypt flag set. -/
def lockedWorld : World :=
  { calmWorld with
    property_get := fun _ k => if k = "vold.decrypt" then some "1" else none }

/-- A freshly constructed volume that has gone to the idle state. -/
def sdcard : Volume :=
  { mLabel := "sdcard", mUuid := none, mUserLabel := none, mState := State_Idle, mFlags := 0,
    mCurrentlyMountedKdev := -1, mPartIdx := 1, mRetryMount := false, mSkipAsec := false,
    mDebug := false, mLetters := 0, mPartitions := [] }

/-- The volume `sdcard` at the start of a run. -/
def sdcardSys : Sys := { vol := sdcard, errno := 0, trace := [] }

/-- A volume that provides a secure container, in the given state. -/
def asecSys (state : State) : Sys :=
  { vol := { sdcard with mFlags := VOL_PROVIDES_ASEC, mState := state }, errno := 0, trace := [] }

/-- A world with the multi-partition variant compiled in and two device
nodes, 8:1 and 8:2, in which the bind mount of the secure directory works
once and fails from the second time on. -/
def usbWorld : World :=
  { calmWorld with
    multiUsb := true
    getDeviceNodes := fun _ _ => [2049, 2050]
    mount := fun t _ _ => if (asecCalls t).length ≤ 3 then none else some EBUSY }

/-- The multi-partition USB disk, providing a secure container, idle. -/
def usbSys : Sys :=
  { vol := { sdcard with mLabel := "usb_storage", mFlags := VOL_PROVIDES_ASEC },
    errno := 0, trace := [] }

/-- The world `calmWorld` in which the FAT driver fails (the NTFS driver
works); `ro.factory.hasUMS` is not set. -/
def ntfsWorld : World := { calmWorld with fatDoMount := fun _ _ _ _ => some EINVAL }

/-- The world `ntfsWorld` with `ro.factory.hasUMS` set to "true". -/
def umsNtfsWorld : World :=
  { ntfsWorld with
    property_get := fun _ k => if k = "ro.factory.hasUMS" then some "true" else none }

/-- The world `calmWorld` in which the bind mount of the secure directory
fails. -/
def bindFailWorld : World := { calmWorld with mount := fun _ _ _ => some EBUSY }

/-! ## Further readings of a trace -/

/-- The code and text of a broadcast. -/
@[simp] def Event.broadcast : Event → Option (ResponseCode × Msg)
  | .sendBroadcast c m => some (c, m)
  | _ => none

/-- The broadcasts sent, in order. -/
def broadcasts (t : List Event) : List (ResponseCode × Msg) := t.filterMap Event.broadcast

/-- A call that reverts the decrypted mapping or the device info. -/
@[simp] def Event.revertCall : Event → Option Event
  | .cryptfs_revert_volume l => some (.cryptfs_revert_volume l)
  | .revertDeviceInfo => some .revertDeviceInfo
  | _ => none

/-- The calls that revert the decrypted mapping and the device info, in order. -/
def revertCalls (t : List Event) : List Event := t.filterMap Event.revertCall

instance : Quiet Event.revertCall := by
  constructor <;> intros <;> rfl
instance : QuietAsec Event.revertCall := by
  constructor <;> intros <;> rfl

/-- A call on a device node in the candidate loop of `mountVol`: the name of
the function called (the filesystem check or one of the two drivers) and the
path of the node. -/
@[simp] def Event.nodeCall : Event → Option (String × String)
  | .fatCheck p => some ("Fat::check", p)
  | .fatDoMount p _ _ => some ("Fat::doMount", p)
  | .ntfsDoMount p _ => some ("Ntfs::doMount", p)
  | _ => none

/-- The filesystem checks and driver calls, in order. -/
def nodeCalls (t : List Event) : List (String × String) := t.filterMap Event.nodeCall

/-- The calls of a round of the candidate loop in which the check passes and
the FAT driver fails: the check and the two drivers. -/
def bothDriverCalls (dev : dev_t) : List (String × String) :=
  [("Fat::check", devicePathOf (MAJOR dev) (MINOR dev)),
   ("Fat::doMount", devicePathOf (MAJOR dev) (MINOR dev)),
   ("Ntfs::doMount", devicePathOf (MAJOR dev) (MINOR dev))]

/-- Both drivers fail on the node `dev`, whenever they are called. -/
def DriversFail (w : World) (dev : dev_t) : Prop :=
  (∀ t mp gid, w.fatDoMount t (devicePathOf (MAJOR dev) (MINOR dev)) mp gid ≠ none) ∧
  (∀ t mp, w.ntfsDoMount t (devicePathOf (MAJOR dev) (MINOR dev)) mp ≠ none)

/-- The state of one round of the candidate loop of `mountVol` after the
filesystem check of the node `dev`. -/
def checkNode (w : World) (dev : dev_t) (s : Sys) : Sys :=
  let devicePath := devicePathOf (MAJOR dev) (MINOR dev)
  let s := setState w State_Checking { s with errno := 0 }
  (s.emit (.fatCheck devicePath)).seterr (w.fatCheck s.trace devicePath)

/-- The state of the candidate loop of `mountVol` after the rounds of the
nodes `pre`, when both drivers fail on each of them. -/
def skipNodes (w : World) (providesAsec : Bool) (has_ums : String) (pre : List dev_t)
    (s : Sys) : Sys :=
  pre.foldl (fun s x => afterFailedNode w providesAsec has_ums x s) s

/-- Whether `setState` leaves `errno` alone: the label does not start with
"external_sd", or the rescan file of the driver can always be opened. -/
def RescanKeepsErrno (w : World) (v : Volume) : Prop :=
  "external_sd".toList.isPrefixOf v.mLabel.toList = false ∨
    ∀ t, w.fopen t "/sys/sd-sdio/rescan" = none

/-- The edges of the state graph that `mountVol`, `unmountVol` and
`formatVol` can take: Idle to Pending, Checking, Formatting or Shared; Pending
to Idle or Checking; Checking to Mounted or Idle; Mounted to Unmounting;
Unmounting to Idle or Mounted; Formatting to Idle. -/
def graphEdges : List (State × State) :=
  [(State_Idle, State_Pending), (State_Idle, State_Checking), (State_Idle, State_Formatting),
   (State_Idle, State_Shared), (State_Pending, State_Idle), (State_Pending, State_Checking),
   (State_Checking, State_Mounted), (State_Checking, State_Idle),
   (State_Mounted, State_Unmounting), (State_Unmounting, State_Idle),
   (State_Unmounting, State_Mounted), (State_Formatting, State_Idle)]

/-- The state changes of the code that are no edge of `graphEdges`: Idle to
Mounted (the mount path is found mounted; the end of the candidate loop of the
multi-partition USB disk), Unmounting to NoMedia (the label `out_nomedia` of
`unmountVol`) and, for the multi-partition USB disk, Mounted to Checking (the
round of the candidate loop after a node was mounted). -/
def shortcutEdges (w : World) (label : String) : List (State × State) :=
  [(State_Idle, State_Mounted), (State_Unmounting, State_NoMedia)] ++
    if isUsbDisk w label then [(State_Mounted, State_Checking)] else []

/-- From `s` to `r` the state changes broadcast are all in `A`. -/
def Moves (A : List (State × State)) (s r : Sys) : Prop :=
  ∃ cs, stateChanges r.trace = stateChanges s.trace ++ cs ∧ ∀ c ∈ cs, c ∈ A

/-- From `s` to `r` the state changes broadcast are all in `A`, the state of
`r` is `st`, and the label and `mCurrentlyMountedKdev` are those of `s`. -/
def Seg (A : List (State × State)) (s r : Sys) (st : State) : Prop :=
  Moves A s r ∧ r.vol.mState = st ∧ r.vol.mLabel = s.vol.mLabel ∧
    r.vol.mCurrentlyMountedKdev = s.vol.mCurrentlyMountedKdev

/-- The states in which a round of the candidate loop of `mountVol` can
start for the volume of label `L`: Idle, Checking, and for the multi-partition
USB disk Mounted. -/
def LoopTop (w : World) (L : String) (s : Sys) : Prop :=
  s.vol.mLabel = L ∧
    (s.vol.mState = State_Idle ∨ s.vol.mState = State_Checking ∨
      (s.vol.mState = State_Mounted ∧ isUsbDisk w L = true))

/-- What the candidate loop of `mountVol` does from `s` to `r` for the volume
of label `L`: its state changes are in `A`, the label is kept, and unless the
volume is the multi-partition USB disk `mCurrentlyMountedKdev` is kept or the
state is Mounted. -/
def LoopResult (w : World) (L : String) (A : List (State × State)) (s r : Sys) : Prop :=
  Moves A s r ∧ r.vol.mLabel = L ∧
    (isUsbDisk w L = false →
      r.vol.mCurrentlyMountedKdev = s.vol.mCurrentlyMountedKdev ∨ r.vol.mState = State_Mounted)

/-- The constructor `Volume::Volume` for the label, the flags and the
partition number of the fstab record. -/
def Volume.fresh (label : String) (flags : Nat) (partnum : Int) : Volume :=
  { mLabel := label, mUuid := none, mUserLabel := none, mState := State_Init, mFlags := flags,
    mCurrentlyMountedKdev := -1, mPartIdx := partnum, mRetryMount := false, mSkipAsec := false,
    mDebug := false, mLetters := 0, mPartitions := [] }

/-- A call of one of the three methods, with its arguments. -/
inductive Op where
  | mount
  | unmount (force revert : Bool)
  | format (wipe : Bool)
  deriving DecidableEq, Repr

/-- The state after a call. -/
def Op.run (w : World) : Op → Sys → Sys
  | .mount, s => (mountVol w s).2
  | .unmount force revert, s => (unmountVol w force revert s).2
  | .format wipe, s => (formatVol w wipe s).2

/-- The state after a sequence of calls. -/
def runOps (w : World) (ops : List Op) (s : Sys) : Sys :=
  ops.foldl (fun s o => o.run w s) s

/-! ## The stages of `unmountVol` -/

/-- The local `providesAsec` of `Volume::unmountVol`. -/
def unmountProvidesAsec (v : Volume) : Bool :=
  v.mFlags &&& VOL_PROVIDES_ASEC ≠ 0 ∧ v.mSkipAsec = false

/-- The state of `Volume::unmountVol` on a mounted volume before the first
`doUnmount`: the state is Unmounting and the bridge service has been told to
stop. -/
def unmountStart (w : World) (s : Sys) : Sys :=
  let s := setState w State_Unmounting s
  let s := s.emit (.usleep (1000 * 1000))
  let s := s.emit (.property_set "ctl.stop" ("fuse_" ++ s.vol.mLabel))
  s.emit (.sleep 1)

/-- The unmount of the secure container in `Volume::unmountVol`: the result of
`doUnmount` on it, or 0 when the container is not active. -/
def unmountSecure (w : World) (force : Bool) (s : Sys) : Int × Sys :=
  if unmountProvidesAsec s.vol then doUnmount w SEC_ASECDIR_EXT force (unmountStart w s)
  else (0, unmountStart w s)

/-- The unmount of the mount path of the bridge in `Volume::unmountVol`, after
the secure container has been unmounted. -/
def unmountBridge (w : World) (force : Bool) (s : Sys) : Int × Sys :=
  let a := unmountSecure w force s
  let s1 := if unmountProvidesAsec s.vol then
      a.2.emit (.property_set "sys.vold.hasAsec" "false")
    else a.2
  doUnmount w w.getFuseMountpoint force s1

/-- The unmount of the backing mount path in `Volume::unmountVol`. -/
def unmountBacking (w : World) (force : Bool) (s : Sys) : Int × Sys :=
  doUnmount w w.getMountpoint force (unmountBridge w force s).2

/-- The attempt of `Volume::unmountVol` to mount the secure container again
after the backing mount path could not be unmounted (0 when the container is
not active). -/
def restoreSecure (w : World) (force : Bool) (s : Sys) : Int × Sys :=
  if unmountProvidesAsec s.vol then mountAsecExternal w (unmountBacking w force s).2
  else (0, (unmountBacking w force s).2)

/-! ## Further sample surroundings -/

/-- A world in which every call succeeds and the volume is decrypted. -/
def decryptedWorld : World := { calmWorld with isDecrypted := fun _ => true }

/-- The card mounted as a whole device (partition index -1). -/
def wholeDiskSys : Sys :=
  { vol := { sdcard with mState := State_Mounted, mPartIdx := -1, mCurrentlyMountedKdev := 2048 },
    errno := 0, trace := [] }

/-- The card mounted from its first partition. -/
def mountedSys : Sys :=
  { vol := { sdcard with mState := State_Mounted, mCurrentlyMountedKdev := 2049 },
    errno := 0, trace := [] }


/-- The world `calmWorld` in which the filesystem check fails with an I/O
error; `ro.factory.storage_suppntfs` is not set. -/
def badCheckWorld : World := { calmWorld with fatCheck := fun _ _ => some EIO }

/-- The world `badCheckWorld` with `ro.factory.storage_suppntfs` set to
"false". -/
def strictCheckWorld : World :=
  { badCheckWorld with
    property_get := fun _ k => if k = "ro.factory.storage_suppntfs" then some "false" else none }

/-- The world `calmWorld` with two device nodes, 8:1 and 8:2, in which both
drivers fail on 8:1. -/
def secondNodeWorld : World :=
  { calmWorld with
    getDeviceNodes := fun _ _ => [2049, 2050]
    fatDoMount := fun _ p _ _ => if p = "/dev/block/vold/8:1" then some EINVAL else none
    ntfsDoMount := fun _ p _ => if p = "/dev/block/vold/8:1" then some EINVAL else none }

/-- The world `calmWorld` in which the mount table already lists the mount
path of the volume. -/
def alreadyMountedWorld : World :=
  { calmWorld with procMounts := fun _ => ["/dev/block/vold/8:1 /mnt/sdcard vfat rw 0 0\n"] }

/-- The world `calmWorld` in which the mount path stays busy and the secure
directory cannot be bound again. -/
def stuckWorld : World :=
  { calmWorld with
    umount := fun _ p => if p = "/mnt/sdcard" then some EBUSY else none
    mount := fun _ _ _ => some EBUSY }

/-- The world `alreadyMountedWorld` in which both drivers fail on every
node. -/
def mountedNoDriverWorld : World :=
  { alreadyMountedWorld with
    fatDoMount := fun _ _ _ _ => some EINVAL
    ntfsDoMount := fun _ _ _ => some EINVAL }

/-! ## The tokens that the metadata probe reads -/

/-- The local `has_ums` of `Volume::mountVol` called in state `s`: the value
of `ro.factory.hasUMS`, read after two other properties, "false" when it is
not set. -/
def readHasUms (w : World) (s : Sys) : String :=
  (w.property_get
    (s.trace ++ [.property_get "vold.decrypt", .property_get "vold.encrypt_progress"])
    "ro.factory.hasUMS").getD "false"

/-- The local `isSupNtfs` of `Volume::mountVol` called in state `s`: whether
`ro.factory.storage_suppntfs`, read after three other properties, is "true",
as it is when the property is not set. -/
def readSupNtfs (w : World) (s : Sys) : Bool :=
  (w.property_get
    (s.trace ++ [.property_get "vold.decrypt", .property_get "vold.encrypt_progress",
      .property_get "ro.factory.hasUMS"])
    "ro.factory.storage_suppntfs").getD "true" = "true"

/-- The device nodes and the state with which the part of `Volume::mountVol`
from the enumeration of the device nodes on enters the candidate loop; `none`
when it returns before the loop.  The statements are those of
`mountVolNodes`. -/
def nodesEntry (w : World) (providesAsec : Bool) (s : Sys) : Option (List dev_t × Sys) :=
  let flags := s.vol.mFlags
  let (nodes, s) := getDeviceNodes w 4 s
  if nodes.length = 0 then none
  else
    let (crypto_state, s) := property_get w "ro.crypto.state" "" s
    if providesAsec ∧
        flags &&& (VOL_NONREMOVABLE ||| VOL_ENCRYPTABLE) = (VOL_NONREMOVABLE ||| VOL_ENCRYPTABLE) ∧
        crypto_state = "encrypted" then
      let d := w.isDecrypted s.trace
      let s := s.emit .isDecrypted
      if d = false then
        if nodes.length ≠ 1 then none
        else
          let major := MAJOR (nodes.headD 0)
          let minor := MINOR (nodes.headD 0)
          let r := w.cryptfs_setup_volume s.trace s.vol.mLabel major minor
          let s := s.emit (.cryptfs_setup_volume s.vol.mLabel major minor)
          match r with
          | none => none
          | some (new_major, new_minor) =>
            let nodepath := devicePathOf new_major new_minor
            let s := (createDeviceNode w nodepath new_major new_minor s).2
            let s := s.emit (.updateDeviceInfo nodepath new_major new_minor)
            let (nodes, s) := getDeviceNodes w 4 s
            if nodes.length = 0 then none
            else some (nodes, s)
      else some (nodes, s)
    else some (nodes, s)

/-- The device nodes and the state with which `Volume::mountVol`, called in
state `s`, enters its candidate loop; `none` when it returns before the loop
(the state is not Idle, the crypto guard holds, the mount path is found
mounted, there is no device node, or the decrypted mapping cannot be set up).
The statements are those of `mountVol`. -/
def loopEntry (w : World) (s : Sys) : Option (List dev_t × Sys) :=
  let flags := s.vol.mFlags
  let providesAsec : Bool := flags &&& VOL_PROVIDES_ASEC ≠ 0
  let (decrypt_state, s) := property_get w "vold.decrypt" "" s
  let (encrypt_progress, s) := property_get w "vold.encrypt_progress" "" s
  let (_, s) := property_get w "ro.factory.hasUMS" "false" s
  let (_, s) := property_get w "ro.factory.storage_suppntfs" "true" s
  if s.vol.mState = State_NoMedia ∨
      ((decrypt_state = "1" ∨ encrypt_progress ≠ "") ∧ providesAsec) then none
  else if s.vol.mState ≠ State_Idle then none
  else if isUsbDisk w s.vol.mLabel then
    let (nodes, s) := getDeviceNodes w 32 s
    let (found, s) := udiskNotMounted w nodes s
    if found then nodesEntry w providesAsec s
    else none
  else
    let (m, s) := isMountpointMounted w w.getMountpoint s
    if m then none
    else nodesEntry w providesAsec s

/-- One round of the candidate loop of `Volume::mountVol`, on the node `dev`:
the state with which the loop goes on to the next node, or `none` when the
round returns from `mountVol`.  The statements are those of `mountLoop`. -/
def mountRound (w : World) (providesAsec : Bool) (has_ums : String) (isSupNtfs : Bool)
    (dev : dev_t) (s : Sys) : Option Sys :=
  let devicePath := devicePathOf (MAJOR dev) (MINOR dev)
  let s := setState w State_Checking { s with errno := 0 }
  let c := w.fatCheck s.trace devicePath
  let s := (s.emit (.fatCheck devicePath)).seterr c
  if c ≠ none ∧ isSupNtfs = false then
    if s.errno = ENODATA then some s
    else none
  else
    let m := chooseMountPoint w dev { s with errno := 0 }
    let t := tryDrivers w providesAsec has_ums devicePath m.2.1 m.2.2
    if t.1 = false then some (mountFailedCleanup w m.2.1 m.1 t.2)
    else
      let r := finishNode w providesAsec dev m.1 m.2.1 t.2
      if r.1 ≠ 0 then none
      else if isUsbDisk w r.2.vol.mLabel then some r.2
      else none

/-- The rounds of the candidate loop on the nodes `pre`: the state with which
the loop reaches the node after them, or `none` when one of the rounds returns
from `mountVol`. -/
def mountRounds (w : World) (providesAsec : Bool) (has_ums : String) (isSupNtfs : Bool) :
    List dev_t → Sys → Option Sys
  | [], s => some s
  | dev :: rest, s =>
    match mountRound w providesAsec has_ums isSupNtfs dev s with
    | none => none
    | some s1 => mountRounds w providesAsec has_ums isSupNtfs rest s1

/-- The world `calmWorld` with `ro.factory.storage_suppntfs` set to "false"
and two device nodes: the check finds no filesystem on 8:1 and fails with an
I/O error on 8:2. -/
def mixedCheckWorld : World :=
  { calmWorld with
    property_get := fun _ k => if k = "ro.factory.storage_suppntfs" then some "false" else none
    getDeviceNodes := fun _ _ => [2049, 2050]
    fatCheck := fun _ p => if p = "/dev/block/vold/8:1" then some ENODATA else some EIO }

/-- One round of the candidate loop of `Volume::mountVol`, on the node `dev`,
in which no driver mounts the node and the loop goes on: the node is skipped
after a check that found no filesystem, or both drivers fail on it (the
statements up to `continue`).  The result is the state with which the loop
goes on, and `none` for any other round.  The statements are those of
`mountLoop`. -/
def failedRound (w : World) (providesAsec : Bool) (has_ums : String) (isSupNtfs : Bool)
    (dev : dev_t) (s : Sys) : Option Sys :=
  let devicePath := devicePathOf (MAJOR dev) (MINOR dev)
  let s := setState w State_Checking { s with errno := 0 }
  let c := w.fatCheck s.trace devicePath
  let s := (s.emit (.fatCheck devicePath)).seterr c
  if c ≠ none ∧ isSupNtfs = false then
    if s.errno = ENODATA then some s
    else none
  else
    let m := chooseMountPoint w dev { s with errno := 0 }
    let t := tryDrivers w providesAsec has_ums devicePath m.2.1 m.2.2
    if t.1 = false then some (mountFailedCleanup w m.2.1 m.1 t.2)
    else none

/-- The rounds of the candidate loop on the nodes `pre` when none of them is
mounted and none ends the loop: the state with which the loop reaches the node
after them, and `none` when a round mounts its node or returns from
`mountVol`. -/
def failedRounds (w : World) (providesAsec : Bool) (has_ums : String) (isSupNtfs : Bool) :
    List dev_t → Sys → Option Sys
  | [], s => some s
  | dev :: rest, s =>
    match failedRound w providesAsec has_ums isSupNtfs dev s with
    | none => none
    | some s1 => failedRounds w providesAsec has_ums isSupNtfs rest s1

/-- The letter, the mount point and the state with which a round of the
candidate loop of `Volume::mountVol` calls the drivers on the node `dev`: the
statements of `mountLoop` between the filesystem check and the first driver
call. -/
def driversEntry (w : World) (dev : dev_t) (s : Sys) : Nat × String × Sys :=
  chooseMountPoint w dev { checkNode w dev s with errno := 0 }

/-- The state in which `finishNode` calls `mountAsecExternal`: the partition
is recorded for the multi-partition USB disk and the metadata are probed.  The
statements are those of `finishNode`. -/
def asecEntry (w : World) (dev : dev_t) (letter : Nat) (mount_point : String) (s : Sys) : Sys :=
  let devicePath := devicePathOf (MAJOR dev) (MINOR dev)
  let s :=
    if isUsbDisk w s.vol.mLabel then
      { s with vol := { s.vol with mPartitions := s.vol.mPartitions ++
          [{ major := MAJOR dev, minor := MINOR dev, letter := letter,
             mountpoint := mount_point }] } }
    else s
  (extractMetadata w devicePath s).2

/-- The state in which a round of the candidate loop of `Volume::mountVol`,
begun in state `s` on the node `dev`, calls `mountAsecExternal` once a driver
has mounted the node: the statements of `mountLoop` and `finishNode` between
the filesystem check and that call. -/
def bindEntry (w : World) (providesAsec : Bool) (has_ums : String) (dev : dev_t) (s : Sys) : Sys :=
  let m := driversEntry w dev s
  let t := tryDrivers w providesAsec has_ums (devicePathOf (MAJOR dev) (MINOR dev)) m.2.1 m.2.2
  asecEntry w dev m.1 m.2.1 t.2

/-- The world `bindFailWorld` with three device nodes: the check fails on each
of them and is ignored, as `ro.factory.storage_suppntfs` is not set, and both
drivers fail on 8:1 and 8:2. -/
def lateBindFailWorld : World :=
  { bindFailWorld with
    getDeviceNodes := fun _ _ => [2049, 2050, 2051]
    fatCheck := fun _ _ => some EIO
    fatDoMount := fun _ p _ _ => if p = "/dev/block/vold/8:3" then none else some EINVAL
    ntfsDoMount := fun _ _ _ => some EINVAL }

/-- The world `calmWorld` for a card whose mount path stays busy and whose
secure directory can be bound until the first `umount` only. -/
def lostBindWorld : World :=
  { calmWorld with
    umount := fun _ p => if p = "/mnt/sdcard" then some EBUSY else none
    mount := fun t _ _ => if umountPaths t = [] then none else some EBUSY }

theorem unmountSteps_append (a b : List Event) :
    unmountSteps (a ++ b) = unmountSteps a ++ unmountSteps b := by
  induction a with
  | nil => rfl
  | cons e t ih => cases e <;> simp [unmountSteps, ih]

@[simp] theorem notifyStateKernel_vol (w : World) (n : Nat) (s : Sys) :
    (notifyStateKernel w n s).vol = s.vol := by
  unfold notifyStateKernel
  split
  · cases h : w.fopen s.trace "/sys/sd-sdio/rescan" <;> simp [Sys.emit, Sys.seterr]
  · rfl

theorem notifyStateKernel_trace (w : World) (n : Nat) (s : Sys) :
    ∃ evs, (notifyStateKernel w n s).trace = s.trace ++ evs ∧
      killActions evs = [] ∧ umountPaths evs = [] ∧ unmountSteps evs = [] ∧
      stateChanges evs = [] := by
  unfold notifyStateKernel
  split
  · cases h : w.fopen s.trace "/sys/sd-sdio/rescan"
    · exact ⟨[.fopen "/sys/sd-sdio/rescan",
        .fputs ("sd-" ++ (if n = 0 then "Ready" else stateToStr s.vol.mState))],
        by simp [Sys.emit, Sys.seterr], rfl, rfl, rfl, rfl⟩
    · exact ⟨[.fopen "/sys/sd-sdio/rescan"], by simp [Sys.emit, Sys.seterr], rfl, rfl, rfl, rfl⟩
  · exact ⟨[], by simp, rfl, rfl, rfl, rfl⟩

/-- C2: `setState` with the current state changes nothing: state, mounted
device and retry flag stay, and no call (so no broadcast) is made. -/
theorem setState_same_noop (w : World) (s : Sys) :
    (setState w s.vol.mState s).vol.mState = s.vol.mState ∧
    (setState w s.vol.mState s).vol.mCurrentlyMountedKdev = s.vol.mCurrentlyMountedKdev ∧
    (setState w s.vol.mState s).vol.mRetryMount = s.vol.mRetryMount ∧
    (setState w s.vol.mState s).trace = s.trace ∧
    setState w s.vol.mState s = s := by
  simp [setState]

theorem doUnmountLoop_succ_busy (w : World) (path : String) (force : Bool) (n e : Nat)
    (s : Sys) (he : w.umount s.trace path = some e) (h1 : e ≠ EINVAL) (h2 : e ≠ ENOENT) :
    doUnmountLoop w path force (n + 1) s =
      doUnmountLoop w path force n
        (((notifyStateKernel w 3 ((s.emit (.umount path)).seterr (some e))).emit
          (.killProcessesWithOpenFiles path (if force then
            (if n ≤ 120 then 2 else if n ≤ 130 then 1 else 0) else 0))).emit
          (.usleep (1000 * 30))) := by
  simp [doUnmountLoop, he, Sys.seterr, Sys.emit, h1, h2]

/-- The trace that a busy mount point leaves: `n` rounds of `umount` and the
killer, whatever else is written between them. -/
theorem doUnmountLoop_busy (w : World) (path : String) (force : Bool)
    (h : ∀ t, ∃ e, w.umount t path = some e ∧ e ≠ EINVAL ∧ e ≠ ENOENT) :
    ∀ (n : Nat) (s : Sys), ∃ evs,
      (doUnmountLoop w path force n s).2.trace = s.trace ++ evs ∧
      (doUnmountLoop w path force n s).1 = -1 ∧
      (doUnmountLoop w path force n s).2.errno = EBUSY ∧
      (doUnmountLoop w path force n s).2.vol = s.vol ∧
      unmountSteps evs = busySteps path force n := by
  intro n
  induction n with
  | zero => intro s; exact ⟨[], by simp [doUnmountLoop, unmountSteps, busySteps]⟩
  | succ n ih =>
    intro s
    obtain ⟨e, he, h1, h2⟩ := h s.trace
    rw [doUnmountLoop_succ_busy w path force n e s he h1 h2]
    obtain ⟨k, hk, -, -, hks, -⟩ := notifyStateKernel_trace w 3
      ((s.emit (.umount path)).seterr (some e))
    have hv := notifyStateKernel_vol w 3 ((s.emit (.umount path)).seterr (some e))
    obtain ⟨evs, ht, hr, herr, hvol, hsteps⟩ := ih
      (((notifyStateKernel w 3 ((s.emit (.umount path)).seterr (some e))).emit
        (.killProcessesWithOpenFiles path (if force then
          (if n ≤ 120 then 2 else if n ≤ 130 then 1 else 0) else 0))).emit (.usleep (1000 * 30)))
    refine ⟨[.umount path] ++ k ++ [.killProcessesWithOpenFiles path (if force then
          (if n ≤ 120 then 2 else if n ≤ 130 then 1 else 0) else 0), .usleep (1000 * 30)] ++ evs,
      ?_, hr, herr, ?_, ?_⟩
    · rw [ht]
      simp only [Sys.emit, Sys.seterr] at hk ⊢
      rw [hk]
      simp
    · rw [hvol]
      simp [Sys.emit, Sys.seterr]
    · simp only [unmountSteps_append, hks, hsteps]
      simp [unmountSteps, busySteps]

theorem killActions_eq_steps (t : List Event) :
    killActions t = (unmountSteps t).filterMap Prod.snd := by
  induction t with
  | nil => rfl
  | cons e t ih =>
    cases e <;> simp_all [killActions, unmountSteps, Event.killAction]

theorem umountPaths_eq_steps (t : List Event) :
    umountPaths t = (unmountSteps t).filterMap
      (fun x => if x.2.isNone then some x.1 else none) := by
  induction t with
  | nil => rfl
  | cons e t ih =>
    cases e <;> simp_all [umountPaths, unmountSteps, Event.umountPath]

theorem busySteps_paired (path : String) (force : Bool) (n : Nat) :
    killerAfterEachUmount (busySteps path force n) = true := by
  induction n with
  | zero => rfl
  | succ n ih => simp [busySteps, killerAfterEachUmount, ih]

theorem busySteps_umounts (path : String) (force : Bool) (n : Nat) :
    (busySteps path force n).filterMap (fun x => if x.2.isNone then some x.1 else none) =
      List.replicate n path := by
  induction n with
  | zero => rfl
  | succ n ih => simp [busySteps, List.replicate_succ] at ih ⊢; exact ih

theorem busySteps_kills_length (path : String) (force : Bool) (n : Nat) :
    ((busySteps path force n).filterMap Prod.snd).length = n := by
  induction n with
  | zero => rfl
  | succ n ih => simp [busySteps] at ih ⊢; exact ih

set_option maxRecDepth 20000 in
theorem busySteps_kills_force (path : String) :
    (busySteps path true 150).filterMap Prod.snd =
      List.replicate 19 0 ++ List.replicate 10 1 ++ List.replicate 121 2 := by
  rfl

theorem doUnmountLoop_succ_ok (w : World) (path : String) (force : Bool) (n : Nat) (s : Sys)
    (h : w.umount s.trace path = none ∨ w.umount s.trace path = some EINVAL ∨
      w.umount s.trace path = some ENOENT) :
    doUnmountLoop w path force (n + 1) s =
      (0, notifyStateKernel w 2 ((s.emit (.umount path)).seterr (w.umount s.trace path))) := by
  have key : (w.umount s.trace path = none ∨
      ((s.emit (.umount path)).seterr (w.umount s.trace path)).errno = EINVAL ∨
      ((s.emit (.umount path)).seterr (w.umount s.trace path)).errno = ENOENT) := by
    rcases h with hr | hr | hr <;> simp [hr, Sys.seterr]
  simp only [doUnmountLoop, if_pos key]

/-- C4: when the first `umount` succeeds or reports EINVAL or ENOENT,
`doUnmount` returns 0 after that one attempt: the calls it adds to the trace
hold one `umount` of the path and no call of the process killer. -/
theorem doUnmount_not_mounted_succeeds (w : World) (path : String) (force : Bool) (s : Sys)
    (h : w.umount s.trace path = none ∨ w.umount s.trace path = some EINVAL ∨
      w.umount s.trace path = some ENOENT) :
    ∃ evs, (doUnmount w path force s).2.trace = s.trace ++ evs ∧
      (doUnmount w path force s).1 = 0 ∧
      unmountSteps evs = [(path, none)] ∧
      umountPaths evs = [path] ∧
      killActions evs = [] := by
  have hstep := doUnmountLoop_succ_ok w path force 149 s h
  obtain ⟨k, hk, -, -, hks, -⟩ := notifyStateKernel_trace w 2
    ((s.emit (.umount path)).seterr (w.umount s.trace path))
  have htr : ((s.emit (.umount path)).seterr (w.umount s.trace path)).trace =
      s.trace ++ [.umount path] := by
    cases w.umount s.trace path <;> simp [Sys.emit, Sys.seterr]
  have hsteps : unmountSteps ([Event.umount path] ++ k) = [(path, none)] := by
    rw [unmountSteps_append, hks]; rfl
  refine ⟨[.umount path] ++ k, ?_, ?_, hsteps, ?_, ?_⟩
  · show (doUnmountLoop w path force (149 + 1) s).2.trace = _
    rw [hstep]
    show (notifyStateKernel w 2 _).trace = _
    rw [hk, htr, List.append_assoc]
  · show (doUnmountLoop w path force (149 + 1) s).1 = 0
    rw [hstep]
  · rw [umountPaths_eq_steps, hsteps]; rfl
  · rw [killActions_eq_steps, hsteps]; rfl

/-- C5: when every `umount` of the path fails with an error other than EINVAL
and ENOENT, `doUnmount` returns -1 with `errno` EBUSY after 150 attempts, each
followed by one call of the process killer on the path (150 calls). -/
theorem doUnmount_busy_gives_up (w : World) (path : String) (force : Bool) (s : Sys)
    (h : ∀ t, ∃ e, w.umount t path = some e ∧ e ≠ EINVAL ∧ e ≠ ENOENT) :
    ∃ evs, (doUnmount w path force s).2.trace = s.trace ++ evs ∧
      (doUnmount w path force s).1 = -1 ∧
      (doUnmount w path force s).2.errno = EBUSY ∧
      umountPaths evs = List.replicate 150 path ∧
      (killActions evs).length = 150 ∧
      killerAfterEachUmount (unmountSteps evs) = true := by
  obtain ⟨evs, ht, hr, herr, -, hsteps⟩ := doUnmountLoop_busy w path force h 150 s
  refine ⟨evs, ht, hr, herr, ?_, ?_, ?_⟩
  · rw [umountPaths_eq_steps, hsteps, busySteps_umounts]
  · rw [killActions_eq_steps, hsteps, busySteps_kills_length]
  · rw [hsteps, busySteps_paired]

/-- C6, as amended: with `force` and a mount point that stays busy, the action
passed to the killer never decreases: it is 0 (no signal) at attempts 1 to 19,
1 (hang-up) at attempts 20 to 29 and 2 (kill) at attempts 30 to 150. -/
theorem doUnmount_force_escalation (w : World) (path : String) (s : Sys)
    (h : ∀ t, ∃ e, w.umount t path = some e ∧ e ≠ EINVAL ∧ e ≠ ENOENT) :
    ∃ evs, (doUnmount w path true s).2.trace = s.trace ++ evs ∧
      killActions evs =
        List.replicate 19 0 ++ List.replicate 10 1 ++ List.replicate 121 2 ∧
      List.Pairwise (fun a b => a ≤ b) (killActions evs) := by
  obtain ⟨evs, ht, -, -, -, hsteps⟩ := doUnmountLoop_busy w path true h 150 s
  have hk : killActions evs =
      List.replicate 19 0 ++ List.replicate 10 1 ++ List.replicate 121 2 := by
    rw [killActions_eq_steps, hsteps, busySteps_kills_force]
  refine ⟨evs, ht, hk, ?_⟩
  rw [hk]
  simp only [List.pairwise_append, List.pairwise_replicate, List.mem_append,
    List.mem_replicate]
  exact ⟨⟨by decide, by decide, fun a ha b hb => by omega⟩, by decide,
    fun a ha b hb => by omega⟩

/-- C4, witness: a first `umount` that succeeds. -/
theorem doUnmount_not_mounted_succeeds_witness :
    ∃ evs, (doUnmount calmWorld "/mnt/sdcard" true sdcardSys).2.trace = sdcardSys.trace ++ evs ∧
      (doUnmount calmWorld "/mnt/sdcard" true sdcardSys).1 = 0 ∧
      unmountSteps evs = [("/mnt/sdcard", none)] ∧
      umountPaths evs = ["/mnt/sdcard"] ∧
      killActions evs = [] :=
  doUnmount_not_mounted_succeeds calmWorld "/mnt/sdcard" true sdcardSys (Or.inl rfl)

/-- C5, witness: the busy world. -/
theorem doUnmount_busy_gives_up_witness :
    ∃ evs, (doUnmount busyWorld "/mnt/sdcard" false sdcardSys).2.trace = sdcardSys.trace ++ evs ∧
      (doUnmount busyWorld "/mnt/sdcard" false sdcardSys).1 = -1 ∧
      (doUnmount busyWorld "/mnt/sdcard" false sdcardSys).2.errno = EBUSY ∧
      umountPaths evs = List.replicate 150 "/mnt/sdcard" ∧
      (killActions evs).length = 150 ∧
      killerAfterEachUmount (unmountSteps evs) = true :=
  doUnmount_busy_gives_up busyWorld "/mnt/sdcard" false sdcardSys
    (fun _ => ⟨EBUSY, rfl, by decide, by decide⟩)

/-- C6, witness: the busy world with `force`. -/
theorem doUnmount_force_escalation_witness :
    ∃ evs, (doUnmount busyWorld "/mnt/sdcard" true sdcardSys).2.trace = sdcardSys.trace ++ evs ∧
      killActions evs =
        List.replicate 19 0 ++ List.replicate 10 1 ++ List.replicate 121 2 ∧
      List.Pairwise (fun a b => a ≤ b) (killActions evs) :=
  doUnmount_force_escalation busyWorld "/mnt/sdcard" sdcardSys
    (fun _ => ⟨EBUSY, rfl, by decide, by decide⟩)

set_option maxRecDepth 4000 in
theorem escalation_attempt_twenty :
    (List.replicate 19 0 ++ List.replicate 10 1 ++ List.replicate 121 2)[19]? = some 1 := rfl

/-- C6, as stated, fails: in the busy world with `force`, attempt 20 (index
19) already sends the hang-up signal, so not every signal lies in attempts 101
to 150. -/
theorem doUnmount_signal_before_final_third :
    ¬ (∀ k a : Nat,
        (killActions (doUnmount busyWorld "/mnt/sdcard" true sdcardSys).2.trace)[k]? = some a →
        a ≠ 0 → 100 ≤ k) := by
  intro hc
  obtain ⟨evs, ht, -, -, -, hsteps⟩ := doUnmountLoop_busy busyWorld "/mnt/sdcard" true
    (fun _ => ⟨EBUSY, rfl, by decide, by decide⟩) 150 sdcardSys
  have hk : killActions (doUnmount busyWorld "/mnt/sdcard" true sdcardSys).2.trace =
      List.replicate 19 0 ++ List.replicate 10 1 ++ List.replicate 121 2 := by
    show killActions (doUnmountLoop busyWorld "/mnt/sdcard" true 150 sdcardSys).2.trace = _
    rw [ht, killActions_eq_steps, unmountSteps_append, hsteps]
    show ([] ++ _ : List (String × Option Nat)).filterMap Prod.snd = _
    rw [List.nil_append, busySteps_kills_force]
  rw [hk] at hc
  have h19 := hc 19 1 escalation_attempt_twenty (by decide)
  omega

/-- C1, as amended: `mountVol` on a volume that is not idle fails and leaves
the state as it is.  It fails with ENODEV and changes no field when the state
is NoMedia or the crypto guard holds (the volume provides a secure container
and `vold.decrypt` is "1" or `vold.encrypt_progress` is set); otherwise it
fails with EBUSY and changes no field but `mRetryMount`, which it sets when the
state is Pending. -/
theorem mountVol_not_idle_fails (w : World) (s : Sys) (h : s.vol.mState ≠ State_Idle) :
    (mountVol w s).1 = -1 ∧
    (mountVol w s).2.vol.mState = s.vol.mState ∧
    (if s.vol.mState = State_NoMedia ∨ cryptoBlocksMount w s = true then
      (mountVol w s).2.errno = ENODEV ∧ (mountVol w s).2.vol = s.vol
    else
      (mountVol w s).2.errno = EBUSY ∧
      (mountVol w s).2.vol =
        if s.vol.mState = State_Pending then { s.vol with mRetryMount := true } else s.vol) := by
  by_cases hg : s.vol.mState = State_NoMedia ∨ cryptoBlocksMount w s = true
  · rw [if_pos hg]
    simp only [cryptoBlocksMount] at hg
    simp only [mountVol, property_get, Sys.emit]
    simp only [List.append_assoc, List.singleton_append] at hg ⊢
    simp at hg
    simp [hg]
  · rw [if_neg hg]
    simp only [cryptoBlocksMount] at hg
    simp only [mountVol, property_get, Sys.emit]
    simp only [List.append_assoc, List.singleton_append] at hg ⊢
    simp at hg
    have hneg : ¬(((w.property_get s.trace "vold.decrypt").getD "" = "1" ∨
        ¬(w.property_get (s.trace ++ [Event.property_get "vold.decrypt"])
          "vold.encrypt_progress").getD "" = "") ∧
        ¬s.vol.mFlags &&& VOL_PROVIDES_ASEC = 0) := fun hc => hc.2 (hg.2 hc.1)
    by_cases hp : s.vol.mState = State_Pending
    · simp [hg.1, h, hp, hneg]
    · simp [hg.1, h, hp, hneg]

/-- C1, witness: a mounted volume in a calm world. -/
theorem mountVol_not_idle_fails_witness :
    (asecSys State_Mounted).vol.mState ≠ State_Idle ∧
    (mountVol calmWorld (asecSys State_Mounted)).1 = -1 ∧
    (mountVol calmWorld (asecSys State_Mounted)).2.errno = EBUSY := by
  have h := mountVol_not_idle_fails calmWorld (asecSys State_Mounted) (by decide)
  refine ⟨by decide, h.1, ?_⟩
  have h3 := h.2.2
  rw [if_neg (by decide)] at h3
  exact h3.1

/-- C1, as stated, fails: with the decrypt flag set, a mounted volume that
provides a secure container gets ENODEV rather than EBUSY, and a pending one
gets ENODEV and keeps `mRetryMount` false. -/
theorem mountVol_not_idle_crypto_guard :
    (mountVol lockedWorld (asecSys State_Mounted)).2.errno = ENODEV ∧
    ENODEV ≠ EBUSY ∧
    (mountVol lockedWorld (asecSys State_Pending)).2.errno = ENODEV ∧
    (mountVol lockedWorld (asecSys State_Pending)).2.vol.mRetryMount = false := by
  decide

/-! ### Frame lemmas -/

@[simp] theorem emit_vol (s : Sys) (e : Event) : (s.emit e).vol = s.vol := rfl
@[simp] theorem emit_trace (s : Sys) (e : Event) : (s.emit e).trace = s.trace ++ [e] := rfl
@[simp] theorem emit_errno (s : Sys) (e : Event) : (s.emit e).errno = s.errno := rfl
@[simp] theorem seterr_vol (s : Sys) (r : Option Nat) : (s.seterr r).vol = s.vol := by
  cases r <;> rfl
@[simp] theorem seterr_trace (s : Sys) (r : Option Nat) : (s.seterr r).trace = s.trace := by
  cases r <;> rfl

theorem filterMap_singleton {α : Type} (f : Event → Option α) (e : Event) :
    [e].filterMap f = (f e).toList := by
  cases h : f e <;> simp [List.filterMap_cons, h]

@[simp] theorem filterMap_notifyStateKernel {α : Type} (f : Event → Option α) [hf : Quiet f]
    (w : World) (n : Nat) (s : Sys) :
    (notifyStateKernel w n s).trace.filterMap f = s.trace.filterMap f := by
  unfold notifyStateKernel
  split
  · cases h : w.fopen s.trace "/sys/sd-sdio/rescan" <;> simp [hf.fopen, hf.fputs]
  · rfl

theorem setState_same (w : World) (st : State) (s : Sys) (h : s.vol.mState = st) :
    setState w st s = s := by
  simp [setState, h]

theorem setState_vol_ne (w : World) (st : State) (s : Sys) (h : s.vol.mState ≠ st) :
    (setState w st s).vol =
      { s.vol with
        mState := st
        mRetryMount :=
          if s.vol.mState = State_Pending ∧ st ≠ State_Idle then false
          else s.vol.mRetryMount } := by
  unfold setState
  simp only [h, if_false]
  by_cases hp : s.vol.mState = State_Pending ∧ st ≠ State_Idle
  · simp only [if_pos hp, emit_vol, notifyStateKernel_vol]
  · simp only [if_neg hp, emit_vol, notifyStateKernel_vol]

@[simp] theorem setState_vol (w : World) (st : State) (s : Sys) :
    (setState w st s).vol =
      { s.vol with
        mState := st
        mRetryMount :=
          if s.vol.mState ≠ st ∧ s.vol.mState = State_Pending ∧ st ≠ State_Idle then false
          else s.vol.mRetryMount } := by
  by_cases h : s.vol.mState = st
  · rw [setState_same w st s h]
    subst h
    simp
  · rw [setState_vol_ne w st s h]
    simp [h]

@[simp] theorem filterMap_setState {α : Type} (f : Event → Option α) [hf : Quiet f]
    (w : World) (st : State) (s : Sys) :
    (setState w st s).trace.filterMap f = s.trace.filterMap f ++
      if s.vol.mState = st then []
      else (f (.sendBroadcast .VolumeStateChange
        (.stateChanged s.vol.mLabel w.getFuseMountpoint s.vol.mState (stateToStr s.vol.mState)
          st (stateToStr st)))).toList := by
  by_cases h : s.vol.mState = st
  · rw [setState_same w st s h]; simp [h]
  · unfold setState
    simp only [h, if_false, emit_trace, List.filterMap_append,
      filterMap_notifyStateKernel, filterMap_singleton, notifyStateKernel_vol]
    by_cases hp : s.vol.mState = State_Pending ∧ st ≠ State_Idle
    · simp only [if_pos hp]
    · simp only [if_neg hp]

theorem probeMetadata_only {α : Type} (f : Event → Option α) [hf : Quiet f]
    (w : World) (p : String) (s : Sys) :
    ProbeOnly f s (probeMetadata w p s).2 := by
  unfold probeMetadata ProbeOnly
  simp only [setUuid, setUserLabel]
  repeat' split
  all_goals exact ⟨by simp, by simp [hf.popen, hf.fgets, hf.pclose, hf.openCache, hf.readCache,
    hf.removeCache, hf.uuidChange, hf.userLabelChange]⟩

theorem extractMetadata_only {α : Type} (f : Event → Option α) [hf : Quiet f]
    (w : World) (p : String) (s : Sys) :
    ProbeOnly f s (extractMetadata w p s).2 := by
  obtain ⟨hv, ht⟩ := probeMetadata_only f w p s
  unfold extractMetadata
  simp only []
  split
  · refine ⟨?_, ?_⟩
    · rw [show (setUserLabel w none (setUuid w none (probeMetadata w p s).2)).vol =
        { (probeMetadata w p s).2.vol with mUuid := none, mUserLabel := none } from rfl, hv]
    · simp [setUserLabel, setUuid, hf.uuidChange, hf.userLabelChange, ht]
  · exact ⟨hv, ht⟩

@[simp] theorem filterMap_extractMetadata {α : Type} (f : Event → Option α) [Quiet f]
    (w : World) (p : String) (s : Sys) :
    (extractMetadata w p s).2.trace.filterMap f = s.trace.filterMap f :=
  (extractMetadata_only f w p s).2

theorem extractMetadata_vol (w : World) (p : String) (s : Sys) :
    (extractMetadata w p s).2.vol =
      { s.vol with mUuid := (extractMetadata w p s).2.vol.mUuid,
                   mUserLabel := (extractMetadata w p s).2.vol.mUserLabel } :=
  (extractMetadata_only Event.stateChange w p s).1

@[simp] theorem extractMetadata_mState (w : World) (p : String) (s : Sys) :
    (extractMetadata w p s).2.vol.mState = s.vol.mState := by
  rw [extractMetadata_vol]
@[simp] theorem extractMetadata_mLabel (w : World) (p : String) (s : Sys) :
    (extractMetadata w p s).2.vol.mLabel = s.vol.mLabel := by
  rw [extractMetadata_vol]
@[simp] theorem extractMetadata_mFlags (w : World) (p : String) (s : Sys) :
    (extractMetadata w p s).2.vol.mFlags = s.vol.mFlags := by
  rw [extractMetadata_vol]
@[simp] theorem extractMetadata_mSkipAsec (w : World) (p : String) (s : Sys) :
    (extractMetadata w p s).2.vol.mSkipAsec = s.vol.mSkipAsec := by
  rw [extractMetadata_vol]
@[simp] theorem extractMetadata_kdev (w : World) (p : String) (s : Sys) :
    (extractMetadata w p s).2.vol.mCurrentlyMountedKdev = s.vol.mCurrentlyMountedKdev := by
  rw [extractMetadata_vol]

@[simp] theorem mountAsecExternal_vol (w : World) (s : Sys) :
    (mountAsecExternal w s).2.vol = s.vol := by
  unfold mountAsecExternal property_get
  simp only []
  repeat' split
  all_goals simp

theorem mountAsecExternal_cases {α : Type} (f : Event → Option α)
    [hf : Quiet f] [ha : QuietAsec f] (w : World) (s : Sys) :
    ((mountAsecExternal w s).1 = -1 ∧
      (mountAsecExternal w s).2.trace.filterMap f = s.trace.filterMap f) ∨
    ((mountAsecExternal w s).1 = 0 ∧
      (mountAsecExternal w s).2.trace.filterMap f = s.trace.filterMap f ++
        (f (.property_set "sys.vold.hasAsec" "true")).toList) := by
  unfold mountAsecExternal property_get
  simp only []
  repeat' split
  all_goals first
    | exact Or.inl ⟨rfl, by simp [hf.property_get, ha.access, ha.rename, ha.fs_prepare_dir,
        ha.mount]⟩
    | exact Or.inr ⟨rfl, by simp [hf.property_get, ha.access, ha.rename, ha.fs_prepare_dir,
        ha.mount, filterMap_singleton]⟩

@[simp] theorem filterMap_mountAsecExternal {α : Type} (f : Event → Option α)
    [Quiet f] [QuietAsec f] (w : World) (s : Sys) :
    (mountAsecExternal w s).2.trace.filterMap f = s.trace.filterMap f ++
      if (mountAsecExternal w s).1 = 0 then
        (f (.property_set "sys.vold.hasAsec" "true")).toList
      else [] := by
  rcases mountAsecExternal_cases f w s with ⟨h1, h2⟩ | ⟨h1, h2⟩
  · rw [h2, h1]; simp
  · rw [h2, h1]; simp

@[simp] theorem isMountpointMounted_vol (w : World) (p : String) (s : Sys) :
    (isMountpointMounted w p s).2.vol = s.vol := by
  unfold isMountpointMounted
  simp only []
  split <;> simp

@[simp] theorem filterMap_isMountpointMounted {α : Type} (f : Event → Option α) [hf : Quiet f]
    (w : World) (p : String) (s : Sys) :
    (isMountpointMounted w p s).2.trace.filterMap f = s.trace.filterMap f := by
  unfold isMountpointMounted
  simp only []
  split <;> simp [hf.fopen]

theorem mountLoop_single_fat (w : World) (hu : String) (ns : Bool) (d : dev_t) (s : Sys)
    (T : List (State × State))
    (hidle : s.vol.mState = State_Idle) (hT : s.trace.filterMap Event.stateChange = T)
    (hcheck : ∀ t, w.fatCheck t (devicePathOf (MAJOR d) (MINOR d)) = none)
    (hfat : ∀ t mp gid, w.fatDoMount t (devicePathOf (MAJOR d) (MINOR d)) mp gid = none) :
    (mountLoop w false hu ns [d] s).1 = 0 ∧
    (mountLoop w false hu ns [d] s).2.vol.mState = State_Mounted ∧
    (mountLoop w false hu ns [d] s).2.vol.mCurrentlyMountedKdev = d ∧
    (mountLoop w false hu ns [d] s).2.trace.filterMap Event.stateChange =
      T ++ [(State_Idle, State_Checking), (State_Checking, State_Mounted)] := by
  subst hT
  by_cases husb : isUsbDisk w s.vol.mLabel = true
  · by_cases hums : hu = "true"
    · simp [mountLoop, mountLoopEnd, chooseMountPoint, tryDrivers, finishNode, hcheck, hfat,
        hidle, husb, hums]
    · simp [mountLoop, mountLoopEnd, chooseMountPoint, tryDrivers, finishNode, hcheck, hfat,
        hidle, husb, hums]
  · by_cases hums : hu = "true"
    · simp [mountLoop, mountLoopEnd, chooseMountPoint, tryDrivers, finishNode, hcheck, hfat,
        hidle, husb, hums]
    · simp [mountLoop, mountLoopEnd, chooseMountPoint, tryDrivers, finishNode, hcheck, hfat,
        hidle, husb, hums]

/-- C8: for an idle volume that provides no secure container, whose mount
path is not mounted, with the one device node `d` on which the check passes
and the FAT driver mounts: `mountVol` returns 0, the state is Mounted,
`mCurrentlyMountedKdev` is `d`, and the state changes broadcast are Idle to
Checking and then Checking to Mounted, and no other. -/
theorem mountVol_happy_path (w : World) (s : Sys) (d : dev_t)
    (hidle : s.vol.mState = State_Idle)
    (hasec : s.vol.mFlags &&& VOL_PROVIDES_ASEC = 0)
    (hnm : ∀ s', (isMountpointMounted w (precheckPath w s.vol d) s').1 = false)
    (hnodes : ∀ t max, w.getDeviceNodes t max = [d])
    (hcheck : ∀ t, w.fatCheck t (devicePathOf (MAJOR d) (MINOR d)) = none)
    (hfat : ∀ t mp gid, w.fatDoMount t (devicePathOf (MAJOR d) (MINOR d)) mp gid = none) :
    (mountVol w s).1 = 0 ∧
    (mountVol w s).2.vol.mState = State_Mounted ∧
    (mountVol w s).2.vol.mCurrentlyMountedKdev = d ∧
    stateChanges (mountVol w s).2.trace =
      stateChanges s.trace ++ [(State_Idle, State_Checking), (State_Checking, State_Mounted)] := by
  unfold stateChanges
  by_cases husb : isUsbDisk w s.vol.mLabel = true
  · simp only [precheckPath, husb, if_true] at hnm
    simp [mountVol, mountVolNodes, property_get, getDeviceNodes, udiskNotMounted, hidle, hasec,
      husb, hnodes, hnm]
    refine mountLoop_single_fat w _ _ d _ _ ?_ ?_ hcheck hfat
    · simp [hidle]
    · simp
  · simp [precheckPath, husb] at hnm
    simp [mountVol, mountVolNodes, property_get, getDeviceNodes, udiskNotMounted, hidle, hasec,
      husb, hnodes, hnm]
    refine mountLoop_single_fat w _ _ d _ _ ?_ ?_ hcheck hfat
    · simp [hidle]
    · simp

/-! ### A successful mount leaves the volume mounted -/

theorem finishNode_ok_mounted (w : World) (pa : Bool) (d : dev_t) (l : Nat) (mp : String)
    (s : Sys) (h : (finishNode w pa d l mp s).1 = 0) :
    (finishNode w pa d l mp s).2.vol.mState = State_Mounted := by
  revert h
  unfold finishNode
  simp only []
  repeat' split
  all_goals simp

theorem mountLoop_ok_mounted (w : World) (pa : Bool) (hu : String) (ns : Bool) :
    ∀ (nodes : List dev_t) (s : Sys), (mountLoop w pa hu ns nodes s).1 = 0 →
      (mountLoop w pa hu ns nodes s).2.vol.mState = State_Mounted := by
  intro nodes
  induction nodes with
  | nil =>
    intro s
    simp only [mountLoop, mountLoopEnd]
    split <;> simp
  | cons d rest ih =>
    intro s
    simp only [mountLoop]
    split
    · split
      · exact ih _
      · simp
    · split
      · exact ih _
      · split
        · intro h0
          rename_i hne
          exact absurd h0 hne
        · split
          · exact ih _
          · rename_i h0 _
            intro _
            exact finishNode_ok_mounted _ _ _ _ _ _ (by simpa using h0)

theorem mountVolNodes_ok_mounted (w : World) (pa : Bool) (hu : String) (ns : Bool) (s : Sys)
    (h : (mountVolNodes w pa hu ns s).1 = 0) :
    (mountVolNodes w pa hu ns s).2.vol.mState = State_Mounted := by
  revert h
  unfold mountVolNodes
  simp only [getDeviceNodes, property_get]
  repeat' split
  all_goals first
    | exact mountLoop_ok_mounted _ _ _ _ _ _
    | simp

theorem mountVol_ok_mounted (w : World) (s : Sys) (h : (mountVol w s).1 = 0) :
    (mountVol w s).2.vol.mState = State_Mounted := by
  revert h
  unfold mountVol
  simp only [getDeviceNodes, property_get]
  repeat' split
  all_goals first
    | exact mountVolNodes_ok_mounted _ _ _ _ _
    | simp

theorem doUnmount_ok_eq (w : World) (path : String) (force : Bool) (s : Sys)
    (h : ∀ t p, w.umount t p = none) :
    doUnmount w path force s = (0, notifyStateKernel w 2 (s.emit (.umount path))) := by
  show doUnmountLoop w path force (149 + 1) s = _
  rw [doUnmountLoop_succ_ok w path force 149 s (Or.inl (h _ _)), h]
  rfl

theorem unmountVol_ok (w : World) (force revert : Bool) (s : Sys)
    (hm : s.vol.mState = State_Mounted) (h : ∀ t p, w.umount t p = none) :
    (unmountVol w force revert s).1 = 0 ∧
    (unmountVol w force revert s).2.vol.mState = State_Idle ∧
    (unmountVol w force revert s).2.vol.mUuid = none ∧
    (unmountVol w force revert s).2.vol.mUserLabel = none ∧
    (unmountVol w force revert s).2.vol.mCurrentlyMountedKdev = -1 := by
  unfold unmountVol
  simp only []
  generalize decide (s.vol.mFlags &&& VOL_PROVIDES_ASEC ≠ 0 ∧ s.vol.mSkipAsec = false) = pa
  generalize (if s.vol.mPartIdx = -1 then false else revert) = rv
  cases pa <;> cases rv <;>
    simp [hm, doUnmount_ok_eq w _ _ _ h, setUuid, setUserLabel]

/-- C7: when `mountVol` returns 0 and every `umount` succeeds, the
`unmountVol` that follows returns 0 and leaves the volume in state Idle with
`mUuid` and `mUserLabel` absent and `mCurrentlyMountedKdev` equal to -1.  This
holds for every volume, so in particular for the idle, single-partition ones
without a secure container or encryption whose mount path is not mounted. -/
theorem mount_unmount_round_trip (w : World) (s : Sys) (force revert : Bool)
    (hmount : (mountVol w s).1 = 0) (humount : ∀ t p, w.umount t p = none) :
    (unmountVol w force revert (mountVol w s).2).1 = 0 ∧
    (unmountVol w force revert (mountVol w s).2).2.vol.mState = State_Idle ∧
    (unmountVol w force revert (mountVol w s).2).2.vol.mUuid = none ∧
    (unmountVol w force revert (mountVol w s).2).2.vol.mUserLabel = none ∧
    (unmountVol w force revert (mountVol w s).2).2.vol.mCurrentlyMountedKdev = -1 :=
  unmountVol_ok w force revert _ (mountVol_ok_mounted w s hmount) humount

/-! ### Rounds in which both drivers fail -/

theorem tryDrivers_fail (w : World) (pa : Bool) (hu dp mp : String) (s : Sys)
    (hf : ∀ t mp gid, w.fatDoMount t dp mp gid ≠ none)
    (hn : ∀ t mp, w.ntfsDoMount t dp mp ≠ none) :
    (tryDrivers w pa hu dp mp s).1 = false := by
  by_cases hums : hu = "true" <;> cases pa <;> simp [tryDrivers, hums, hf, hn]

theorem mountLoop_failed_node (w : World) (pa : Bool) (hu : String) (ns : Bool) (x : dev_t)
    (rest : List dev_t) (s : Sys)
    (hc : ∀ t, w.fatCheck t (devicePathOf (MAJOR x) (MINOR x)) = none)
    (hf : ∀ t mp gid, w.fatDoMount t (devicePathOf (MAJOR x) (MINOR x)) mp gid ≠ none)
    (hn : ∀ t mp, w.ntfsDoMount t (devicePathOf (MAJOR x) (MINOR x)) mp ≠ none) :
    mountLoop w pa hu ns (x :: rest) s = mountLoop w pa hu ns rest (afterFailedNode w pa hu x s) := by
  simp only [mountLoop, afterFailedNode, hc, tryDrivers_fail w pa hu _ _ _ hf hn]
  simp

theorem afterFailedNode_frame (w : World) (hu : String) (x : dev_t) (s : Sys) :
    (afterFailedNode w true hu x s).vol.mCurrentlyMountedKdev = s.vol.mCurrentlyMountedKdev ∧
    (afterFailedNode w true hu x s).vol.mLabel = s.vol.mLabel ∧
    (hu ≠ "true" → (afterFailedNode w true hu x s).vol.mSkipAsec = s.vol.mSkipAsec) ∧
    (afterFailedNode w true hu x s).trace.filterMap Event.umountPath =
      s.trace.filterMap Event.umountPath ∧
    (afterFailedNode w true hu x s).trace.filterMap Event.propertySet =
      s.trace.filterMap Event.propertySet := by
  by_cases husb : isUsbDisk w s.vol.mLabel = true
  · by_cases hums : hu = "true"
    · simp [afterFailedNode, chooseMountPoint, tryDrivers, mountFailedCleanup, husb, hums]
      repeat' split
      all_goals simp [husb]
    · simp [afterFailedNode, chooseMountPoint, tryDrivers, mountFailedCleanup, husb, hums]
      repeat' split
      all_goals simp [husb]
  · by_cases hums : hu = "true"
    · simp [afterFailedNode, chooseMountPoint, tryDrivers, mountFailedCleanup, husb, hums]
      repeat' split
      all_goals simp [husb]
    · simp [afterFailedNode, chooseMountPoint, tryDrivers, mountFailedCleanup, husb, hums]
      repeat' split
      all_goals simp [husb]

@[simp] theorem createDeviceNode_vol (w : World) (p : String) (a b : Int) (s : Sys) :
    (createDeviceNode w p a b s).2.vol = s.vol := by
  unfold createDeviceNode
  simp only []
  repeat' split
  all_goals simp

@[simp] theorem filterMap_createDeviceNode {α : Type} (f : Event → Option α) [hf : Quiet f]
    (w : World) (p : String) (a b : Int) (s : Sys) :
    (createDeviceNode w p a b s).2.trace.filterMap f = s.trace.filterMap f := by
  unfold createDeviceNode
  simp only []
  repeat' split
  all_goals simp [hf.mknod]

/-- C7, witness: the card of the calm world. -/
theorem mount_unmount_round_trip_witness :
    (unmountVol calmWorld true true (mountVol calmWorld sdcardSys).2).1 = 0 ∧
    (unmountVol calmWorld true true (mountVol calmWorld sdcardSys).2).2.vol.mState
      = State_Idle ∧
    (unmountVol calmWorld true true (mountVol calmWorld sdcardSys).2).2.vol.mUuid = none ∧
    (unmountVol calmWorld true true (mountVol calmWorld sdcardSys).2).2.vol.mUserLabel
      = none ∧
    (unmountVol calmWorld true true (mountVol calmWorld sdcardSys).2).2.vol.mCurrentlyMountedKdev
      = -1 :=
  mount_unmount_round_trip calmWorld sdcardSys true true (by decide) (fun _ _ => rfl)

/-- C8, witness: the card of the calm world, device node 8:1. -/
theorem mountVol_happy_path_witness :
    (mountVol calmWorld sdcardSys).1 = 0 ∧
    (mountVol calmWorld sdcardSys).2.vol.mState = State_Mounted ∧
    (mountVol calmWorld sdcardSys).2.vol.mCurrentlyMountedKdev = 2049 ∧
    stateChanges (mountVol calmWorld sdcardSys).2.trace =
      stateChanges sdcardSys.trace ++
        [(State_Idle, State_Checking), (State_Checking, State_Mounted)] :=
  mountVol_happy_path calmWorld sdcardSys 2049 rfl (by decide) (fun _ => rfl)
    (fun _ _ => rfl) (fun _ => rfl) (fun _ _ _ => rfl)

/-- C9, at the failing input: without `ro.factory.hasUMS`, when the FAT driver
fails and the NTFS driver mounts the only node of a volume that provides a
secure container, `mSkipAsec` stays false and the secure directory is prepared
and bound all the same; with `ro.factory.hasUMS` set to "true" the same run
sets `mSkipAsec` and makes no call for the secure directory. -/
theorem mountVol_fallback_without_ums_binds_secure :
    (mountVol ntfsWorld (asecSys State_Idle)).1 = 0 ∧
    (mountVol ntfsWorld (asecSys State_Idle)).2.vol.mState = State_Mounted ∧
    (mountVol ntfsWorld (asecSys State_Idle)).2.vol.mSkipAsec = false ∧
    asecCalls (mountVol ntfsWorld (asecSys State_Idle)).2.trace =
      ["/mnt/sdcard/android_secure", "/mnt/sdcard/.android_secure",
       "/mnt/sdcard/.android_secure", "/mnt/sdcard/.android_secure"] ∧
    (mountVol umsNtfsWorld (asecSys State_Idle)).1 = 0 ∧
    (mountVol umsNtfsWorld (asecSys State_Idle)).2.vol.mState = State_Mounted ∧
    (mountVol umsNtfsWorld (asecSys State_Idle)).2.vol.mSkipAsec = true ∧
    asecCalls (mountVol umsNtfsWorld (asecSys State_Idle)).2.trace = [] := by
  decide

/-- C10, as stated, fails: on the multi-partition USB disk the loop goes on
after a node is mounted.  Here node 8:1 is mounted and bound, then the FAT
driver mounts node 8:2 and the bind fails: `mountVol` undoes that mount and
returns -1 in state Idle, but the bridge service has been started and
`mCurrentlyMountedKdev` holds node 8:1. -/
theorem mountVol_bind_failure_after_mounted_node :
    (mountVol usbWorld usbSys).1 = -1 ∧
    (mountVol usbWorld usbSys).2.vol.mState = State_Idle ∧
    usbSys.vol.mCurrentlyMountedKdev = -1 ∧
    (mountVol usbWorld usbSys).2.vol.mCurrentlyMountedKdev = 2049 ∧
    umountPaths (mountVol usbWorld usbSys).2.trace = ["/mnt/usb/B"] ∧
    propertySets (mountVol usbWorld usbSys).2.trace =
      [("sys.vold.hasAsec", "true"), ("ctl.start", "fuse_usb_storage")] := by
  decide

/-! ### The letter allocator -/

theorem releaseLetter_comm (a b m : Nat) :
    releaseLetter b (releaseLetter a m) = releaseLetter a (releaseLetter b m) := by
  unfold releaseLetter
  split <;> split <;> try rfl
  rw [Nat.land_assoc, Nat.land_assoc, Nat.land_comm (_ ^^^ _)]

theorem releaseAll_perm (l₁ l₂ : List Nat) (h : l₁.Perm l₂) (m : Nat) :
    releaseAll l₁ m = releaseAll l₂ m :=
  h.foldl_eq' (fun x _ y _ z => releaseLetter_comm x y z) m

theorem allocLetters_all :
    allocLetters 26 0 = ((List.range 26).map (fun n => n + 65), 2 ^ 26 - 1) := by
  decide

/-- C3: from the empty bitmap, 26 calls of `getNextLetter` return 26 distinct
letters, all from 65 ('A') to 90 ('Z'); the next call returns 0 and leaves the
bitmap as it is; and `releaseLetter` on the 26 letters, in any order, gives
the empty bitmap again. -/
theorem letters_allocate_and_release :
    (allocLetters 26 0).1.length = 26 ∧
    (allocLetters 26 0).1.Nodup ∧
    (∀ c ∈ (allocLetters 26 0).1, 65 ≤ c ∧ c ≤ 90) ∧
    getNextLetter (allocLetters 26 0).2 = (0, (allocLetters 26 0).2) ∧
    ∀ l : List Nat, l.Perm (allocLetters 26 0).1 → releaseAll l (allocLetters 26 0).2 = 0 := by
  rw [allocLetters_all]
  refine ⟨by decide, by decide, by decide, by decide, ?_⟩
  intro l hl
  rw [releaseAll_perm l _ hl]
  decide

/-- C3, witness: the letters released in the reverse order. -/
theorem letters_allocate_and_release_witness :
    releaseAll (allocLetters 26 0).1.reverse (allocLetters 26 0).2 = 0 :=
  letters_allocate_and_release.2.2.2.2 _ (List.reverse_perm _)

/-! ### The state setter on a new state -/

theorem filterMap_notifyStateKernel_of {α : Type} (f : Event → Option α)
    (h1 : ∀ p, f (.fopen p) = none) (h2 : ∀ x, f (.fputs x) = none)
    (w : World) (n : Nat) (s : Sys) :
    (notifyStateKernel w n s).trace.filterMap f = s.trace.filterMap f := by
  unfold notifyStateKernel
  split
  · cases h : w.fopen s.trace "/sys/sd-sdio/rescan" <;> simp [h1, h2]
  · rfl

/-- C13: `setState` with a state other than the current one sets the state,
clears `mRetryMount` when the old state is Pending and the new one is not Idle
and leaves it (and every other field, so the mounted device) otherwise, and
sends one broadcast, of code `VolumeStateChange`, with the label, the mount
point, the old state and its name, the new state and its name. -/
theorem setState_commits (w : World) (new : State) (s : Sys) (h : s.vol.mState ≠ new) :
    (setState w new s).vol =
      { s.vol with
        mState := new
        mRetryMount :=
          if s.vol.mState = State_Pending ∧ new ≠ State_Idle then false
          else s.vol.mRetryMount } ∧
    (setState w new s).vol.mCurrentlyMountedKdev = s.vol.mCurrentlyMountedKdev ∧
    broadcasts (setState w new s).trace = broadcasts s.trace ++
      [(.VolumeStateChange,
        .stateChanged s.vol.mLabel w.getFuseMountpoint s.vol.mState (stateToStr s.vol.mState)
          new (stateToStr new))] := by
  refine ⟨setState_vol_ne w new s h, by rw [setState_vol_ne w new s h], ?_⟩
  unfold setState broadcasts
  simp only [h, if_false, emit_trace, List.filterMap_append, notifyStateKernel_vol]
  rw [filterMap_notifyStateKernel_of Event.broadcast (fun _ => rfl) (fun _ => rfl)]
  by_cases hp : s.vol.mState = State_Pending ∧ new ≠ State_Idle
  · simp [hp]
  · simp [hp]

/-- C13, witness: the idle card set to Checking. -/
theorem setState_commits_witness :
    (setState calmWorld State_Checking sdcardSys).vol.mState = State_Checking ∧
    broadcasts (setState calmWorld State_Checking sdcardSys).trace =
      [(.VolumeStateChange,
        .stateChanged "sdcard" "/storage/sdcard" State_Idle "Idle-Unmounted"
          State_Checking "Checking")] := by
  have h := setState_commits calmWorld State_Checking sdcardSys (by decide)
  exact ⟨by rw [h.1], h.2.2⟩

/-! ### The stages of `unmountVol` -/

@[simp] theorem doUnmountLoop_vol (w : World) (path : String) (force : Bool) :
    ∀ (n : Nat) (s : Sys), (doUnmountLoop w path force n s).2.vol = s.vol := by
  intro n
  induction n with
  | zero => intro s; rfl
  | succ n ih =>
    intro s
    simp only [doUnmountLoop]
    split
    · simp
    · rw [ih]; simp

@[simp] theorem doUnmount_vol (w : World) (path : String) (force : Bool) (s : Sys) :
    (doUnmount w path force s).2.vol = s.vol :=
  doUnmountLoop_vol w path force 150 s

theorem doUnmountLoop_ret (w : World) (path : String) (force : Bool) :
    ∀ (n : Nat) (s : Sys), (doUnmountLoop w path force n s).1 = 0 ∨
      (doUnmountLoop w path force n s).1 = -1 := by
  intro n
  induction n with
  | zero => intro s; exact Or.inr rfl
  | succ n ih =>
    intro s
    simp only [doUnmountLoop]
    split
    · exact Or.inl rfl
    · exact ih _

theorem doUnmount_ret (w : World) (path : String) (force : Bool) (s : Sys) :
    (doUnmount w path force s).1 = 0 ∨ (doUnmount w path force s).1 = -1 :=
  doUnmountLoop_ret w path force 150 s

/-- A reading `f` of the trace that keeps none of the calls of `doUnmount`. -/
theorem filterMap_doUnmountLoop {α : Type} (f : Event → Option α) [Quiet f]
    (hu : ∀ p, f (.umount p) = none) (hk : ∀ p a, f (.killProcessesWithOpenFiles p a) = none)
    (hs : ∀ n, f (.usleep n) = none) (w : World) (path : String) (force : Bool) :
    ∀ (n : Nat) (s : Sys),
      (doUnmountLoop w path force n s).2.trace.filterMap f = s.trace.filterMap f := by
  intro n
  induction n with
  | zero => intro s; rfl
  | succ n ih =>
    intro s
    simp only [doUnmountLoop]
    split
    · simp [hu]
    · rw [ih]; simp [hu, hk, hs]

theorem filterMap_doUnmount {α : Type} (f : Event → Option α) [Quiet f]
    (hu : ∀ p, f (.umount p) = none) (hk : ∀ p a, f (.killProcessesWithOpenFiles p a) = none)
    (hs : ∀ n, f (.usleep n) = none) (w : World) (path : String) (force : Bool) (s : Sys) :
    (doUnmount w path force s).2.trace.filterMap f = s.trace.filterMap f :=
  filterMap_doUnmountLoop f hu hk hs w path force 150 s

/-- The calls of `umount` that `doUnmount` makes are all on its path. -/
theorem umountPaths_doUnmountLoop (w : World) (path : String) (force : Bool) :
    ∀ (n : Nat) (s : Sys), ∃ k, k ≤ n ∧
      (doUnmountLoop w path force n s).2.trace.filterMap Event.umountPath =
        s.trace.filterMap Event.umountPath ++ List.replicate k path := by
  intro n
  induction n with
  | zero => intro s; exact ⟨0, le_refl _, by simp [doUnmountLoop]⟩
  | succ n ih =>
    intro s
    simp only [doUnmountLoop]
    split
    · exact ⟨1, by omega, by simp⟩
    · obtain ⟨k, hk, h⟩ := ih
        ((((notifyStateKernel w 3 ((s.emit (.umount path)).seterr (w.umount s.trace path))).emit
          (.killProcessesWithOpenFiles path (if force then
            (if n ≤ 120 then 2 else if n ≤ 130 then 1 else 0) else 0))).emit
          (.usleep (1000 * 30))))
      refine ⟨k + 1, by omega, ?_⟩
      rw [h]
      simp [List.replicate_succ]

/-- The method `unmountVol` on a mounted volume, in its stages. -/
theorem unmountVol_stages (w : World) (force revert : Bool) (s : Sys)
    (hm : s.vol.mState = State_Mounted) :
    unmountVol w force revert s =
      if (unmountSecure w force s).1 ≠ 0 then
        (-1, setState w State_Mounted (unmountSecure w force s).2)
      else if (unmountBacking w force s).1 ≠ 0 then
        if (restoreSecure w force s).1 ≠ 0 then
          (-1, setState w State_NoMedia (restoreSecure w force s).2)
        else (-1, setState w State_Mounted (restoreSecure w force s).2)
      else
        let s1 := (unmountBacking w force s).2
        let rv := if s.vol.mPartIdx = -1 then false else revert
        let d := if rv then w.isDecrypted s1.trace else false
        let s2 := if rv then s1.emit .isDecrypted else s1
        let s3 := if rv ∧ d then
            (s2.emit (.cryptfs_revert_volume s2.vol.mLabel)).emit .revertDeviceInfo
          else s2
        let s4 := setState w State_Idle (setUserLabel w none (setUuid w none s3))
        (0, { s4 with vol := { s4.vol with mCurrentlyMountedKdev := -1 } }) := by
  unfold unmountVol
  simp only [hm, ne_eq, not_true_eq_false, if_false]
  simp only [unmountSecure, unmountBridge, unmountBacking, restoreSecure, unmountStart,
    unmountProvidesAsec]

@[simp] theorem unmountStart_vol (w : World) (s : Sys) :
    (unmountStart w s).vol = (setState w State_Unmounting s).vol := rfl

@[simp] theorem unmountSecure_vol (w : World) (force : Bool) (s : Sys) :
    (unmountSecure w force s).2.vol = (setState w State_Unmounting s).vol := by
  unfold unmountSecure
  split <;> simp

@[simp] theorem unmountBridge_vol (w : World) (force : Bool) (s : Sys) :
    (unmountBridge w force s).2.vol = (setState w State_Unmounting s).vol := by
  unfold unmountBridge
  simp only [doUnmount_vol]
  split <;> simp

@[simp] theorem unmountBacking_vol (w : World) (force : Bool) (s : Sys) :
    (unmountBacking w force s).2.vol = (setState w State_Unmounting s).vol := by
  unfold unmountBacking
  simp

@[simp] theorem restoreSecure_vol (w : World) (force : Bool) (s : Sys) :
    (restoreSecure w force s).2.vol = (setState w State_Unmounting s).vol := by
  unfold restoreSecure
  split <;> simp

theorem restoreSecure_ret (w : World) (force : Bool) (s : Sys)
    (h : (restoreSecure w force s).1 ≠ 0) : unmountProvidesAsec s.vol = true := by
  unfold restoreSecure at h
  by_cases hp : unmountProvidesAsec s.vol = true
  · exact hp
  · simp [hp] at h

theorem unmountStart_umountPaths (w : World) (s : Sys) :
    (unmountStart w s).trace.filterMap Event.umountPath = s.trace.filterMap Event.umountPath := by
  simp [unmountStart]

/-- C14: on a mounted volume, (a) when the secure container is active and
its `doUnmount` fails, `unmountVol` returns -1 in state Mounted and has called
`umount` on no path but that of the secure container; (b) when the secure
container (if active) and the backing mount path are unmounted, it returns 0
whatever `doUnmount` returned on the mount path of the bridge; (c) when the
`doUnmount` of the backing mount path fails, it returns -1 after the attempt to
mount the secure container again, in state NoMedia when that attempt fails and
in state Mounted otherwise, and NoMedia is reached in no other way; (d)
whenever it fails it returns -1 and leaves `mUuid`, `mUserLabel` and
`mCurrentlyMountedKdev` as they were. -/
theorem unmountVol_failure_outcomes (w : World) (force revert : Bool) (s : Sys)
    (hm : s.vol.mState = State_Mounted) :
    (unmountProvidesAsec s.vol = true → (unmountSecure w force s).1 ≠ 0 →
      (unmountVol w force revert s).1 = -1 ∧
      (unmountVol w force revert s).2.vol.mState = State_Mounted ∧
      ∃ k, umountPaths (unmountVol w force revert s).2.trace =
        umountPaths s.trace ++ List.replicate k SEC_ASECDIR_EXT) ∧
    ((unmountSecure w force s).1 = 0 → (unmountBacking w force s).1 = 0 →
      (unmountVol w force revert s).1 = 0) ∧
    ((unmountSecure w force s).1 = 0 → (unmountBacking w force s).1 ≠ 0 →
      unmountVol w force revert s =
        (-1, setState w (if (restoreSecure w force s).1 ≠ 0 then State_NoMedia
          else State_Mounted) (restoreSecure w force s).2) ∧
      (unmountVol w force revert s).2.vol.mState =
        if (restoreSecure w force s).1 ≠ 0 then State_NoMedia else State_Mounted) ∧
    ((unmountVol w force revert s).2.vol.mState = State_NoMedia →
      (unmountSecure w force s).1 = 0 ∧ (unmountBacking w force s).1 ≠ 0 ∧
      unmountProvidesAsec s.vol = true ∧ (restoreSecure w force s).1 ≠ 0) ∧
    ((unmountVol w force revert s).1 ≠ 0 →
      (unmountVol w force revert s).1 = -1 ∧
      (unmountVol w force revert s).2.vol.mUuid = s.vol.mUuid ∧
      (unmountVol w force revert s).2.vol.mUserLabel = s.vol.mUserLabel ∧
      (unmountVol w force revert s).2.vol.mCurrentlyMountedKdev = s.vol.mCurrentlyMountedKdev ∧
      ((unmountVol w force revert s).2.vol.mState = State_Mounted ∨
        (unmountVol w force revert s).2.vol.mState = State_NoMedia)) := by
  rw [unmountVol_stages w force revert s hm]
  refine ⟨?_, ?_, ?_, ?_, ?_⟩
  · intro hp hf
    rw [if_pos hf]
    refine ⟨rfl, by simp, ?_⟩
    unfold umountPaths
    simp only [filterMap_setState]
    simp only [unmountSecure, hp, if_true]
    obtain ⟨k, -, hk⟩ := umountPaths_doUnmountLoop w SEC_ASECDIR_EXT force 150 (unmountStart w s)
    refine ⟨k, ?_⟩
    show List.filterMap Event.umountPath
      (doUnmountLoop w SEC_ASECDIR_EXT force 150 (unmountStart w s)).2.trace ++ _ = _
    rw [hk, unmountStart_umountPaths]
    simp
  · intro h1 h2
    simp [h1, h2]
  · intro h1 h2
    by_cases hr : (restoreSecure w force s).1 ≠ 0
    · simp [h1, h2, hr]
    · simp [h1, h2, hr]
  · by_cases h1 : (unmountSecure w force s).1 ≠ 0
    · simp [h1]
    · by_cases h2 : (unmountBacking w force s).1 ≠ 0
      · by_cases hr : (restoreSecure w force s).1 ≠ 0
        · intro _
          exact ⟨by simpa using h1, h2, restoreSecure_ret w force s hr, hr⟩
        · simp [h1, h2, hr]
      · simp [h1, h2]
  · by_cases h1 : (unmountSecure w force s).1 ≠ 0
    · simp [h1, hm]
    · by_cases h2 : (unmountBacking w force s).1 ≠ 0
      · by_cases hr : (restoreSecure w force s).1 ≠ 0
        · simp [h1, h2, hr, hm]
        · simp [h1, h2, hr, hm]
      · simp [h1, h2]

theorem unmountBacking_revertCalls (w : World) (force : Bool) (s : Sys) :
    (unmountBacking w force s).2.trace.filterMap Event.revertCall =
      s.trace.filterMap Event.revertCall := by
  have hd : ∀ (p : String) (x : Sys), (doUnmount w p force x).2.trace.filterMap Event.revertCall =
      x.trace.filterMap Event.revertCall :=
    fun p x => filterMap_doUnmount Event.revertCall (fun _ => rfl) (fun _ _ => rfl)
      (fun _ => rfl) w p force x
  unfold unmountBacking unmountBridge unmountSecure
  simp only [hd]
  split <;> simp [hd, unmountStart]

theorem unmountVol_ok_stages (w : World) (force revert : Bool) (s : Sys)
    (hm : s.vol.mState = State_Mounted) (hok : (unmountVol w force revert s).1 = 0) :
    (unmountSecure w force s).1 = 0 ∧ (unmountBacking w force s).1 = 0 := by
  rw [unmountVol_stages w force revert s hm] at hok
  by_cases h1 : (unmountSecure w force s).1 ≠ 0
  · simp [h1] at hok
  · by_cases h2 : (unmountBacking w force s).1 ≠ 0
    · by_cases hr : (restoreSecure w force s).1 ≠ 0
      · simp [h1, h2, hr] at hok
      · simp [h1, h2, hr] at hok
    · exact ⟨by simpa using h1, by simpa using h2⟩

/-- C18, as amended: when `unmountVol` on a mounted volume returns 0, it
calls `cryptfs_revert_volume` and then `revertDeviceInfo` if the partition
index is not -1, the caller passed `revert` and `isDecrypted` answers true; it
calls neither if the partition index is -1, or `revert` is false, or
`isDecrypted` answers false. -/
theorem unmountVol_revert (w : World) (force revert : Bool) (s : Sys)
    (hm : s.vol.mState = State_Mounted) (hok : (unmountVol w force revert s).1 = 0) :
    (s.vol.mPartIdx ≠ -1 → revert = true →
      w.isDecrypted (unmountBacking w force s).2.trace = true →
      revertCalls (unmountVol w force revert s).2.trace =
        revertCalls s.trace ++ [.cryptfs_revert_volume s.vol.mLabel, .revertDeviceInfo]) ∧
    ((s.vol.mPartIdx = -1 ∨ revert = false ∨
        w.isDecrypted (unmountBacking w force s).2.trace = false) →
      revertCalls (unmountVol w force revert s).2.trace = revertCalls s.trace) := by
  obtain ⟨h1, h2⟩ := unmountVol_ok_stages w force revert s hm hok
  rw [unmountVol_stages w force revert s hm]
  unfold revertCalls
  simp only [h1, h2, ne_eq, not_true_eq_false, if_false]
  constructor
  · intro hp hr hd
    simp [hp, hr, hd, setUuid, setUserLabel, unmountBacking_revertCalls]
  · intro h
    rcases h with hp | hr | hd
    · simp [hp, setUuid, setUserLabel, unmountBacking_revertCalls]
    · simp [hr, setUuid, setUserLabel, unmountBacking_revertCalls]
    · by_cases hrv : (if s.vol.mPartIdx = -1 then false else revert) = true
      · simp [hrv, hd, setUuid, setUserLabel, unmountBacking_revertCalls]
      · simp [hrv, setUuid, setUserLabel, unmountBacking_revertCalls]

/-- C18, as stated, fails: a volume mounted as a whole device (partition
index -1) is unmounted with `revert` passed and a decrypted mapping active, the
call returns 0, and neither revert call is made. -/
theorem unmountVol_whole_disk_no_revert :
    wholeDiskSys.vol.mState = State_Mounted ∧
    decryptedWorld.isDecrypted (unmountBacking decryptedWorld false wholeDiskSys).2.trace = true ∧
    (unmountVol decryptedWorld false true wholeDiskSys).1 = 0 ∧
    revertCalls (unmountVol decryptedWorld false true wholeDiskSys).2.trace = [] := by
  decide

theorem unmountVol_revert_witness :
    revertCalls (unmountVol decryptedWorld false true mountedSys).2.trace =
      revertCalls mountedSys.trace ++
        [.cryptfs_revert_volume mountedSys.vol.mLabel, .revertDeviceInfo] :=
  (unmountVol_revert decryptedWorld false true mountedSys rfl (by decide)).1
    (by decide) rfl rfl

theorem unmountVol_failure_outcomes_witness :
    (unmountVol busyWorld true true (asecSys State_Mounted)).1 = -1 ∧
    (unmountVol busyWorld true true (asecSys State_Mounted)).2.vol.mState = State_Mounted :=
  have h := (unmountVol_failure_outcomes busyWorld true true (asecSys State_Mounted) rfl).1
    (by decide) (by decide)
  ⟨h.1, h.2.1⟩

theorem notifyStateKernel_errno (w : World) (n : Nat) (s : Sys)
    (h : RescanKeepsErrno w s.vol) : (notifyStateKernel w n s).errno = s.errno := by
  unfold notifyStateKernel
  rcases h with h | h
  · simp only [h, Bool.false_eq_true, if_false]
  · split
    · simp [h, Sys.emit, Sys.seterr]
    · rfl

theorem setState_errno (w : World) (st : State) (s : Sys)
    (h : RescanKeepsErrno w s.vol) : (setState w st s).errno = s.errno := by
  unfold setState
  simp only []
  split
  · rfl
  · rw [show ∀ x : Sys, ∀ e, (x.emit e).errno = x.errno from fun _ _ => rfl]
    rw [notifyStateKernel_errno]
    · split <;> rfl
    · split <;> exact h

@[simp] theorem nodeCalls_setState (w : World) (st : State) (s : Sys) :
    (setState w st s).trace.filterMap Event.nodeCall = s.trace.filterMap Event.nodeCall := by
  unfold setState
  simp only []
  split
  · rfl
  · simp [Sys.emit, filterMap_notifyStateKernel_of Event.nodeCall (fun _ => rfl) (fun _ => rfl)]
    split <;> rfl

theorem checkNode_nodeCalls (w : World) (dev : dev_t) (s : Sys) :
    nodeCalls (checkNode w dev s).trace =
      nodeCalls s.trace ++ [("Fat::check", devicePathOf (MAJOR dev) (MINOR dev))] := by
  have hs : ∀ (x : Sys) (r : Option Nat), (x.seterr r).trace = x.trace := by
    intro x r; cases r <;> rfl
  simp [checkNode, nodeCalls, hs, Sys.emit]

/-- A round of the candidate loop whose filesystem check fails while the local
`isSupNtfs` is false: ENODATA skips the node with no driver call, another
error ends the loop with -1 in state Idle. -/
theorem mountLoop_check_failure (w : World) (pa : Bool) (hu : String) (dev : dev_t)
    (rest : List dev_t) (s : Sys) (e : Nat)
    (hc : w.fatCheck (setState w State_Checking { s with errno := 0 }).trace
      (devicePathOf (MAJOR dev) (MINOR dev)) = some e) :
    nodeCalls (checkNode w dev s).trace =
      nodeCalls s.trace ++ [("Fat::check", devicePathOf (MAJOR dev) (MINOR dev))] ∧
    (e = ENODATA →
      mountLoop w pa hu false (dev :: rest) s = mountLoop w pa hu false rest (checkNode w dev s)) ∧
    (e ≠ ENODATA →
      (mountLoop w pa hu false (dev :: rest) s).1 = -1 ∧
      (mountLoop w pa hu false (dev :: rest) s).2.vol.mState = State_Idle ∧
      nodeCalls (mountLoop w pa hu false (dev :: rest) s).2.trace =
        nodeCalls s.trace ++ [("Fat::check", devicePathOf (MAJOR dev) (MINOR dev))] ∧
      (RescanKeepsErrno w s.vol → (mountLoop w pa hu false (dev :: rest) s).2.errno = EIO)) := by
  refine ⟨checkNode_nodeCalls w dev s, ?_, ?_⟩
  · intro he
    subst he
    simp [mountLoop, checkNode, hc, Sys.seterr, Sys.emit]
  · intro he
    have h1 : mountLoop w pa hu false (dev :: rest) s =
        (-1, setState w State_Idle { checkNode w dev s with errno := EIO }) := by
      simp [mountLoop, checkNode, hc, Sys.seterr, Sys.emit, he]
    rw [h1]
    refine ⟨rfl, by simp, ?_, ?_⟩
    · have := checkNode_nodeCalls w dev s
      unfold nodeCalls at this ⊢
      simpa using this
    · intro hr
      rw [setState_errno]
      refine Or.imp (fun h => ?_) id hr
      simpa [checkNode, hc, Sys.seterr, Sys.emit] using h

/-- C15, as stated, fails: with `ro.factory.storage_suppntfs` not set, the
filesystem check of the only node fails with EIO, and `mountVol` still calls
the FAT driver on it and returns 0 in state Mounted. -/
theorem mountVol_check_failure_ignored :
    sdcardSys.vol.mState = State_Idle ∧
    badCheckWorld.property_get [] "ro.factory.storage_suppntfs" = none ∧
    badCheckWorld.fatCheck [] "/dev/block/vold/8:1" = some EIO ∧
    (mountVol badCheckWorld sdcardSys).1 = 0 ∧
    (mountVol badCheckWorld sdcardSys).2.vol.mState = State_Mounted ∧
    nodeCalls (mountVol badCheckWorld sdcardSys).2.trace =
      [("Fat::check", "/dev/block/vold/8:1"), ("Fat::doMount", "/dev/block/vold/8:1")] := by
  decide

@[simp] theorem nodeCalls_extractMetadata (w : World) (p : String) (s : Sys) :
    (extractMetadata w p s).2.trace.filterMap Event.nodeCall =
      s.trace.filterMap Event.nodeCall := by
  have h : (probeMetadata w p s).2.trace.filterMap Event.nodeCall =
      s.trace.filterMap Event.nodeCall := by
    unfold probeMetadata
    simp only []
    repeat' split
    all_goals simp [setUuid, setUserLabel]
  unfold extractMetadata
  simp only []
  split
  · simp [setUuid, setUserLabel, h]
  · exact h

theorem afterFailedNode_plain (w : World) (hu : String) (x : dev_t) (s : Sys)
    (husb : isUsbDisk w s.vol.mLabel = false) (hd : DriversFail w x) :
    (afterFailedNode w false hu x s).vol.mLabel = s.vol.mLabel ∧
    (afterFailedNode w false hu x s).vol.mState = State_Checking ∧
    (afterFailedNode w false hu x s).vol.mCurrentlyMountedKdev = s.vol.mCurrentlyMountedKdev ∧
    (afterFailedNode w false hu x s).trace.filterMap Event.nodeCall =
      s.trace.filterMap Event.nodeCall ++ bothDriverCalls x := by
  obtain ⟨hf, hn⟩ := hd
  by_cases hums : hu = "true"
  · simp [afterFailedNode, chooseMountPoint, tryDrivers, mountFailedCleanup, husb, hums, hf, hn,
      bothDriverCalls]
  · simp [afterFailedNode, chooseMountPoint, tryDrivers, mountFailedCleanup, husb, hums, hf, hn,
      bothDriverCalls]

theorem skipNodes_plain (w : World) (hu : String) :
    ∀ (pre : List dev_t) (s : Sys), isUsbDisk w s.vol.mLabel = false →
      (∀ x ∈ pre, DriversFail w x) →
      (skipNodes w false hu pre s).vol.mLabel = s.vol.mLabel ∧
      (skipNodes w false hu pre s).vol.mCurrentlyMountedKdev = s.vol.mCurrentlyMountedKdev ∧
      (skipNodes w false hu pre s).trace.filterMap Event.nodeCall =
        s.trace.filterMap Event.nodeCall ++ (pre.map bothDriverCalls).flatten := by
  intro pre
  induction pre with
  | nil => intro s _ _; simp [skipNodes]
  | cons x pre ih =>
    intro s husb hd
    obtain ⟨a1, -, a3, a4⟩ := afterFailedNode_plain w hu x s husb (hd x (by simp))
    obtain ⟨b1, b2, b3⟩ := ih (afterFailedNode w false hu x s) (by rw [a1]; exact husb)
      (fun y hy => hd y (by simp [hy]))
    refine ⟨?_, ?_, ?_⟩
    · exact b1.trans a1
    · exact b2.trans a3
    · show (skipNodes w false hu pre (afterFailedNode w false hu x s)).trace.filterMap
        Event.nodeCall = _
      rw [b3, a4]
      simp

theorem mountLoop_skipNodes (w : World) (pa : Bool) (hu : String) (ns : Bool)
    (rest : List dev_t) :
    ∀ (pre : List dev_t) (s : Sys),
      (∀ x ∈ pre, ∀ t, w.fatCheck t (devicePathOf (MAJOR x) (MINOR x)) = none) →
      (∀ x ∈ pre, DriversFail w x) →
      mountLoop w pa hu ns (pre ++ rest) s = mountLoop w pa hu ns rest (skipNodes w pa hu pre s) := by
  intro pre
  induction pre with
  | nil => intro s _ _; rfl
  | cons x pre ih =>
    intro s hc hd
    rw [List.cons_append, mountLoop_failed_node w pa hu ns x (pre ++ rest) s
      (hc x (by simp)) (hd x (by simp)).1 (hd x (by simp)).2]
    exact ih _ (fun y hy => hc y (by simp [hy])) (fun y hy => hd y (by simp [hy]))

theorem mountLoop_node_mounts (w : World) (hu : String) (ns : Bool) (k : dev_t)
    (post : List dev_t) (s : Sys) (husb : isUsbDisk w s.vol.mLabel = false)
    (hc : ∀ t, w.fatCheck t (devicePathOf (MAJOR k) (MINOR k)) = none) :
    ((∀ t mp gid, w.fatDoMount t (devicePathOf (MAJOR k) (MINOR k)) mp gid = none) →
      (mountLoop w false hu ns (k :: post) s).1 = 0 ∧
      (mountLoop w false hu ns (k :: post) s).2.vol.mState = State_Mounted ∧
      (mountLoop w false hu ns (k :: post) s).2.vol.mCurrentlyMountedKdev = k ∧
      (mountLoop w false hu ns (k :: post) s).2.trace.filterMap Event.nodeCall =
        s.trace.filterMap Event.nodeCall ++
          [("Fat::check", devicePathOf (MAJOR k) (MINOR k)),
           ("Fat::doMount", devicePathOf (MAJOR k) (MINOR k))]) ∧
    ((∀ t mp gid, w.fatDoMount t (devicePathOf (MAJOR k) (MINOR k)) mp gid ≠ none) →
      (∀ t mp, w.ntfsDoMount t (devicePathOf (MAJOR k) (MINOR k)) mp = none) →
      (mountLoop w false hu ns (k :: post) s).1 = 0 ∧
      (mountLoop w false hu ns (k :: post) s).2.vol.mState = State_Mounted ∧
      (mountLoop w false hu ns (k :: post) s).2.vol.mCurrentlyMountedKdev = k ∧
      (mountLoop w false hu ns (k :: post) s).2.trace.filterMap Event.nodeCall =
        s.trace.filterMap Event.nodeCall ++ bothDriverCalls k) := by
  constructor
  · intro hf
    by_cases hums : hu = "true"
    · simp [mountLoop, chooseMountPoint, tryDrivers, finishNode, hc, hf, husb, hums]
    · simp [mountLoop, chooseMountPoint, tryDrivers, finishNode, hc, hf, husb, hums]
  · intro hf hn
    by_cases hums : hu = "true"
    · simp [mountLoop, chooseMountPoint, tryDrivers, finishNode, hc, hf, hn, husb, hums,
        bothDriverCalls]
    · simp [mountLoop, chooseMountPoint, tryDrivers, finishNode, hc, hf, hn, husb, hums,
        bothDriverCalls]

@[simp] theorem nodeCalls_isMountpointMounted (w : World) (p : String) (s : Sys) :
    (isMountpointMounted w p s).2.trace.filterMap Event.nodeCall =
      s.trace.filterMap Event.nodeCall := by
  unfold isMountpointMounted
  simp only []
  split <;> simp

theorem mountLoop_all_fail (w : World) (hu : String) (ns : Bool) (nodes : List dev_t) (s : Sys)
    (husb : isUsbDisk w s.vol.mLabel = false)
    (hc : ∀ x ∈ nodes, ∀ t, w.fatCheck t (devicePathOf (MAJOR x) (MINOR x)) = none)
    (hd : ∀ x ∈ nodes, DriversFail w x) :
    (mountLoop w false hu ns nodes s).1 = -1 ∧
    (mountLoop w false hu ns nodes s).2.vol.mState = State_Idle ∧
    (mountLoop w false hu ns nodes s).2.trace.filterMap Event.nodeCall =
      s.trace.filterMap Event.nodeCall ++ (nodes.map bothDriverCalls).flatten := by
  have h := mountLoop_skipNodes w false hu ns [] nodes s hc hd
  rw [List.append_nil] at h
  obtain ⟨b1, -, b3⟩ := skipNodes_plain w hu nodes s husb hd
  rw [h]
  simp [mountLoop, mountLoopEnd, b1, husb, b3]

theorem mountVol_plain_loop (w : World) (s : Sys) (nodes : List dev_t)
    (P : Int × Sys → Prop)
    (hidle : s.vol.mState = State_Idle)
    (hasec : s.vol.mFlags &&& VOL_PROVIDES_ASEC = 0)
    (husb : isUsbDisk w s.vol.mLabel = false)
    (hnm : ∀ s', (isMountpointMounted w w.getMountpoint s').1 = false)
    (hnodes : ∀ t, w.getDeviceNodes t 4 = nodes) (hlen : nodes.length ≤ 4)
    (hne : nodes ≠ [])
    (hP : ∀ hu ns s0, s0.vol.mLabel = s.vol.mLabel →
      s0.trace.filterMap Event.nodeCall = s.trace.filterMap Event.nodeCall →
      P (mountLoop w false hu ns nodes s0)) :
    P (mountVol w s) := by
  have ht : List.take 4 nodes = nodes := List.take_of_length_le hlen
  simp [mountVol, mountVolNodes, property_get, getDeviceNodes, hidle, hasec, husb, hnodes,
    hnm, hne, ht]
  apply hP
  · simp
  · simp

/-- C16, as amended: for an idle volume that is not the multi-partition USB
disk, provides no secure container and whose mount path is not already
mounted, with at most 4 device nodes whose checks pass: if both drivers fail
on every node before the node `k` and the FAT driver, or after its failure the
NTFS driver, mounts `k`, then `mountVol` has called the check and both drivers
on every earlier node, the check and the drivers up to the one that worked on
`k`, and nothing on a later node, and it returns 0 in state Mounted with `k` in
`mCurrentlyMountedKdev`; if both drivers fail on every node, `mountVol` returns
-1 in state Idle. -/
theorem mountVol_first_mountable_node (w : World) (s : Sys) (nodes : List dev_t)
    (hidle : s.vol.mState = State_Idle)
    (hasec : s.vol.mFlags &&& VOL_PROVIDES_ASEC = 0)
    (husb : isUsbDisk w s.vol.mLabel = false)
    (hnm : ∀ s', (isMountpointMounted w w.getMountpoint s').1 = false)
    (hnodes : ∀ t, w.getDeviceNodes t 4 = nodes) (hlen : nodes.length ≤ 4)
    (hcheck : ∀ x ∈ nodes, ∀ t, w.fatCheck t (devicePathOf (MAJOR x) (MINOR x)) = none) :
    (∀ pre k post, nodes = pre ++ k :: post → (∀ x ∈ pre, DriversFail w x) →
      ((∀ t mp gid, w.fatDoMount t (devicePathOf (MAJOR k) (MINOR k)) mp gid = none) →
        (mountVol w s).1 = 0 ∧
        (mountVol w s).2.vol.mState = State_Mounted ∧
        (mountVol w s).2.vol.mCurrentlyMountedKdev = k ∧
        nodeCalls (mountVol w s).2.trace =
          nodeCalls s.trace ++ (pre.map bothDriverCalls).flatten ++
            [("Fat::check", devicePathOf (MAJOR k) (MINOR k)),
             ("Fat::doMount", devicePathOf (MAJOR k) (MINOR k))]) ∧
      ((∀ t mp gid, w.fatDoMount t (devicePathOf (MAJOR k) (MINOR k)) mp gid ≠ none) →
        (∀ t mp, w.ntfsDoMount t (devicePathOf (MAJOR k) (MINOR k)) mp = none) →
        (mountVol w s).1 = 0 ∧
        (mountVol w s).2.vol.mState = State_Mounted ∧
        (mountVol w s).2.vol.mCurrentlyMountedKdev = k ∧
        nodeCalls (mountVol w s).2.trace =
          nodeCalls s.trace ++ (pre.map bothDriverCalls).flatten ++ bothDriverCalls k)) ∧
    ((∀ x ∈ nodes, DriversFail w x) →
      (mountVol w s).1 = -1 ∧
      (mountVol w s).2.vol.mState = State_Idle ∧
      nodeCalls (mountVol w s).2.trace =
        nodeCalls s.trace ++ (nodes.map bothDriverCalls).flatten) := by
  unfold nodeCalls
  by_cases hne : nodes = []
  · subst hne
    refine ⟨?_, ?_⟩
    · intro pre k post hsplit
      simp at hsplit
    · intro _
      simp [mountVol, mountVolNodes, property_get, getDeviceNodes, hidle, hasec, husb, hnodes,
        hnm]
  · obtain ⟨hu, ns, s0, h0, hL, hT⟩ := mountVol_plain_loop w s nodes
      (fun r => ∃ hu ns s0, r = mountLoop w false hu ns nodes s0 ∧
        s0.vol.mLabel = s.vol.mLabel ∧
        s0.trace.filterMap Event.nodeCall = s.trace.filterMap Event.nodeCall)
      hidle hasec husb hnm hnodes hlen hne (fun hu ns s0 hL hT => ⟨hu, ns, s0, rfl, hL, hT⟩)
    rw [h0]
    have husb0 : isUsbDisk w s0.vol.mLabel = false := by rw [hL]; exact husb
    refine ⟨?_, ?_⟩
    · intro pre k post hsplit hd
      subst hsplit
      have hs := mountLoop_skipNodes w false hu ns (k :: post) pre s0
        (fun x hx => hcheck x (by simp [hx])) hd
      obtain ⟨b1, -, b3⟩ := skipNodes_plain w hu pre s0 husb0 hd
      have hm := mountLoop_node_mounts w hu ns k post (skipNodes w false hu pre s0)
        (by rw [b1]; exact husb0) (hcheck k (by simp))
      rw [hs, ← hT, ← b3]
      exact hm
    · intro hd
      rw [← hT]
      exact mountLoop_all_fail w hu ns nodes s0 husb0 hcheck hd

theorem mountVol_first_mountable_node_witness :
    (mountVol secondNodeWorld sdcardSys).1 = 0 ∧
    (mountVol secondNodeWorld sdcardSys).2.vol.mState = State_Mounted ∧
    (mountVol secondNodeWorld sdcardSys).2.vol.mCurrentlyMountedKdev = 2050 ∧
    nodeCalls (mountVol secondNodeWorld sdcardSys).2.trace =
      nodeCalls sdcardSys.trace ++ ([2049].map bothDriverCalls).flatten ++
        [("Fat::check", devicePathOf (MAJOR 2050) (MINOR 2050)),
         ("Fat::doMount", devicePathOf (MAJOR 2050) (MINOR 2050))] := by
  have p1 : devicePathOf (MAJOR 2049) (MINOR 2049) = "/dev/block/vold/8:1" := by decide
  have p2 : devicePathOf (MAJOR 2050) (MINOR 2050) = "/dev/block/vold/8:2" := by decide
  refine ((mountVol_first_mountable_node secondNodeWorld sdcardSys [2049, 2050] rfl (by decide)
    rfl (fun _ => rfl) (fun _ => rfl) (by decide) (fun _ _ _ => rfl)).1 [2049] 2050 [] rfl
    ?_).1 ?_
  · intro x hx
    rw [List.mem_singleton.mp hx]
    exact ⟨fun _ _ _ => by rw [p1]; simp [secondNodeWorld],
      fun _ _ => by rw [p1]; simp [secondNodeWorld]⟩
  · intro _ _ _
    rw [p2]
    simp [secondNodeWorld]

/-- C16, as stated, fails: the volume is idle, is not the multi-partition
USB disk and provides no secure container, its one device node 8:1 passes the
check, and the mount table already lists the mount path.  Where both drivers
fail on the node, `mountVol` returns 0 in state Mounted; where the FAT driver
would mount it, `mountVol` returns 0 in state Mounted with
`mCurrentlyMountedKdev` still -1; neither run makes a call on the node. -/
theorem mountVol_already_mounted_skips_nodes :
    sdcardSys.vol.mState = State_Idle ∧
    sdcardSys.vol.mFlags &&& VOL_PROVIDES_ASEC = 0 ∧
    isUsbDisk mountedNoDriverWorld sdcardSys.vol.mLabel = false ∧
    (mountVol mountedNoDriverWorld sdcardSys).1 = 0 ∧
    (mountVol mountedNoDriverWorld sdcardSys).2.vol.mState = State_Mounted ∧
    nodeCalls (mountVol mountedNoDriverWorld sdcardSys).2.trace = [] ∧
    (mountVol alreadyMountedWorld sdcardSys).1 = 0 ∧
    (mountVol alreadyMountedWorld sdcardSys).2.vol.mState = State_Mounted ∧
    (mountVol alreadyMountedWorld sdcardSys).2.vol.mCurrentlyMountedKdev = -1 ∧
    nodeCalls (mountVol alreadyMountedWorld sdcardSys).2.trace = [] := by
  decide

/-! ### The state changes of the three calls -/

theorem Moves.refl (A : List (State × State)) (s : Sys) : Moves A s s :=
  ⟨[], by simp, by simp⟩

theorem Moves.of_same {A : List (State × State)} {s r : Sys}
    (h : r.trace.filterMap Event.stateChange = s.trace.filterMap Event.stateChange) :
    Moves A s r :=
  ⟨[], by simp [stateChanges, h], by simp⟩

theorem Moves.append {A : List (State × State)} {s r q : Sys} (h1 : Moves A s r)
    (h2 : Moves A r q) : Moves A s q := by
  obtain ⟨c1, e1, m1⟩ := h1
  obtain ⟨c2, e2, m2⟩ := h2
  refine ⟨c1 ++ c2, by rw [e2, e1, List.append_assoc], ?_⟩
  intro c hc
  rcases List.mem_append.mp hc with h | h
  · exact m1 c h
  · exact m2 c h

theorem Moves.of_setState {A : List (State × State)} (w : World) (st : State) (s : Sys)
    (h : s.vol.mState = st ∨ (s.vol.mState, st) ∈ A) : Moves A s (setState w st s) := by
  by_cases he : s.vol.mState = st
  · rw [setState_same w st s he]
    exact Moves.refl A s
  · refine ⟨[(s.vol.mState, st)], ?_, ?_⟩
    · simp [stateChanges, he]
    · intro c hc
      rw [List.mem_singleton.mp hc]
      exact h.resolve_left he

theorem Seg.trans {A : List (State × State)} {s r q : Sys} {st st' : State}
    (h1 : Seg A s r st) (h2 : Seg A r q st') : Seg A s q st' :=
  ⟨h1.1.append h2.1, h2.2.1, h2.2.2.1.trans h1.2.2.1, h2.2.2.2.trans h1.2.2.2⟩

theorem Seg.setState {A : List (State × State)} (w : World) (st : State) (s : Sys)
    (h : s.vol.mState = st ∨ (s.vol.mState, st) ∈ A) : Seg A s (setState w st s) st :=
  ⟨Moves.of_setState w st s h, by simp, by simp, by simp⟩

theorem Seg.of_eq {A : List (State × State)} {s r : Sys}
    (ht : r.trace.filterMap Event.stateChange = s.trace.filterMap Event.stateChange)
    (h1 : r.vol.mState = s.vol.mState) (h2 : r.vol.mLabel = s.vol.mLabel)
    (h3 : r.vol.mCurrentlyMountedKdev = s.vol.mCurrentlyMountedKdev) :
    Seg A s r s.vol.mState :=
  ⟨Moves.of_same ht, h1, h2, h3⟩

theorem checkNode_seg (A : List (State × State)) (w : World) (dev : dev_t) (s : Sys)
    (h : s.vol.mState = State_Checking ∨ (s.vol.mState, State_Checking) ∈ A) :
    Seg A s (checkNode w dev s) State_Checking := by
  have h1 : Seg A s (setState w State_Checking { s with errno := 0 }) State_Checking :=
    Seg.setState w State_Checking { s with errno := 0 } h
  refine h1.trans ?_
  have := @Seg.of_eq A (setState w State_Checking { s with errno := 0 }) (checkNode w dev s)
    (by simp [checkNode]) (by simp [checkNode]) (by simp [checkNode]) (by simp [checkNode])
  simpa using this

theorem tryDrivers_seg (A : List (State × State)) (w : World) (pa : Bool) (hu dp mp : String)
    (s : Sys) : Seg A s (tryDrivers w pa hu dp mp s).2 s.vol.mState := by
  apply Seg.of_eq
  all_goals
    unfold tryDrivers
    simp only []
    repeat' split
    all_goals simp

theorem chooseMountPoint_seg (A : List (State × State)) (w : World) (dev : dev_t) (s : Sys)
    (h : s.vol.mState = State_Checking) :
    Seg A s (chooseMountPoint w dev s).2.2 State_Checking := by
  rw [← h]
  apply Seg.of_eq
  all_goals
    unfold chooseMountPoint
    simp only []
    split
    all_goals simp [h]

theorem mountFailedCleanup_seg (A : List (State × State)) (w : World) (mp : String) (l : Nat)
    (s : Sys) (h : s.vol.mState = State_Checking) (hA : (State_Checking, State_Idle) ∈ A) :
    Seg A s (mountFailedCleanup w mp l s)
      (if isUsbDisk w s.vol.mLabel then State_Idle else State_Checking) := by
  unfold mountFailedCleanup
  split
  · have h1 : Seg A s (setState w State_Idle s) State_Idle :=
      Seg.setState w State_Idle s (Or.inr (by rw [h]; exact hA))
    refine h1.trans ?_
    have := @Seg.of_eq A (setState w State_Idle s)
      { ((setState w State_Idle s).emit (.rmdir mp)).seterr
          (w.rmdir (setState w State_Idle s).trace mp) with
        vol := { (((setState w State_Idle s).emit (.rmdir mp)).seterr
          (w.rmdir (setState w State_Idle s).trace mp)).vol with
          mLetters := releaseLetter l (((setState w State_Idle s).emit (.rmdir mp)).seterr
            (w.rmdir (setState w State_Idle s).trace mp)).vol.mLetters } }
      (by simp) (by simp) (by simp) (by simp)
    simpa using this
  · exact ⟨Moves.refl A s, h, rfl, rfl⟩

theorem finishNode_seg (A : List (State × State)) (w : World) (pa : Bool) (dev : dev_t) (l : Nat)
    (mp : String) (s : Sys) (h : s.vol.mState = State_Checking)
    (hI : (State_Checking, State_Idle) ∈ A) (hM : (State_Checking, State_Mounted) ∈ A) :
    ((finishNode w pa dev l mp s).1 ≠ 0 → Seg A s (finishNode w pa dev l mp s).2 State_Idle) ∧
    ((finishNode w pa dev l mp s).1 = 0 →
      Moves A s (finishNode w pa dev l mp s).2 ∧
      (finishNode w pa dev l mp s).2.vol.mState = State_Mounted ∧
      (finishNode w pa dev l mp s).2.vol.mLabel = s.vol.mLabel ∧
      (finishNode w pa dev l mp s).2.vol.mCurrentlyMountedKdev = dev) := by
  unfold finishNode
  simp only []
  generalize hs1 : (if isUsbDisk w s.vol.mLabel = true then _ else s) = s1
  have e1 : Seg A s s1 State_Checking := by
    subst hs1
    split
    · exact ⟨Moves.of_same rfl, h, rfl, rfl⟩
    · exact ⟨Moves.of_same rfl, h, rfl, rfl⟩
  generalize hs2 : (extractMetadata w (devicePathOf (MAJOR dev) (MINOR dev)) s1).2 = s2
  have e2 : Seg A s1 s2 State_Checking := by
    subst hs2
    rw [← e1.2.1]
    exact Seg.of_eq (by simp) (by simp) (by simp) (by simp)
  generalize ha : (if pa = true ∧ s2.vol.mSkipAsec = false then mountAsecExternal w s2 else (0, s2)) = a
  have e3 : Seg A s2 a.2 State_Checking := by
    subst ha
    rw [← e2.2.1]
    split
    · exact Seg.of_eq (by simp) (by simp) (by simp) (by simp)
    · exact Seg.of_eq rfl rfl rfl rfl
  have e : Seg A s a.2 State_Checking := (e1.trans e2).trans e3
  by_cases h0 : a.1 = 0
  · simp only [h0, ne_eq, not_true_eq_false, if_false]
    refine ⟨fun hx => hx.elim, fun _ => ?_⟩
    have e4 : Seg A a.2 (a.2.emit (.property_set "ctl.start" ("fuse_" ++ a.2.vol.mLabel)))
        State_Checking := by
      rw [← e.2.1]
      exact Seg.of_eq (by simp) rfl rfl rfl
    have e5 := (e.trans e4).trans (@Seg.setState A w State_Mounted
      (a.2.emit (.property_set "ctl.start" ("fuse_" ++ a.2.vol.mLabel)))
      (Or.inr (by rw [emit_vol, e.2.1]; exact hM)))
    obtain ⟨cs, hc1, hc2⟩ := e5.1
    have hl := e5.2.2.1
    simp only [setState_vol] at hl
    exact ⟨⟨cs, hc1, hc2⟩, by simp, by simpa using hl, trivial⟩
  · simp only [h0, ne_eq, not_false_eq_true, if_true]
    refine ⟨fun _ => ?_, fun hx => absurd hx (by decide)⟩
    have e4 : Seg A a.2 ((a.2.emit (.umount mp)).seterr (w.umount a.2.trace mp))
        State_Checking := by
      rw [← e.2.1]
      exact Seg.of_eq (by simp) (by simp) (by simp) (by simp)
    exact (e.trans e4).trans (Seg.setState w State_Idle _
      (Or.inr (by rw [e4.2.1]; exact hI)))

theorem mountLoop_cons (w : World) (pa : Bool) (hu : String) (ns : Bool) (dev : dev_t)
    (rest : List dev_t) (s : Sys) :
    mountLoop w pa hu ns (dev :: rest) s =
      if w.fatCheck (setState w State_Checking { s with errno := 0 }).trace
          (devicePathOf (MAJOR dev) (MINOR dev)) ≠ none ∧ ns = false then
        if (checkNode w dev s).errno = ENODATA then mountLoop w pa hu ns rest (checkNode w dev s)
        else (-1, setState w State_Idle { checkNode w dev s with errno := EIO })
      else if (tryDrivers w pa hu (devicePathOf (MAJOR dev) (MINOR dev))
          (chooseMountPoint w dev { checkNode w dev s with errno := 0 }).2.1
          (chooseMountPoint w dev { checkNode w dev s with errno := 0 }).2.2).1 = false then
        mountLoop w pa hu ns rest (afterFailedNode w pa hu dev s)
      else
        let m := chooseMountPoint w dev { checkNode w dev s with errno := 0 }
        let t := tryDrivers w pa hu (devicePathOf (MAJOR dev) (MINOR dev)) m.2.1 m.2.2
        let r := finishNode w pa dev m.1 m.2.1 t.2
        if r.1 ≠ 0 then r
        else if isUsbDisk w r.2.vol.mLabel then mountLoop w pa hu ns rest r.2
        else (0, r.2) := by
  rw [mountLoop]
  rfl

theorem LoopResult.of_seg {w : World} {L : String} {A : List (State × State)} {s r q : Sys}
    {st : State} (h1 : Seg A s r st) (h2 : LoopResult w L A r q) : LoopResult w L A s q :=
  ⟨h1.1.append h2.1, h2.2.1, fun hu => by rw [← h1.2.2.2]; exact h2.2.2 hu⟩

theorem LoopResult.last {w : World} {L : String} {A : List (State × State)} {s r : Sys}
    {st : State} (h1 : Seg A s r st) (hL : s.vol.mLabel = L) : LoopResult w L A s r :=
  ⟨h1.1, h1.2.2.1.trans hL, fun _ => Or.inl h1.2.2.2⟩

theorem preDrivers_seg (A : List (State × State)) (w : World) (pa : Bool) (hu : String)
    (dev : dev_t) (s : Sys)
    (h : s.vol.mState = State_Checking ∨ (s.vol.mState, State_Checking) ∈ A) :
    Seg A s (tryDrivers w pa hu (devicePathOf (MAJOR dev) (MINOR dev))
      (chooseMountPoint w dev { checkNode w dev s with errno := 0 }).2.1
      (chooseMountPoint w dev { checkNode w dev s with errno := 0 }).2.2).2 State_Checking := by
  have h1 := checkNode_seg A w dev s h
  have h2 : Seg A (checkNode w dev s) { checkNode w dev s with errno := 0 } State_Checking :=
    ⟨Moves.of_same rfl, h1.2.1, rfl, rfl⟩
  have h3 := chooseMountPoint_seg A w dev { checkNode w dev s with errno := 0 } h1.2.1
  have h4 := tryDrivers_seg A w pa hu (devicePathOf (MAJOR dev) (MINOR dev))
    (chooseMountPoint w dev { checkNode w dev s with errno := 0 }).2.1
    (chooseMountPoint w dev { checkNode w dev s with errno := 0 }).2.2
  rw [h3.2.1] at h4
  exact ((h1.trans h2).trans h3).trans h4

theorem mountLoop_result (w : World) (pa : Bool) (hu : String) (ns : Bool) (L : String)
    (A : List (State × State))
    (a1 : (State_Idle, State_Checking) ∈ A) (a2 : (State_Checking, State_Idle) ∈ A)
    (a3 : (State_Checking, State_Mounted) ∈ A) (a4 : (State_Idle, State_Mounted) ∈ A)
    (a5 : isUsbDisk w L = true → (State_Mounted, State_Checking) ∈ A) :
    ∀ (nodes : List dev_t) (s : Sys), LoopTop w L s →
      LoopResult w L A s (mountLoop w pa hu ns nodes s).2 := by
  intro nodes
  induction nodes with
  | nil =>
    intro s ⟨hL, hs⟩
    unfold mountLoop mountLoopEnd
    split
    · refine LoopResult.last (Seg.setState w State_Mounted s ?_) hL
      rcases hs with h | h | h
      · exact Or.inr (by rw [h]; exact a4)
      · exact Or.inr (by rw [h]; exact a3)
      · exact Or.inl h.1
    · rename_i hu'
      refine LoopResult.last (Seg.setState w State_Idle s ?_) hL
      rcases hs with h | h | h
      · exact Or.inl h
      · exact Or.inr (by rw [h]; exact a2)
      · rw [hL, h.2] at hu'
        exact absurd rfl hu'
  | cons dev rest ih =>
    intro s ⟨hL, hs⟩
    have hck : s.vol.mState = State_Checking ∨ (s.vol.mState, State_Checking) ∈ A := by
      rcases hs with h | h | h
      · exact Or.inr (by rw [h]; exact a1)
      · exact Or.inl h
      · exact Or.inr (by rw [h.1]; exact a5 h.2)
    have h1 := checkNode_seg A w dev s hck
    have hd := preDrivers_seg A w pa hu dev s hck
    rw [mountLoop_cons]
    split
    · split
      · exact LoopResult.of_seg h1 (ih _ ⟨h1.2.2.1.trans hL, Or.inr (Or.inl h1.2.1)⟩)
      · have h2 : Seg A (checkNode w dev s) { checkNode w dev s with errno := EIO }
            State_Checking := ⟨Moves.of_same rfl, h1.2.1, rfl, rfl⟩
        exact LoopResult.last ((h1.trans h2).trans
          (Seg.setState w State_Idle _ (Or.inr (by rw [h2.2.1]; exact a2)))) hL
    · split
      · have hc := mountFailedCleanup_seg A w
          (chooseMountPoint w dev { checkNode w dev s with errno := 0 }).2.1
          (chooseMountPoint w dev { checkNode w dev s with errno := 0 }).1 _ hd.2.1 a2
        have hf := hd.trans hc
        refine @LoopResult.of_seg w L A s (afterFailedNode w pa hu dev s) _ _ hf (ih _ ⟨?_, ?_⟩)
        · exact hf.2.2.1.trans hL
        · have := hf.2.1
          by_cases hu' : isUsbDisk w (tryDrivers w pa hu (devicePathOf (MAJOR dev) (MINOR dev))
              (chooseMountPoint w dev { checkNode w dev s with errno := 0 }).2.1
              (chooseMountPoint w dev { checkNode w dev s with errno := 0 }).2.2).2.vol.mLabel
              = true
          · rw [if_pos hu'] at this
            exact Or.inl this
          · rw [if_neg hu'] at this
            exact Or.inr (Or.inl this)
      · simp only []
        obtain ⟨f1, f2⟩ := finishNode_seg A w pa dev
          (chooseMountPoint w dev { checkNode w dev s with errno := 0 }).1
          (chooseMountPoint w dev { checkNode w dev s with errno := 0 }).2.1 _ hd.2.1 a2 a3
        split
        · rename_i hr
          exact LoopResult.last (hd.trans (f1 hr)) hL
        · rename_i hr
          have hr0 := not_not.mp hr
          obtain ⟨g1, g2, g3, g4⟩ := f2 hr0
          split
          · rename_i hu'
            have hL1 : isUsbDisk w L = true := by
              rw [← hL, ← hd.2.2.1, ← g3]; exact hu'
            have := ih _ ⟨g3.trans (hd.2.2.1.trans hL), Or.inr (Or.inr ⟨g2, hL1⟩)⟩
            exact ⟨(hd.1.append g1).append this.1, this.2.1,
              fun hx => by rw [hL1] at hx; exact absurd hx (by decide)⟩
          · exact ⟨hd.1.append g1, g3.trans (hd.2.2.1.trans hL), fun _ => Or.inr g2⟩

theorem mountVolNodes_result (w : World) (pa : Bool) (hu : String) (ns : Bool) (L : String)
    (A : List (State × State))
    (a1 : (State_Idle, State_Checking) ∈ A) (a2 : (State_Checking, State_Idle) ∈ A)
    (a3 : (State_Checking, State_Mounted) ∈ A) (a4 : (State_Idle, State_Mounted) ∈ A)
    (a5 : isUsbDisk w L = true → (State_Mounted, State_Checking) ∈ A)
    (s : Sys) (hL : s.vol.mLabel = L) (hI : s.vol.mState = State_Idle) :
    LoopResult w L A s (mountVolNodes w pa hu ns s).2 := by
  have loop : ∀ nodes (s' : Sys), Seg A s s' State_Idle →
      LoopResult w L A s (mountLoop w pa hu ns nodes s').2 := fun nodes s' h =>
    LoopResult.of_seg h (mountLoop_result w pa hu ns L A a1 a2 a3 a4 a5 nodes s'
      ⟨h.2.2.1.trans hL, Or.inl h.2.1⟩)
  have stop : ∀ (s' : Sys), Seg A s s' State_Idle → LoopResult w L A s s' := fun s' h =>
    LoopResult.last h hL
  have seg : ∀ (s' : Sys),
      s'.trace.filterMap Event.stateChange = s.trace.filterMap Event.stateChange →
      s'.vol = s.vol → Seg A s s' State_Idle := fun s' h1 h2 =>
    ⟨Moves.of_same h1, by rw [h2]; exact hI, by rw [h2], by rw [h2]⟩
  unfold mountVolNodes
  simp only [getDeviceNodes, property_get]
  repeat' split
  all_goals first
    | exact loop _ _ (seg _ (by simp) (by simp))
    | exact stop _ (seg _ (by simp) (by simp))

@[simp] theorem udiskNotMounted_vol (w : World) :
    ∀ (nodes : List dev_t) (s : Sys), (udiskNotMounted w nodes s).2.vol = s.vol := by
  intro nodes
  induction nodes with
  | nil => intro s; rfl
  | cons x rest ih =>
    intro s
    unfold udiskNotMounted
    simp only []
    split
    · simp
    · rw [ih]; simp

@[simp] theorem filterMap_udiskNotMounted {α : Type} (f : Event → Option α) [Quiet f]
    (w : World) : ∀ (nodes : List dev_t) (s : Sys),
      (udiskNotMounted w nodes s).2.trace.filterMap f = s.trace.filterMap f := by
  intro nodes
  induction nodes with
  | nil => intro s; rfl
  | cons x rest ih =>
    intro s
    unfold udiskNotMounted
    simp only []
    split
    · simp
    · rw [ih]; simp

theorem mountVol_result (w : World) (L : String) (A : List (State × State))
    (a1 : (State_Idle, State_Checking) ∈ A) (a2 : (State_Checking, State_Idle) ∈ A)
    (a3 : (State_Checking, State_Mounted) ∈ A) (a4 : (State_Idle, State_Mounted) ∈ A)
    (a5 : isUsbDisk w L = true → (State_Mounted, State_Checking) ∈ A)
    (s : Sys) (hL : s.vol.mLabel = L) :
    LoopResult w L A s (mountVol w s).2 ∧
    (s.vol.mState ≠ State_Idle →
      (mountVol w s).2.vol.mState = s.vol.mState ∧
      (mountVol w s).2.vol.mCurrentlyMountedKdev = s.vol.mCurrentlyMountedKdev) := by
  have seg : ∀ (s' : Sys),
      s'.trace.filterMap Event.stateChange = s.trace.filterMap Event.stateChange →
      s'.vol.mState = s.vol.mState → s'.vol.mLabel = s.vol.mLabel →
      s'.vol.mCurrentlyMountedKdev = s.vol.mCurrentlyMountedKdev → Seg A s s' s.vol.mState :=
    fun s' h1 h2 h3 h4 => ⟨Moves.of_same h1, h2, h3, h4⟩
  by_cases hI : s.vol.mState = State_Idle
  · refine ⟨?_, fun h => absurd hI h⟩
    have nodes : ∀ pa hu ns (s' : Sys), Seg A s s' s.vol.mState →
        LoopResult w L A s (mountVolNodes w pa hu ns s').2 := fun pa hu ns s' h =>
      LoopResult.of_seg h (mountVolNodes_result w pa hu ns L A a1 a2 a3 a4 a5 s'
        (h.2.2.1.trans hL) (h.2.1.trans hI))
    have mounted : ∀ (s' : Sys), Seg A s s' s.vol.mState →
        LoopResult w L A s (setState w State_Mounted s') := fun s' h =>
      LoopResult.last (h.trans (Seg.setState w State_Mounted s'
        (Or.inr (by rw [h.2.1, hI]; exact a4)))) hL
    have stop : ∀ (s' : Sys), Seg A s s' s.vol.mState → LoopResult w L A s s' :=
      fun s' h => LoopResult.last h hL
    unfold mountVol
    simp only [property_get, getDeviceNodes]
    repeat' split
    all_goals first
      | exact nodes _ _ _ _ (seg _ (by simp) (by simp) (by simp) (by simp))
      | exact mounted _ (seg _ (by simp) (by simp) (by simp) (by simp))
      | exact stop _ (seg _ (by simp) (by simp) (by simp) (by simp))
  · have hv : LoopResult w L A s (mountVol w s).2 ∧
        (mountVol w s).2.vol.mState = s.vol.mState ∧
        (mountVol w s).2.vol.mCurrentlyMountedKdev = s.vol.mCurrentlyMountedKdev := by
      unfold mountVol
      simp only [property_get, getDeviceNodes, emit_vol, hI, ne_eq, not_false_eq_true, if_true]
      repeat' split
      all_goals
        exact ⟨LoopResult.last (seg _ (by simp) (by simp) (by simp) (by simp)) hL,
          by simp, by simp⟩
    exact ⟨hv.1, fun _ => hv.2⟩

theorem unmountStages_stateChanges (w : World) (force : Bool) (s : Sys) :
    (unmountSecure w force s).2.trace.filterMap Event.stateChange =
      (setState w State_Unmounting s).trace.filterMap Event.stateChange ∧
    (unmountBacking w force s).2.trace.filterMap Event.stateChange =
      (setState w State_Unmounting s).trace.filterMap Event.stateChange ∧
    (restoreSecure w force s).2.trace.filterMap Event.stateChange =
      (setState w State_Unmounting s).trace.filterMap Event.stateChange := by
  have hd : ∀ (p : String) (x : Sys), (doUnmount w p force x).2.trace.filterMap Event.stateChange =
      x.trace.filterMap Event.stateChange :=
    fun p x => filterMap_doUnmount Event.stateChange (fun _ => rfl) (fun _ _ => rfl)
      (fun _ => rfl) w p force x
  have h1 : (unmountSecure w force s).2.trace.filterMap Event.stateChange =
      (setState w State_Unmounting s).trace.filterMap Event.stateChange := by
    unfold unmountSecure
    split <;> simp [hd, unmountStart]
  have h2 : (unmountBacking w force s).2.trace.filterMap Event.stateChange =
      (setState w State_Unmounting s).trace.filterMap Event.stateChange := by
    unfold unmountBacking unmountBridge
    simp only [hd]
    split <;> simp [h1]
  refine ⟨h1, h2, ?_⟩
  unfold restoreSecure
  split
  · simp [h2]
  · exact h2

theorem unmountTail_seg (A : List (State × State)) (w : World) (s0 s1 : Sys) (rv d : Bool)
    (h : Seg A s0 s1 State_Unmounting) (a4 : (State_Unmounting, State_Idle) ∈ A) :
    Seg A s0 (setState w State_Idle (setUserLabel w none (setUuid w none
      (if rv ∧ d then
        ((if rv then s1.emit .isDecrypted else s1).emit (.cryptfs_revert_volume
          (if rv then s1.emit .isDecrypted else s1).vol.mLabel)).emit .revertDeviceInfo
      else (if rv then s1.emit .isDecrypted else s1))))) State_Idle := by
  have e : Seg A s1 (setUserLabel w none (setUuid w none
      (if rv ∧ d then
        ((if rv then s1.emit .isDecrypted else s1).emit (.cryptfs_revert_volume
          (if rv then s1.emit .isDecrypted else s1).vol.mLabel)).emit .revertDeviceInfo
      else (if rv then s1.emit .isDecrypted else s1)))) State_Unmounting := by
    rw [← h.2.1]
    cases rv <;> cases d <;>
      exact Seg.of_eq (by simp [setUuid, setUserLabel]) (by simp [setUuid, setUserLabel])
        (by simp [setUuid, setUserLabel]) (by simp [setUuid, setUserLabel])
  exact (h.trans e).trans (Seg.setState w State_Idle _ (Or.inr (by rw [e.2.1]; exact a4)))

theorem unmountVol_result (w : World) (force revert : Bool) (A : List (State × State))
    (a1 : (State_Mounted, State_Unmounting) ∈ A) (a2 : (State_Unmounting, State_Mounted) ∈ A)
    (a3 : (State_Unmounting, State_NoMedia) ∈ A) (a4 : (State_Unmounting, State_Idle) ∈ A)
    (s : Sys) :
    Moves A s (unmountVol w force revert s).2 ∧
    (unmountVol w force revert s).2.vol.mLabel = s.vol.mLabel ∧
    (s.vol.mState ≠ State_Mounted →
      (unmountVol w force revert s).2.vol.mState = s.vol.mState ∧
      (unmountVol w force revert s).2.vol.mCurrentlyMountedKdev = s.vol.mCurrentlyMountedKdev) ∧
    (s.vol.mState = State_Mounted →
      (unmountVol w force revert s).2.vol.mState = State_Mounted ∨
      (unmountVol w force revert s).2.vol.mState = State_NoMedia ∨
      (unmountVol w force revert s).2.vol.mCurrentlyMountedKdev = -1) := by
  by_cases hm : s.vol.mState = State_Mounted
  · obtain ⟨h1, h2, h3⟩ := unmountStages_stateChanges w force s
    have st : Seg A s (setState w State_Unmounting s) State_Unmounting :=
      Seg.setState w State_Unmounting s (Or.inr (by rw [hm]; exact a1))
    have seg : ∀ (s' : Sys),
        s'.trace.filterMap Event.stateChange =
          (setState w State_Unmounting s).trace.filterMap Event.stateChange →
        s'.vol = (setState w State_Unmounting s).vol → Seg A s s' State_Unmounting :=
      fun s' e1 e2 => st.trans ⟨Moves.of_same e1, by rw [e2]; exact st.2.1, by rw [e2], by rw [e2]⟩
    have fin : ∀ (s' : Sys) (st' : State), Seg A s s' State_Unmounting →
        (State_Unmounting, st') ∈ A → Seg A s (setState w st' s') st' := fun s' st' h ha =>
      h.trans (Seg.setState w st' s' (Or.inr (by rw [h.2.1]; exact ha)))
    have tail := unmountTail_seg A w s (unmountBacking w force s).2
      (if s.vol.mPartIdx = -1 then false else revert)
      (if (if s.vol.mPartIdx = -1 then false else revert) = true then
        w.isDecrypted (unmountBacking w force s).2.trace else false)
      (seg _ h2 (by simp)) a4
    have all : Seg A s (unmountVol w force revert s).2 (unmountVol w force revert s).2.vol.mState ∧
        ((unmountVol w force revert s).2.vol.mState = State_Mounted ∨
          (unmountVol w force revert s).2.vol.mState = State_NoMedia) ∨
        (Moves A s (unmountVol w force revert s).2 ∧
          (unmountVol w force revert s).2.vol.mLabel = s.vol.mLabel ∧
          (unmountVol w force revert s).2.vol.mCurrentlyMountedKdev = -1) := by
      rw [unmountVol_stages w force revert s hm]
      by_cases c1 : (unmountSecure w force s).1 ≠ 0
      · rw [if_pos c1]
        have := fin _ _ (seg _ h1 (by simp)) a2
        exact Or.inl ⟨by rw [this.2.1]; exact this, Or.inl this.2.1⟩
      · rw [if_neg c1]
        by_cases c2 : (unmountBacking w force s).1 ≠ 0
        · rw [if_pos c2]
          by_cases c3 : (restoreSecure w force s).1 ≠ 0
          · rw [if_pos c3]
            have := fin _ _ (seg _ h3 (by simp)) a3
            exact Or.inl ⟨by rw [this.2.1]; exact this, Or.inr this.2.1⟩
          · rw [if_neg c3]
            have := fin _ _ (seg _ h3 (by simp)) a2
            exact Or.inl ⟨by rw [this.2.1]; exact this, Or.inl this.2.1⟩
        · rw [if_neg c2]
          exact Or.inr ⟨tail.1, tail.2.2.1, rfl⟩
    rcases all with ⟨g, gs⟩ | ⟨g1, g2, g3⟩
    · exact ⟨g.1, g.2.2.1, fun h => absurd hm h,
        fun _ => gs.elim Or.inl (fun h => Or.inr (Or.inl h))⟩
    · exact ⟨g1, g2, fun h => absurd hm h, fun _ => Or.inr (Or.inr g3)⟩
  · refine ⟨?_, ?_, fun _ => ?_, fun h => absurd h hm⟩
    · exact Moves.of_same (by simp [unmountVol, hm])
    · simp [unmountVol, hm]
    · simp [unmountVol, hm]

theorem formatVol_result (w : World) (wipe : Bool) (A : List (State × State))
    (a1 : (State_Idle, State_Mounted) ∈ A) (a2 : (State_Idle, State_Formatting) ∈ A)
    (a3 : (State_Formatting, State_Idle) ∈ A) (s : Sys) :
    Moves A s (formatVol w wipe s).2 ∧
    (formatVol w wipe s).2.vol.mLabel = s.vol.mLabel ∧
    (formatVol w wipe s).2.vol.mCurrentlyMountedKdev = s.vol.mCurrentlyMountedKdev ∧
    (s.vol.mState ≠ State_Idle → (formatVol w wipe s).2.vol.mState = s.vol.mState) := by
  by_cases hI : s.vol.mState = State_Idle
  · have hN : s.vol.mState ≠ State_NoMedia := by rw [hI]; decide
    have seg : ∀ (s0 s' : Sys) (st : State), Seg A s s0 st →
        s'.trace.filterMap Event.stateChange = s0.trace.filterMap Event.stateChange →
        s'.vol = s0.vol → Seg A s s' st := fun s0 s' st h e1 e2 =>
      h.trans ⟨Moves.of_same e1, by rw [e2]; exact h.2.1, by rw [e2], by rw [e2]⟩
    have s0 : Seg A s s State_Idle := ⟨Moves.refl A s, hI, rfl, rfl⟩
    have q : Seg A s (isMountpointMounted w w.getMountpoint s).2 State_Idle :=
      seg s _ _ s0 (by simp) (by simp)
    have fmt : Seg A s (setState w State_Formatting (isMountpointMounted w w.getMountpoint s).2)
        State_Formatting :=
      q.trans (Seg.setState w State_Formatting _ (Or.inr (by rw [q.2.1]; exact a2)))
    have fin : ∀ (s' : Sys), Seg A s s' State_Formatting →
        Seg A s (setState w State_Idle s') State_Idle := fun s' h =>
      h.trans (Seg.setState w State_Idle s' (Or.inr (by rw [h.2.1]; exact a3)))
    have all : ∃ st, Seg A s (formatVol w wipe s).2 st := by
      have hN' : ¬ State_Idle = State_NoMedia := by decide
      have hl : (setState w State_Formatting (isMountpointMounted w w.getMountpoint s).2).vol.mLabel
          = s.vol.mLabel := by simp
      have hpi : (isMountpointMounted w w.getMountpoint s).2.vol.mPartIdx = s.vol.mPartIdx := by
        simp
      by_cases hi : s.vol.mLabel = "internal_sd" <;> by_cases hp : s.vol.mPartIdx = -1
      all_goals
        unfold formatVol
        simp only [hI, hN, hN', if_false, ne_eq, not_true_eq_false, property_get, initializeMbr,
          hl, hpi, hi, hp, decide_True, decide_False, if_true, Bool.false_eq_true]
        repeat' split
        all_goals first
          | exact ⟨_, fin _ (seg _ _ _ fmt (by simp) (by simp))⟩
          | exact ⟨_, seg _ _ _ (q.trans (Seg.setState w State_Mounted _
              (Or.inr (by rw [q.2.1]; exact a1)))) (by simp) (by simp)⟩
    obtain ⟨st, h⟩ := all
    exact ⟨h.1, h.2.2.1, h.2.2.2, fun hx => absurd hI hx⟩
  · refine ⟨Moves.of_same ?_, ?_, ?_, fun _ => ?_⟩
    all_goals
      unfold formatVol
      simp only [hI, ne_eq, not_false_eq_true, if_true]
      split <;> rfl

/-- C12, as amended: every state change that `mountVol`, `unmountVol` or
`formatVol` broadcasts is an edge of the graph (Idle to Pending, Checking,
Formatting or Shared; Pending to Idle or Checking; Checking to Mounted or Idle;
Mounted to Unmounting; Unmounting to Idle or Mounted; Formatting to Idle), or
Idle to Mounted, or Unmounting to NoMedia, or, for the multi-partition USB
disk, Mounted to Checking. -/
theorem committed_state_changes (w : World) (s : Sys) (force revert wipe : Bool) :
    Moves (graphEdges ++ shortcutEdges w s.vol.mLabel) s (mountVol w s).2 ∧
    Moves (graphEdges ++ shortcutEdges w s.vol.mLabel) s (unmountVol w force revert s).2 ∧
    Moves (graphEdges ++ shortcutEdges w s.vol.mLabel) s (formatVol w wipe s).2 :=
  ⟨(mountVol_result w s.vol.mLabel _ (by simp [graphEdges]) (by simp [graphEdges])
      (by simp [graphEdges]) (by simp [shortcutEdges])
      (fun h => by simp [shortcutEdges, h]) s rfl).1.1,
    (unmountVol_result w force revert _ (by simp [graphEdges]) (by simp [graphEdges])
      (by simp [shortcutEdges]) (by simp [graphEdges]) s).1,
    (formatVol_result w wipe _ (by simp [shortcutEdges]) (by simp [graphEdges])
      (by simp [graphEdges]) s).1⟩

set_option maxRecDepth 100000 in
theorem unmountVol_stuck_stateChanges :
    stateChanges (unmountVol stuckWorld false false (asecSys State_Mounted)).2.trace =
      [(State_Mounted, State_Unmounting), (State_Unmounting, State_NoMedia)] := by
  decide

/-- C12, as stated, fails: `mountVol` on an idle volume whose mount path is
already mounted broadcasts the change Idle to Mounted, and `unmountVol` on a
mounted volume whose mount path stays busy and whose secure directory cannot
be bound again broadcasts the change Unmounting to NoMedia; neither is an edge
of the graph. -/
theorem state_changes_outside_graph :
    stateChanges (mountVol alreadyMountedWorld sdcardSys).2.trace =
      [(State_Idle, State_Mounted)] ∧
    stateChanges (unmountVol stuckWorld false false (asecSys State_Mounted)).2.trace =
      [(State_Mounted, State_Unmounting), (State_Unmounting, State_NoMedia)] ∧
    (State_Idle, State_Mounted) ∉ graphEdges ∧
    (State_Unmounting, State_NoMedia) ∉ graphEdges :=
  ⟨by decide, unmountVol_stuck_stateChanges, by decide, by decide⟩

/-! ### The recorded device over sequences of calls -/

/-- For a volume that is not the multi-partition USB disk, the three calls keep
the property that a recorded device other than -1 is found only in the states
Mounted and NoMedia. -/
theorem Op.run_device_only_mounted_or_nomedia (w : World) (o : Op) (s : Sys)
    (husb : isUsbDisk w s.vol.mLabel = false)
    (hinv : s.vol.mCurrentlyMountedKdev ≠ -1 →
      s.vol.mState = State_Mounted ∨ s.vol.mState = State_NoMedia) :
    (o.run w s).vol.mLabel = s.vol.mLabel ∧
    ((o.run w s).vol.mCurrentlyMountedKdev ≠ -1 →
      (o.run w s).vol.mState = State_Mounted ∨ (o.run w s).vol.mState = State_NoMedia) := by
  cases o with
  | mount =>
    obtain ⟨⟨-, e1, e2⟩, e3⟩ := mountVol_result w s.vol.mLabel
      (graphEdges ++ shortcutEdges w s.vol.mLabel)
      (by simp [graphEdges]) (by simp [graphEdges]) (by simp [graphEdges])
      (by simp [shortcutEdges]) (fun h => by simp [shortcutEdges, h]) s rfl
    refine ⟨e1, fun hk => ?_⟩
    by_cases hI : s.vol.mState = State_Idle
    · rcases e2 husb with h | h
      · have : s.vol.mCurrentlyMountedKdev = -1 := by
          by_contra hne
          rcases hinv hne with h' | h' <;> rw [hI] at h' <;> exact absurd h' (by decide)
        exact absurd (h.trans this) hk
      · exact Or.inl h
    · obtain ⟨f1, f2⟩ := e3 hI
      show (mountVol w s).2.vol.mState = _ ∨ (mountVol w s).2.vol.mState = _
      rw [f1]
      exact hinv (by rw [← f2]; exact hk)
  | unmount force revert =>
    obtain ⟨-, e1, e2, e3⟩ := unmountVol_result w force revert
      (graphEdges ++ shortcutEdges w s.vol.mLabel) (by simp [graphEdges]) (by simp [graphEdges])
      (by simp [shortcutEdges]) (by simp [graphEdges]) s
    refine ⟨e1, fun hk => ?_⟩
    by_cases hM : s.vol.mState = State_Mounted
    · rcases e3 hM with h | h | h
      · exact Or.inl h
      · exact Or.inr h
      · exact absurd h hk
    · obtain ⟨f1, f2⟩ := e2 hM
      show (unmountVol w force revert s).2.vol.mState = _ ∨
        (unmountVol w force revert s).2.vol.mState = _
      rw [f1]
      exact hinv (by rw [← f2]; exact hk)
  | format wipe =>
    obtain ⟨-, e1, e2, e3⟩ := formatVol_result w wipe (graphEdges ++ shortcutEdges w s.vol.mLabel)
      (by simp [shortcutEdges]) (by simp [graphEdges]) (by simp [graphEdges]) s
    refine ⟨e1, fun hk => ?_⟩
    have hk' : s.vol.mCurrentlyMountedKdev ≠ -1 := by rw [← e2]; exact hk
    have hI : s.vol.mState ≠ State_Idle := by
      intro hI
      rcases hinv hk' with h' | h' <;> rw [hI] at h' <;> exact absurd h' (by decide)
    show (formatVol w wipe s).2.vol.mState = _ ∨ (formatVol w wipe s).2.vol.mState = _
    rw [e3 hI]
    exact hinv hk'

/-- The same over any sequence of calls. -/
theorem runOps_device_only_mounted_or_nomedia (w : World) :
    ∀ (ops : List Op) (s : Sys), isUsbDisk w s.vol.mLabel = false →
      (s.vol.mCurrentlyMountedKdev ≠ -1 →
        s.vol.mState = State_Mounted ∨ s.vol.mState = State_NoMedia) →
      ((runOps w ops s).vol.mCurrentlyMountedKdev ≠ -1 →
        (runOps w ops s).vol.mState = State_Mounted ∨
        (runOps w ops s).vol.mState = State_NoMedia) := by
  intro ops
  induction ops with
  | nil => intro s _ h; exact h
  | cons o ops ih =>
    intro s husb hinv
    obtain ⟨e1, e2⟩ := Op.run_device_only_mounted_or_nomedia w o s husb hinv
    exact ih (o.run w s) (by rw [e1]; exact husb) e2

/-! ### The cache file of the metadata probe -/

theorem mountVolNodes_entry (w : World) (pa : Bool) (hu : String) (ns : Bool) (s : Sys)
    (nodes : List dev_t) (s0 : Sys) (h : nodesEntry w pa s = some (nodes, s0)) :
    mountVolNodes w pa hu ns s = mountLoop w pa hu ns nodes s0 := by
  unfold nodesEntry at h
  unfold mountVolNodes
  simp only [getDeviceNodes, property_get] at h ⊢
  repeat' (split at h)
  all_goals first
    | exact Option.noConfusion h
    | (simp only [Option.some.injEq, Prod.mk.injEq] at h
       obtain ⟨h1, h2⟩ := h
       subst h1 h2
       simp only [*, if_true, if_false, not_true_eq_false, not_false_eq_true, and_self, and_true,
         true_and, and_false, false_and, ne_eq, Bool.true_eq_false, Bool.false_eq_true,
         Bool.not_eq_false])

theorem mountVol_entry (w : World) (s : Sys) (nodes : List dev_t) (s0 : Sys)
    (h : loopEntry w s = some (nodes, s0)) :
    mountVol w s = mountLoop w (decide (s.vol.mFlags &&& VOL_PROVIDES_ASEC ≠ 0))
      (readHasUms w s) (readSupNtfs w s) nodes s0 := by
  unfold loopEntry at h
  unfold mountVol
  simp only [property_get, getDeviceNodes] at h ⊢
  repeat' (split at h)
  all_goals first
    | exact Option.noConfusion h
    | (simp only [*, if_true, if_false, not_true_eq_false, not_false_eq_true, and_self, and_true,
         true_and, and_false, false_and, ne_eq, Bool.true_eq_false, Bool.false_eq_true,
         Bool.not_eq_false]
       rw [mountVolNodes_entry w _ _ _ _ nodes s0 h]
       simp [readHasUms, readSupNtfs])

theorem mountLoop_round (w : World) (pa : Bool) (hu : String) (ns : Bool) (dev : dev_t)
    (rest : List dev_t) (s s1 : Sys) (h : mountRound w pa hu ns dev s = some s1) :
    mountLoop w pa hu ns (dev :: rest) s = mountLoop w pa hu ns rest s1 := by
  rw [mountLoop]
  unfold mountRound at h
  simp only [] at h ⊢
  repeat' (split at h)
  all_goals first
    | exact Option.noConfusion h
    | (simp only [Option.some.injEq] at h
       subst h
       simp only [*, if_true, if_false, not_true_eq_false, not_false_eq_true, and_self, and_true,
         true_and, and_false, false_and, ne_eq, Bool.true_eq_false, Bool.false_eq_true,
         Bool.not_eq_false])

theorem mountLoop_rounds (w : World) (pa : Bool) (hu : String) (ns : Bool)
    (rest : List dev_t) :
    ∀ (pre : List dev_t) (s s1 : Sys), mountRounds w pa hu ns pre s = some s1 →
      mountLoop w pa hu ns (pre ++ rest) s = mountLoop w pa hu ns rest s1 := by
  intro pre
  induction pre with
  | nil =>
    intro s s1 h
    simp only [mountRounds, Option.some.injEq] at h
    subst h
    rfl
  | cons x pre ih =>
    intro s s1 h
    simp only [mountRounds] at h
    cases hr : mountRound w pa hu ns x s with
    | none => rw [hr] at h; exact absurd h (by simp)
    | some s2 =>
      rw [hr] at h
      rw [List.cons_append, mountLoop_round w pa hu ns x (pre ++ rest) s s2 hr]
      exact ih s2 s1 h

theorem mountRounds_append (w : World) (pa : Bool) (hu : String) (ns : Bool)
    (rest : List dev_t) :
    ∀ (pre : List dev_t) (s s1 : Sys), mountRounds w pa hu ns pre s = some s1 →
      mountRounds w pa hu ns (pre ++ rest) s = mountRounds w pa hu ns rest s1 := by
  intro pre
  induction pre with
  | nil =>
    intro s s1 h
    simp only [mountRounds, Option.some.injEq] at h
    subst h
    rfl
  | cons x pre ih =>
    intro s s1 h
    simp only [mountRounds] at h
    cases hr : mountRound w pa hu ns x s with
    | none => rw [hr] at h; exact Option.noConfusion h
    | some s2 =>
      rw [hr] at h
      simp only [List.cons_append, mountRounds, hr]
      exact ih s2 s1 h

theorem mountRound_no_filesystem (w : World) (pa : Bool) (hu : String) (dev : dev_t) (s : Sys)
    (hc : w.fatCheck (setState w State_Checking { s with errno := 0 }).trace
      (devicePathOf (MAJOR dev) (MINOR dev)) = some ENODATA) :
    mountRound w pa hu false dev s = some (checkNode w dev s) := by
  simp [mountRound, checkNode, hc, Sys.seterr, Sys.emit]

/-- C15, as amended: `mountVol` has read `ro.factory.storage_suppntfs` as a
value other than "true" and its candidate loop reaches the node `x` (in the
state `s1`, after the rounds of the nodes before `x`).  When the filesystem
check of `x` fails with ENODATA, the round makes no driver call and the loop
goes on to the node after `x`; when it fails with another error, `mountVol`
makes no driver call on `x` or on a later node and returns -1 in state Idle,
and `errno` is EIO if `setState` leaves `errno` alone. -/
theorem mountVol_check_failure (w : World) (s : Sys) (nodes : List dev_t) (s0 : Sys)
    (pre : List dev_t) (x : dev_t) (post : List dev_t) (s1 : Sys) (e : Nat)
    (hentry : loopEntry w s = some (nodes, s0))
    (hsup : readSupNtfs w s = false)
    (hsplit : nodes = pre ++ x :: post)
    (hreach : mountRounds w (decide (s.vol.mFlags &&& VOL_PROVIDES_ASEC ≠ 0)) (readHasUms w s)
      false pre s0 = some s1)
    (hc : w.fatCheck (setState w State_Checking { s1 with errno := 0 }).trace
      (devicePathOf (MAJOR x) (MINOR x)) = some e) :
    (e = ENODATA →
      nodeCalls (checkNode w x s1).trace =
        nodeCalls s1.trace ++ [("Fat::check", devicePathOf (MAJOR x) (MINOR x))] ∧
      mountRounds w (decide (s.vol.mFlags &&& VOL_PROVIDES_ASEC ≠ 0)) (readHasUms w s)
        false (pre ++ [x]) s0 = some (checkNode w x s1) ∧
      mountVol w s = mountLoop w (decide (s.vol.mFlags &&& VOL_PROVIDES_ASEC ≠ 0))
        (readHasUms w s) false post (checkNode w x s1)) ∧
    (e ≠ ENODATA →
      (mountVol w s).1 = -1 ∧
      (mountVol w s).2.vol.mState = State_Idle ∧
      nodeCalls (mountVol w s).2.trace =
        nodeCalls s1.trace ++ [("Fat::check", devicePathOf (MAJOR x) (MINOR x))] ∧
      (RescanKeepsErrno w s1.vol → (mountVol w s).2.errno = EIO)) := by
  have hv : mountVol w s = mountLoop w (decide (s.vol.mFlags &&& VOL_PROVIDES_ASEC ≠ 0))
      (readHasUms w s) false (x :: post) s1 := by
    rw [mountVol_entry w s nodes s0 hentry, hsup, hsplit]
    exact mountLoop_rounds w _ _ _ (x :: post) pre s0 s1 hreach
  obtain ⟨c1, c2, c3⟩ := mountLoop_check_failure w
    (decide (s.vol.mFlags &&& VOL_PROVIDES_ASEC ≠ 0)) (readHasUms w s) x post s1 e hc
  refine ⟨fun he => ⟨c1, ?_, ?_⟩, fun he => ?_⟩
  · rw [mountRounds_append w _ _ _ [x] pre s0 s1 hreach]
    subst he
    simp only [mountRounds, mountRound_no_filesystem w _ _ x s1 hc]
  · rw [hv]
    exact c2 he
  · rw [hv]
    exact c3 he

/-- C15, witness: with `ro.factory.storage_suppntfs` set to "false", the check
finds no filesystem on 8:1, which is skipped, and fails with an I/O error on
8:2. -/
theorem mountVol_check_failure_witness :
    (mountVol mixedCheckWorld sdcardSys).1 = -1 ∧
    (mountVol mixedCheckWorld sdcardSys).2.vol.mState = State_Idle ∧
    nodeCalls (mountVol mixedCheckWorld sdcardSys).2.trace =
      [("Fat::check", "/dev/block/vold/8:1"), ("Fat::check", "/dev/block/vold/8:2")] ∧
    (mountVol mixedCheckWorld sdcardSys).2.errno = EIO :=
  have h := (mountVol_check_failure mixedCheckWorld sdcardSys [2049, 2050]
    ((loopEntry mixedCheckWorld sdcardSys).getD ([], sdcardSys)).2 [2049] 2050 []
    (checkNode mixedCheckWorld 2049 ((loopEntry mixedCheckWorld sdcardSys).getD ([], sdcardSys)).2)
    EIO (by decide) (by decide) rfl (by decide) (by decide)).2 (by decide)
  ⟨h.1, h.2.1, h.2.2.1.trans (by decide), h.2.2.2 (Or.inl (by decide))⟩

/-! ### The rollback after a failed bind, from any round of the loop -/

theorem failedRound_mountRound (w : World) (pa : Bool) (hu : String) (ns : Bool) (dev : dev_t)
    (s s1 : Sys) (h : failedRound w pa hu ns dev s = some s1) :
    mountRound w pa hu ns dev s = some s1 := by
  unfold failedRound at h
  unfold mountRound
  simp only [] at h ⊢
  split at h
  · rename_i hc
    rw [if_pos hc]
    split at h
    · rename_i he
      rw [if_pos he]
      exact h
    · exact Option.noConfusion h
  · rename_i hc
    rw [if_neg hc]
    split at h
    · rename_i ht
      rw [if_pos ht]
      exact h
    · exact Option.noConfusion h

theorem failedRounds_mountRounds (w : World) (pa : Bool) (hu : String) (ns : Bool) :
    ∀ (pre : List dev_t) (s s1 : Sys), failedRounds w pa hu ns pre s = some s1 →
      mountRounds w pa hu ns pre s = some s1 := by
  intro pre
  induction pre with
  | nil => intro s s1 h; exact h
  | cons x pre ih =>
    intro s s1 h
    simp only [failedRounds] at h
    cases hr : failedRound w pa hu ns x s with
    | none => rw [hr] at h; exact Option.noConfusion h
    | some s2 =>
      rw [hr] at h
      simp only [mountRounds, failedRound_mountRound w pa hu ns x s s2 hr]
      exact ih s2 s1 h

theorem failedRound_frame (w : World) (hu : String) (ns : Bool) (x : dev_t) (s s1 : Sys)
    (h : failedRound w true hu ns x s = some s1) :
    s1.vol.mCurrentlyMountedKdev = s.vol.mCurrentlyMountedKdev ∧
    s1.vol.mLabel = s.vol.mLabel ∧
    (hu ≠ "true" → s1.vol.mSkipAsec = s.vol.mSkipAsec) ∧
    s1.trace.filterMap Event.umountPath = s.trace.filterMap Event.umountPath ∧
    s1.trace.filterMap Event.propertySet = s.trace.filterMap Event.propertySet := by
  unfold failedRound at h
  simp only [] at h
  split at h
  · split at h
    · have e := Option.some.inj h
      subst e
      simp
    · exact Option.noConfusion h
  · split at h
    · have e := Option.some.inj h
      subst e
      exact afterFailedNode_frame w hu x s
    · exact Option.noConfusion h

theorem failedRounds_frame (w : World) (hu : String) (ns : Bool) :
    ∀ (pre : List dev_t) (s s1 : Sys), failedRounds w true hu ns pre s = some s1 →
      s1.vol.mCurrentlyMountedKdev = s.vol.mCurrentlyMountedKdev ∧
      s1.vol.mLabel = s.vol.mLabel ∧
      (hu ≠ "true" → s1.vol.mSkipAsec = s.vol.mSkipAsec) ∧
      s1.trace.filterMap Event.umountPath = s.trace.filterMap Event.umountPath ∧
      s1.trace.filterMap Event.propertySet = s.trace.filterMap Event.propertySet := by
  intro pre
  induction pre with
  | nil =>
    intro s s1 h
    have e := Option.some.inj h
    subst e
    exact ⟨rfl, rfl, fun _ => rfl, rfl, rfl⟩
  | cons x pre ih =>
    intro s s1 h
    simp only [failedRounds] at h
    cases hr : failedRound w true hu ns x s with
    | none => rw [hr] at h; exact Option.noConfusion h
    | some s2 =>
      rw [hr] at h
      obtain ⟨f1, f2, f3, f4, f5⟩ := failedRound_frame w hu ns x s s2 hr
      obtain ⟨g1, g2, g3, g4, g5⟩ := ih s2 s1 h
      exact ⟨g1.trans f1, g2.trans f2, fun hne => (g3 hne).trans (f3 hne), g4.trans f4,
        g5.trans f5⟩

theorem nodesEntry_frame {α : Type} (f : Event → Option α) [hf : Quiet f] (w : World)
    (pa : Bool) (s : Sys) (nodes : List dev_t) (s0 : Sys)
    (h : nodesEntry w pa s = some (nodes, s0)) :
    s0.vol = s.vol ∧ s0.trace.filterMap f = s.trace.filterMap f := by
  unfold nodesEntry at h
  simp only [getDeviceNodes, property_get] at h
  repeat' (split at h)
  all_goals first
    | exact Option.noConfusion h
    | (simp only [Option.some.injEq, Prod.mk.injEq] at h
       obtain ⟨-, e⟩ := h
       subst e
       simp [hf.getDeviceNodes, hf.property_get, hf.isDecrypted, hf.cryptfs_setup_volume,
         hf.updateDeviceInfo])

theorem loopEntry_frame {α : Type} (f : Event → Option α) [hf : Quiet f] (w : World)
    (s : Sys) (nodes : List dev_t) (s0 : Sys)
    (h : loopEntry w s = some (nodes, s0)) :
    s.vol.mState = State_Idle ∧ s0.vol = s.vol ∧ s0.trace.filterMap f = s.trace.filterMap f := by
  have hI : s.vol.mState = State_Idle := by
    by_contra hI
    unfold loopEntry at h
    simp only [property_get, emit_vol, hI, ne_eq, not_false_eq_true, if_true] at h
    split at h <;> exact Option.noConfusion h
  refine ⟨hI, ?_⟩
  unfold loopEntry at h
  simp only [getDeviceNodes, property_get] at h
  repeat' (split at h)
  all_goals first
    | exact Option.noConfusion h
    | (obtain ⟨e1, e2⟩ := nodesEntry_frame f w _ _ _ _ h
       refine ⟨?_, ?_⟩
       · rw [e1]; simp
       · rw [e2]; simp [hf.getDeviceNodes, hf.property_get])

theorem finishNode_asecEntry (w : World) (pa : Bool) (dev : dev_t) (l : Nat) (mp : String)
    (s : Sys) :
    finishNode w pa dev l mp s =
      (let b := asecEntry w dev l mp s
       let a := if pa = true ∧ b.vol.mSkipAsec = false then mountAsecExternal w b else (0, b)
       if a.1 ≠ 0 then
         (-1, setState w State_Idle ((a.2.emit (.umount mp)).seterr (w.umount a.2.trace mp)))
       else
         (0, { setState w State_Mounted
                (a.2.emit (.property_set "ctl.start" ("fuse_" ++ a.2.vol.mLabel))) with
               vol := { (setState w State_Mounted
                (a.2.emit (.property_set "ctl.start" ("fuse_" ++ a.2.vol.mLabel)))).vol with
                 mCurrentlyMountedKdev := dev } })) := rfl

theorem asecEntry_frame {α : Type} (f : Event → Option α) [Quiet f] (w : World) (dev : dev_t)
    (l : Nat) (mp : String) (s : Sys) :
    (asecEntry w dev l mp s).vol.mSkipAsec = s.vol.mSkipAsec ∧
    (asecEntry w dev l mp s).vol.mCurrentlyMountedKdev = s.vol.mCurrentlyMountedKdev ∧
    (asecEntry w dev l mp s).vol.mLabel = s.vol.mLabel ∧
    (asecEntry w dev l mp s).trace.filterMap f = s.trace.filterMap f := by
  unfold asecEntry
  simp only []
  split <;> simp

theorem finishNode_bind_fails (w : World) (dev : dev_t) (l : Nat) (mp : String) (s : Sys)
    (hs : s.vol.mSkipAsec = false)
    (hb : (mountAsecExternal w (asecEntry w dev l mp s)).1 ≠ 0) :
    (finishNode w true dev l mp s).1 = -1 ∧
    (finishNode w true dev l mp s).2.vol.mState = State_Idle ∧
    (finishNode w true dev l mp s).2.vol.mCurrentlyMountedKdev = s.vol.mCurrentlyMountedKdev ∧
    (finishNode w true dev l mp s).2.trace.filterMap Event.umountPath =
      s.trace.filterMap Event.umountPath ++ [mp] ∧
    (finishNode w true dev l mp s).2.trace.filterMap Event.propertySet =
      s.trace.filterMap Event.propertySet := by
  obtain ⟨b1, b2, -, b4⟩ := asecEntry_frame Event.umountPath w dev l mp s
  obtain ⟨-, -, -, b5⟩ := asecEntry_frame Event.propertySet w dev l mp s
  rw [finishNode_asecEntry]
  simp [b1, hs, hb, b2, b4, b5]

theorem driversEntry_frame (w : World) (dev : dev_t) (s : Sys) :
    (driversEntry w dev s).2.1 =
      (if isUsbDisk w s.vol.mLabel then
        w.getUdiskMountpoint (devicePathOf (MAJOR dev) (MINOR dev)) (MAJOR dev) (MINOR dev)
          (getNextLetter s.vol.mLetters).1
      else w.getMountpoint) ∧
    (driversEntry w dev s).2.2.vol.mSkipAsec = s.vol.mSkipAsec ∧
    (driversEntry w dev s).2.2.vol.mCurrentlyMountedKdev = s.vol.mCurrentlyMountedKdev ∧
    (driversEntry w dev s).2.2.trace.filterMap Event.umountPath =
      s.trace.filterMap Event.umountPath ∧
    (driversEntry w dev s).2.2.trace.filterMap Event.propertySet =
      s.trace.filterMap Event.propertySet := by
  unfold driversEntry chooseMountPoint checkNode
  simp only []
  by_cases husb : isUsbDisk w s.vol.mLabel = true
  · simp [husb]
  · simp [husb]

theorem tryDrivers_fat_mounts (w : World) (pa : Bool) (hu dp mp : String) (s : Sys)
    (hfat : w.fatDoMount s.trace dp mp (if hu = "true" then AID_SDCARD_RW else AID_MEDIA_RW)
      = none) :
    (tryDrivers w pa hu dp mp s).1 = true ∧
    (tryDrivers w pa hu dp mp s).2.vol.mSkipAsec =
      (if hu = "true" then false else s.vol.mSkipAsec) ∧
    (tryDrivers w pa hu dp mp s).2.vol.mCurrentlyMountedKdev = s.vol.mCurrentlyMountedKdev ∧
    (tryDrivers w pa hu dp mp s).2.trace.filterMap Event.umountPath =
      s.trace.filterMap Event.umountPath ∧
    (tryDrivers w pa hu dp mp s).2.trace.filterMap Event.propertySet =
      s.trace.filterMap Event.propertySet := by
  by_cases hums : hu = "true"
  · simp only [hums, if_true] at hfat
    simp [tryDrivers, hums, hfat]
  · simp only [hums, if_false] at hfat
    simp [tryDrivers, hums, hfat]

theorem mountLoop_bind_fails (w : World) (hu : String) (ns : Bool) (d : dev_t)
    (post : List dev_t) (s : Sys)
    (hd : ns = true ∨ w.fatCheck (setState w State_Checking { s with errno := 0 }).trace
      (devicePathOf (MAJOR d) (MINOR d)) = none)
    (hfat : w.fatDoMount (driversEntry w d s).2.2.trace (devicePathOf (MAJOR d) (MINOR d))
      (driversEntry w d s).2.1 (if hu = "true" then AID_SDCARD_RW else AID_MEDIA_RW) = none)
    (hbind : (mountAsecExternal w (bindEntry w true hu d s)).1 ≠ 0)
    (hskip : hu ≠ "true" → s.vol.mSkipAsec = false) :
    RolledBack w d s.vol.mCurrentlyMountedKdev s.vol.mLabel
      (s.trace.filterMap Event.umountPath) (s.trace.filterMap Event.propertySet)
      (mountLoop w true hu ns (d :: post) s) := by
  have hc1 : ¬ (w.fatCheck (setState w State_Checking { s with errno := 0 }).trace
      (devicePathOf (MAJOR d) (MINOR d)) ≠ none ∧ ns = false) := by
    rcases hd with h | h
    · simp [h]
    · simp [h]
  obtain ⟨e1, e2, e3, e4, e5⟩ := driversEntry_frame w d s
  obtain ⟨t1, t2, t3, t4, t5⟩ := tryDrivers_fat_mounts w true hu _ _ _ hfat
  have hs : (tryDrivers w true hu (devicePathOf (MAJOR d) (MINOR d)) (driversEntry w d s).2.1
      (driversEntry w d s).2.2).2.vol.mSkipAsec = false := by
    rw [t2]
    by_cases hums : hu = "true"
    · simp [hums]
    · simp [hums, e2, hskip hums]
  obtain ⟨f1, f2, f3, f4, f5⟩ := finishNode_bind_fails w d (driversEntry w d s).1
    (driversEntry w d s).2.1 (tryDrivers w true hu (devicePathOf (MAJOR d) (MINOR d))
      (driversEntry w d s).2.1 (driversEntry w d s).2.2).2 hs hbind
  have hE : chooseMountPoint w d { checkNode w d s with errno := 0 } = driversEntry w d s := rfl
  have hr : mountLoop w true hu ns (d :: post) s =
      finishNode w true d (driversEntry w d s).1 (driversEntry w d s).2.1
        (tryDrivers w true hu (devicePathOf (MAJOR d) (MINOR d)) (driversEntry w d s).2.1
          (driversEntry w d s).2.2).2 := by
    rw [mountLoop_cons, if_neg hc1, hE, if_neg (by rw [t1]; decide)]
    simp only []
    rw [if_pos (by rw [f1]; decide)]
  rw [hr]
  refine ⟨f1, f2, by rw [f3, t3, e3], ⟨(getNextLetter s.vol.mLetters).1, ?_⟩, by rw [f5, t5, e5]⟩
  rw [f4, t4, e4, e1]

/-- C10, as amended: a volume provides a secure container, `mSkipAsec` is
false and `mountVol` reaches its candidate loop, as it does from state Idle
only.  When the loop reaches the node `d` with no earlier node mounted (each
round before it skipped its node or saw both drivers fail), the check of `d`
passes or is ignored (`ro.factory.storage_suppntfs` read as "true"), the FAT
driver mounts `d` and `mountAsecExternal` then fails, `mountVol` returns -1 in
state Idle, has called `umount` once, on the mount point of `d`, has set no
property (so has not started the bridge service) and has left
`mCurrentlyMountedKdev` as it was. -/
theorem mountVol_bind_failure_rolls_back (w : World) (s : Sys) (nodes : List dev_t) (s0 : Sys)
    (pre : List dev_t) (d : dev_t) (post : List dev_t) (s1 : Sys)
    (hasec : s.vol.mFlags &&& VOL_PROVIDES_ASEC ≠ 0)
    (hskip : s.vol.mSkipAsec = false)
    (hentry : loopEntry w s = some (nodes, s0))
    (hsplit : nodes = pre ++ d :: post)
    (hreach : failedRounds w true (readHasUms w s) (readSupNtfs w s) pre s0 = some s1)
    (hd : readSupNtfs w s = true ∨
      w.fatCheck (setState w State_Checking { s1 with errno := 0 }).trace
        (devicePathOf (MAJOR d) (MINOR d)) = none)
    (hfat : w.fatDoMount (driversEntry w d s1).2.2.trace (devicePathOf (MAJOR d) (MINOR d))
      (driversEntry w d s1).2.1
      (if readHasUms w s = "true" then AID_SDCARD_RW else AID_MEDIA_RW) = none)
    (hbind : (mountAsecExternal w (bindEntry w true (readHasUms w s) d s1)).1 ≠ 0) :
    (mountVol w s).1 = -1 ∧
    (mountVol w s).2.vol.mState = State_Idle ∧
    (mountVol w s).2.vol.mCurrentlyMountedKdev = s.vol.mCurrentlyMountedKdev ∧
    (∃ letter, umountPaths (mountVol w s).2.trace = umountPaths s.trace ++
      [if isUsbDisk w s.vol.mLabel then
        w.getUdiskMountpoint (devicePathOf (MAJOR d) (MINOR d)) (MAJOR d) (MINOR d) letter
      else w.getMountpoint]) ∧
    propertySets (mountVol w s).2.trace = propertySets s.trace := by
  have hpa : (decide (s.vol.mFlags &&& VOL_PROVIDES_ASEC ≠ 0)) = true := by simpa using hasec
  obtain ⟨-, e1, e2⟩ := loopEntry_frame Event.umountPath w s nodes s0 hentry
  obtain ⟨-, -, e3⟩ := loopEntry_frame Event.propertySet w s nodes s0 hentry
  obtain ⟨f1, f2, f3, f4, f5⟩ := failedRounds_frame w _ _ pre s0 s1 hreach
  have hv : mountVol w s =
      mountLoop w true (readHasUms w s) (readSupNtfs w s) (d :: post) s1 := by
    rw [mountVol_entry w s nodes s0 hentry, hpa, hsplit]
    exact mountLoop_rounds w _ _ _ (d :: post) pre s0 s1
      (failedRounds_mountRounds w _ _ _ pre s0 s1 hreach)
  have hr := mountLoop_bind_fails w (readHasUms w s) (readSupNtfs w s) d post s1 hd hfat hbind
    (fun hne => by rw [f3 hne, e1]; exact hskip)
  rw [f1, f2, f4, f5, e1, e2, e3, ← hv] at hr
  exact hr

/-- C10, witness: the loop passes over the nodes 8:1 and 8:2, on which the
ignored check and both drivers fail, and the bind fails after the FAT driver
has mounted 8:3. -/
theorem mountVol_bind_failure_rolls_back_witness :
    (mountVol lateBindFailWorld (asecSys State_Idle)).1 = -1 ∧
    (mountVol lateBindFailWorld (asecSys State_Idle)).2.vol.mState = State_Idle ∧
    (mountVol lateBindFailWorld (asecSys State_Idle)).2.vol.mCurrentlyMountedKdev = -1 ∧
    umountPaths (mountVol lateBindFailWorld (asecSys State_Idle)).2.trace = ["/mnt/sdcard"] ∧
    propertySets (mountVol lateBindFailWorld (asecSys State_Idle)).2.trace = [] :=
  have h := mountVol_bind_failure_rolls_back lateBindFailWorld (asecSys State_Idle)
    [2049, 2050, 2051]
    ((loopEntry lateBindFailWorld (asecSys State_Idle)).getD ([], asecSys State_Idle)).2
    [2049, 2050] 2051 []
    ((failedRounds lateBindFailWorld true "false" true [2049, 2050]
      ((loopEntry lateBindFailWorld (asecSys State_Idle)).getD ([], asecSys State_Idle)).2).getD
        (asecSys State_Idle))
    (by decide) rfl (by decide) rfl (by decide) (Or.inl (by decide)) (by decide) (by decide)
  ⟨h.1, h.2.1, h.2.2.1, h.2.2.2.1.elim (fun _ e => e), h.2.2.2.2⟩

/-! ### The recorded device of a mounted volume -/

theorem mountLoop_mounted_device (w : World) (pa : Bool) (hu : String) (ns : Bool) (L : String)
    (hL : isUsbDisk w L = false) :
    ∀ (nodes : List dev_t) (s : Sys), s.vol.mLabel = L →
      (s.vol.mState = State_Idle ∨ s.vol.mState = State_Checking) →
      (mountLoop w pa hu ns nodes s).2.vol.mState = State_Mounted →
      (mountLoop w pa hu ns nodes s).2.vol.mCurrentlyMountedKdev ∈ nodes := by
  have a1 : (State_Idle, State_Checking) ∈ graphEdges := by simp [graphEdges]
  have a2 : (State_Checking, State_Idle) ∈ graphEdges := by simp [graphEdges]
  have a3 : (State_Checking, State_Mounted) ∈ graphEdges := by simp [graphEdges]
  intro nodes
  induction nodes with
  | nil =>
    intro s hl _ hm
    unfold mountLoop mountLoopEnd at hm
    rw [hl, hL] at hm
    simp at hm
  | cons dev rest ih =>
    intro s hl hs
    have hck : s.vol.mState = State_Checking ∨ (s.vol.mState, State_Checking) ∈ graphEdges := by
      rcases hs with h | h
      · exact Or.inr (by rw [h]; exact a1)
      · exact Or.inl h
    have h1 := checkNode_seg graphEdges w dev s hck
    have hd := preDrivers_seg graphEdges w pa hu dev s hck
    rw [mountLoop_cons]
    split
    · split
      · intro hm
        exact List.mem_cons_of_mem _ (ih _ (h1.2.2.1.trans hl) (Or.inr h1.2.1) hm)
      · intro hm
        simp at hm
    · split
      · have hc := mountFailedCleanup_seg graphEdges w
          (chooseMountPoint w dev { checkNode w dev s with errno := 0 }).2.1
          (chooseMountPoint w dev { checkNode w dev s with errno := 0 }).1 _ hd.2.1 a2
        have hf := hd.trans hc
        intro hm
        refine List.mem_cons_of_mem _ (ih (afterFailedNode w pa hu dev s) (hf.2.2.1.trans hl) ?_ hm)
        have := hf.2.1
        split at this
        · exact Or.inl this
        · exact Or.inr this
      · simp only []
        obtain ⟨f1, f2⟩ := finishNode_seg graphEdges w pa dev
          (chooseMountPoint w dev { checkNode w dev s with errno := 0 }).1
          (chooseMountPoint w dev { checkNode w dev s with errno := 0 }).2.1 _ hd.2.1 a2 a3
        split
        · rename_i hr
          intro hm
          rw [(f1 hr).2.1] at hm
          exact absurd hm (by decide)
        · rename_i hr
          obtain ⟨-, -, g3, g4⟩ := f2 (not_not.mp hr)
          split
          · rename_i hu'
            rw [g3, hd.2.2.1, hl, hL] at hu'
            exact absurd hu' (by decide)
          · intro _
            show (finishNode w pa dev _ _ _).2.vol.mCurrentlyMountedKdev ∈ dev :: rest
            rw [g4]
            exact List.mem_cons_self _ _

theorem mountVolNodes_mounted_device (w : World) (pa : Bool) (hu : String) (ns : Bool) (s : Sys)
    (husb : isUsbDisk w s.vol.mLabel = false) (hI : s.vol.mState = State_Idle)
    (hvalid : ∀ t max, (-1 : dev_t) ∉ w.getDeviceNodes t max) :
    (mountVolNodes w pa hu ns s).2.vol.mState = State_Mounted →
      (mountVolNodes w pa hu ns s).2.vol.mCurrentlyMountedKdev ≠ -1 := by
  have loop : ∀ (t : List Event) (s' : Sys), s'.vol = s.vol →
      (mountLoop w pa hu ns ((w.getDeviceNodes t 4).take 4) s').2.vol.mState = State_Mounted →
      (mountLoop w pa hu ns ((w.getDeviceNodes t 4).take 4) s').2.vol.mCurrentlyMountedKdev
        ≠ -1 := by
    intro t s' e hm hk
    have := mountLoop_mounted_device w pa hu ns s.vol.mLabel husb _ s' (by rw [e])
      (Or.inl (by rw [e]; exact hI)) hm
    rw [hk] at this
    exact hvalid t 4 (List.mem_of_mem_take this)
  have stop : ∀ (s' : Sys), s'.vol = s.vol → s'.vol.mState = State_Mounted →
      s'.vol.mCurrentlyMountedKdev ≠ -1 := by
    intro s' e hm
    rw [e, hI] at hm
    exact absurd hm (by decide)
  unfold mountVolNodes
  simp only [getDeviceNodes, property_get]
  repeat' split
  all_goals first
    | exact loop _ _ (by simp)
    | exact stop _ (by simp)

theorem mountVol_mounted_device (w : World) (s : Sys)
    (husb : isUsbDisk w s.vol.mLabel = false) (hI : s.vol.mState = State_Idle)
    (hnm : ∀ s', (isMountpointMounted w w.getMountpoint s').1 = false)
    (hvalid : ∀ t max, (-1 : dev_t) ∉ w.getDeviceNodes t max) :
    (mountVol w s).2.vol.mState = State_Mounted →
      (mountVol w s).2.vol.mCurrentlyMountedKdev ≠ -1 := by
  have nodes : ∀ pa hu ns (s' : Sys), s'.vol = s.vol →
      (mountVolNodes w pa hu ns s').2.vol.mState = State_Mounted →
      (mountVolNodes w pa hu ns s').2.vol.mCurrentlyMountedKdev ≠ -1 := fun pa hu ns s' e =>
    mountVolNodes_mounted_device w pa hu ns s' (by rw [e]; exact husb) (by rw [e]; exact hI)
      hvalid
  have stop : ∀ (s' : Sys), s'.vol = s.vol → s'.vol.mState = State_Mounted →
      s'.vol.mCurrentlyMountedKdev ≠ -1 := by
    intro s' e hm
    rw [e, hI] at hm
    exact absurd hm (by decide)
  unfold mountVol
  simp only [property_get, getDeviceNodes, emit_vol, husb, hnm, hI]
  repeat' split
  all_goals first
    | exact nodes _ _ _ _ (by simp)
    | contradiction
    | exact stop _ (by simp)

theorem unmountVol_mounted_device (w : World) (force revert : Bool) (s : Sys)
    (hm : s.vol.mState = State_Mounted) :
    (unmountVol w force revert s).2.vol.mState = State_Mounted →
      (unmountVol w force revert s).2.vol.mCurrentlyMountedKdev =
        s.vol.mCurrentlyMountedKdev := by
  rw [unmountVol_stages w force revert s hm]
  repeat' split
  all_goals simp [setUuid, setUserLabel]

theorem formatVol_idle_state (w : World) (wipe : Bool) (s : Sys)
    (hI : s.vol.mState = State_Idle)
    (hnm : ∀ s', (isMountpointMounted w w.getMountpoint s').1 = false) :
    (formatVol w wipe s).2.vol.mState = State_Idle := by
  have hN : s.vol.mState ≠ State_NoMedia := by rw [hI]; decide
  have hN' : ¬ State_Idle = State_NoMedia := by decide
  have hl : (setState w State_Formatting (isMountpointMounted w w.getMountpoint s).2).vol.mLabel
      = s.vol.mLabel := by simp
  have hpi : (isMountpointMounted w w.getMountpoint s).2.vol.mPartIdx = s.vol.mPartIdx := by
    simp
  by_cases hi : s.vol.mLabel = "internal_sd" <;> by_cases hp : s.vol.mPartIdx = -1
  all_goals
    unfold formatVol
    simp only [hI, hN, hN', if_false, ne_eq, not_true_eq_false, property_get, initializeMbr,
      hl, hpi, hi, hp, decide_True, decide_False, if_true, Bool.false_eq_true, hnm]
    repeat' split
    all_goals simp

theorem Op.run_mounted_has_device (w : World) (o : Op) (s : Sys)
    (husb : isUsbDisk w s.vol.mLabel = false)
    (hnm : ∀ s', (isMountpointMounted w w.getMountpoint s').1 = false)
    (hvalid : ∀ t max, (-1 : dev_t) ∉ w.getDeviceNodes t max)
    (hst : s.vol.mState = State_Mounted → s.vol.mCurrentlyMountedKdev ≠ -1) :
    (o.run w s).vol.mState = State_Mounted → (o.run w s).vol.mCurrentlyMountedKdev ≠ -1 := by
  cases o with
  | mount =>
    by_cases hI : s.vol.mState = State_Idle
    · exact mountVol_mounted_device w s husb hI hnm hvalid
    · obtain ⟨f1, f2⟩ := (mountVol_result w s.vol.mLabel
        (graphEdges ++ shortcutEdges w s.vol.mLabel)
        (by simp [graphEdges]) (by simp [graphEdges]) (by simp [graphEdges])
        (by simp [shortcutEdges]) (fun h => by simp [shortcutEdges, h]) s rfl).2 hI
      intro hm
      show (mountVol w s).2.vol.mCurrentlyMountedKdev ≠ -1
      rw [f2]
      exact hst (by rw [← f1]; exact hm)
  | unmount force revert =>
    by_cases hM : s.vol.mState = State_Mounted
    · intro hm
      show (unmountVol w force revert s).2.vol.mCurrentlyMountedKdev ≠ -1
      rw [unmountVol_mounted_device w force revert s hM hm]
      exact hst hM
    · obtain ⟨f1, -⟩ := (unmountVol_result w force revert
        (graphEdges ++ shortcutEdges w s.vol.mLabel) (by simp [graphEdges]) (by simp [graphEdges])
        (by simp [shortcutEdges]) (by simp [graphEdges]) s).2.2.1 hM
      intro hm
      exact absurd (f1.symm.trans hm) hM
  | format wipe =>
    obtain ⟨-, -, e2, e3⟩ := formatVol_result w wipe (graphEdges ++ shortcutEdges w s.vol.mLabel)
      (by simp [shortcutEdges]) (by simp [graphEdges]) (by simp [graphEdges]) s
    by_cases hI : s.vol.mState = State_Idle
    · intro hm
      have : (formatVol w wipe s).2.vol.mState = State_Idle := formatVol_idle_state w wipe s hI hnm
      exact absurd (this.symm.trans hm) (by decide)
    · intro hm
      show (formatVol w wipe s).2.vol.mCurrentlyMountedKdev ≠ -1
      rw [e2]
      exact hst ((e3 hI).symm.trans hm)

theorem runOps_mounted_has_device (w : World)
    (hnm : ∀ s', (isMountpointMounted w w.getMountpoint s').1 = false)
    (hvalid : ∀ t max, (-1 : dev_t) ∉ w.getDeviceNodes t max) :
    ∀ (ops : List Op) (s : Sys), isUsbDisk w s.vol.mLabel = false →
      (s.vol.mCurrentlyMountedKdev ≠ -1 →
        s.vol.mState = State_Mounted ∨ s.vol.mState = State_NoMedia) →
      (s.vol.mState = State_Mounted → s.vol.mCurrentlyMountedKdev ≠ -1) →
      (runOps w ops s).vol.mState = State_Mounted →
      (runOps w ops s).vol.mCurrentlyMountedKdev ≠ -1 := by
  intro ops
  induction ops with
  | nil => intro s _ _ h; exact h
  | cons o ops ih =>
    intro s husb hinv hst
    obtain ⟨e1, e2⟩ := Op.run_device_only_mounted_or_nomedia w o s husb hinv
    exact ih (o.run w s) (by rw [e1]; exact husb) e2
      (Op.run_mounted_has_device w o s husb hnm hvalid hst)

/-- C11, as amended: the volume is not the multi-partition USB disk, and in
the state `s` the recorded device differs from -1 only in the states Mounted
and NoMedia and does differ from -1 in the state Mounted (so for a volume as
constructed, and once the device class has set it Idle or NoMedia).  After any
sequence of calls of `mountVol`, `unmountVol` and `formatVol`, whatever the
surroundings answer, `mCurrentlyMountedKdev` differs from -1 only in the
states Mounted and NoMedia; and in the state Mounted it differs from -1 when
no call finds the mount path in the mount table and no device node is -1. -/
theorem runOps_device_valid (w : World) (ops : List Op) (s : Sys)
    (husb : isUsbDisk w s.vol.mLabel = false)
    (hdev : s.vol.mCurrentlyMountedKdev ≠ -1 →
      s.vol.mState = State_Mounted ∨ s.vol.mState = State_NoMedia)
    (hst : s.vol.mState = State_Mounted → s.vol.mCurrentlyMountedKdev ≠ -1) :
    ((runOps w ops s).vol.mCurrentlyMountedKdev ≠ -1 →
      (runOps w ops s).vol.mState = State_Mounted ∨
      (runOps w ops s).vol.mState = State_NoMedia) ∧
    ((∀ s', (isMountpointMounted w w.getMountpoint s').1 = false) →
      (∀ t max, (-1 : dev_t) ∉ w.getDeviceNodes t max) →
      (runOps w ops s).vol.mState = State_Mounted →
      (runOps w ops s).vol.mCurrentlyMountedKdev ≠ -1) :=
  ⟨runOps_device_only_mounted_or_nomedia w ops s husb hdev,
    fun hnm hvalid => runOps_mounted_has_device w hnm hvalid ops s husb hdev hst⟩

/-- C11, witness: the card of the calm world is mounted, unmounted and
mounted again. -/
theorem runOps_device_valid_witness :
    (runOps calmWorld [.mount, .unmount false false, .mount] sdcardSys).vol.mState =
      State_Mounted ∧
    (runOps calmWorld [.mount, .unmount false false, .mount] sdcardSys).vol.mCurrentlyMountedKdev
      ≠ -1 :=
  ⟨by decide,
    (runOps_device_valid calmWorld [.mount, .unmount false false, .mount] sdcardSys (by decide)
      (fun h => absurd rfl h) (fun h => absurd h (by decide))).2
      (fun _ => rfl) (fun _ _ => (by decide : (-1 : dev_t) ∉ [2049])) (by decide)⟩

set_option maxRecDepth 100000 in
theorem unmountVol_lost_bind :
    (runOps lostBindWorld [.mount, .unmount false false] (asecSys State_Idle)).vol.mState =
      State_NoMedia ∧
    (runOps lostBindWorld [.mount, .unmount false false]
      (asecSys State_Idle)).vol.mCurrentlyMountedKdev = 2049 := by
  decide

/-- C11, as stated, fails once the device class has set the volume Idle (from
the state Init of the constructor the three calls change nothing).  From a
volume as constructed and set Idle, with no recorded device: `mountVol` finds
the mount path in the mount table and leaves the state Mounted with no
recorded device; `mountVol` and then an `unmountVol` that can neither unmount
the mount path nor bind the secure directory again leave the state NoMedia
with the device 8:1 recorded; and on the multi-partition USB disk `mountVol`
mounts 8:1, fails to bind on 8:2 and leaves the state Idle with the device 8:1
recorded. -/
theorem device_valid_not_iff_mounted :
    (setState calmWorld State_Idle ⟨Volume.fresh "sdcard" 0 1, 0, []⟩).vol = sdcardSys.vol ∧
    (setState calmWorld State_Idle ⟨Volume.fresh "sdcard" VOL_PROVIDES_ASEC 1, 0, []⟩).vol =
      (asecSys State_Idle).vol ∧
    (setState calmWorld State_Idle ⟨Volume.fresh "usb_storage" VOL_PROVIDES_ASEC 1, 0, []⟩).vol =
      usbSys.vol ∧
    sdcardSys.vol.mCurrentlyMountedKdev = -1 ∧
    (asecSys State_Idle).vol.mCurrentlyMountedKdev = -1 ∧
    usbSys.vol.mCurrentlyMountedKdev = -1 ∧
    (runOps alreadyMountedWorld [.mount] sdcardSys).vol.mState = State_Mounted ∧
    (runOps alreadyMountedWorld [.mount] sdcardSys).vol.mCurrentlyMountedKdev = -1 ∧
    (runOps lostBindWorld [.mount, .unmount false false] (asecSys State_Idle)).vol.mState =
      State_NoMedia ∧
    (runOps lostBindWorld [.mount, .unmount false false]
      (asecSys State_Idle)).vol.mCurrentlyMountedKdev = 2049 ∧
    (runOps usbWorld [.mount] usbSys).vol.mState = State_Idle ∧
    (runOps usbWorld [.mount] usbSys).vol.mCurrentlyMountedKdev = 2049 :=
  ⟨by decide, by decide, by decide, by decide, by decide, by decide, by decide, by decide,
    unmountVol_lost_bind.1, unmountVol_lost_bind.2, by decide, by decide⟩

end Vold
